import Mathlib

/-! Resilience ledger of the sensor firmware (main/volf_error.c)

A shallow embedding of the error ledger: the file-scope statics of
volf_error.c become the fields of one `State` record, the NVS namespace
"volf.errors" becomes an association list, and every function of the module
becomes a state-passing Lean function with the source's name. The two
voltage conversions of battery_state.c and sensors/soil_moisture_sensor.c
are embedded as functions on natural numbers below 2^32.
-/

namespace Volf

/-! ## Constants of volf_error.h and volf_error.c -/

def MAX_ERROR_CONTEXT_SIZE : Nat := 64
def MAX_CONTINUE_CONTEXTS : Nat := 5
def MAX_PUBLISH_ATTEMPTS : Nat := 3
def MAX_ERROR_LOGS : Nat := 5
def MAX_KEY_SIZE : Nat := 12
def ERROR_LOG_COUNT_KEY : String := "ELC"

/-! ## Status codes of the platform (esp_err.h, nvs.h) -/

def ESP_OK : Int := 0
def ESP_ERR_NVS_NOT_FOUND : Int := 0x1102
def ESP_ERR_NVS_TYPE_MISMATCH : Int := 0x1103
def ESP_ERR_NVS_READ_ONLY : Int := 0x1104
def ESP_ERR_NVS_INVALID_HANDLE : Int := 0x1107
def ESP_ERR_NVS_INVALID_LENGTH : Int := 0x110c

/-- The enum volf_error_t of volf_error.h. -/
inductive volf_error_t where
  | CONTINUE
  | RETRY
  | ABORT
  deriving DecidableEq, Repr

/-! ## String formatting -/

/-- The conversion `%d` of printf for an `int` argument. -/
def fmt_d (i : Int) : String :=
  match i with
  | Int.ofNat n => Nat.repr n
  | Int.negSucc n => "-" ++ Nat.repr (n + 1)

/-- The call snprintf(buf, size, ...): of the full expansion at most
`size - 1` characters are kept (the last byte of the buffer is the NUL). -/
def snprintf (size : Nat) (expansion : String) : String :=
  String.mk (expansion.data.take (size - 1))

/-- Expansion of the template "PAC_%d". -/
def PUBLISH_ATTEMPT_COUNT_KEY_TEMPLATE (elc : Nat) : String :=
  "PAC_" ++ fmt_d elc

/-- Expansion of the template "PAR_%d_%d". -/
def PUBLISH_ATTEMPT_RUNTIME_KEY_TEMPLATE (elc pac : Nat) : String :=
  "PAR_" ++ fmt_d elc ++ "_" ++ fmt_d pac

/-- Expansion of the template "EC_%d_%d_%d". -/
def ERROR_CONTINUE_KEY_TEMPLATE (elc pac cc : Nat) : String :=
  "EC_" ++ fmt_d elc ++ "_" ++ fmt_d pac ++ "_" ++ fmt_d cc

/-- Expansion of the template "ER_%d_%d". -/
def ERROR_RETRY_KEY_TEMPLATE (elc pac : Nat) : String :=
  "ER_" ++ fmt_d elc ++ "_" ++ fmt_d pac

/-- Expansion of the template "EA_%d_%d". -/
def ERROR_ABORT_KEY_TEMPLATE (elc pac : Nat) : String :=
  "EA_" ++ fmt_d elc ++ "_" ++ fmt_d pac

/-! ## The key-value store (NVS namespace "volf.errors") -/

/-- A typed NVS entry. -/
inductive nvs_value where
  | u8 (v : Nat)
  | u32 (v : Nat)
  | str (v : String)
  deriving DecidableEq, Repr

/-- Contents of the namespace: key, value pairs with pairwise distinct keys. -/
abbrev Store := List (String × nvs_value)

/-- Mode of nvs_open. -/
inductive nvs_open_mode_t where
  | NVS_READONLY
  | NVS_READWRITE
  deriving DecidableEq, Repr

/-- A handle variable: `none` is a handle that was never opened. -/
abbrev nvs_handle_t := Option nvs_open_mode_t

/-- Replace or add the entry of a key. -/
def Store.put (st : Store) (k : String) (v : nvs_value) : Store :=
  (k, v) :: st.filter (fun e => e.1 != k)

/-! ## In-memory ledger (volf_error.h) -/

/-- Mirror of struct volf_publish_attempt. -/
structure volf_publish_attempt where
  runtime : Nat
  retry_context : String
  abort_context : String
  continue_contexts : List String
  num_continue_contexts : Nat
  deriving DecidableEq, Repr

/-- Mirror of struct volf_error_log. -/
structure volf_error_log where
  publish_attempts : List volf_publish_attempt
  num_publish_attempts : Nat
  deriving DecidableEq, Repr

/-- Mirror of struct volf_errors. -/
structure volf_errors where
  error_logs : List volf_error_log
  num_error_logs : Nat
  deriving DecidableEq, Repr

/-- A zero-initialised struct volf_publish_attempt. -/
def volf_publish_attempt.zero : volf_publish_attempt :=
  { runtime := 0, retry_context := "", abort_context := "",
    continue_contexts := List.replicate MAX_CONTINUE_CONTEXTS "",
    num_continue_contexts := 0 }

/-- A zero-initialised struct volf_error_log. -/
def volf_error_log.zero : volf_error_log :=
  { publish_attempts := List.replicate MAX_PUBLISH_ATTEMPTS volf_publish_attempt.zero,
    num_publish_attempts := 0 }

/-- A zero-initialised struct volf_errors (a static at program start). -/
def volf_errors.zero : volf_errors :=
  { error_logs := List.replicate MAX_ERROR_LOGS volf_error_log.zero,
    num_error_logs := 0 }

/-- One invocation of a registered handler: which handler ran, and what the
store held at that moment. -/
structure HandlerCall where
  handler : Nat
  store : Store
  deriving DecidableEq, Repr

/-- The statics of volf_error.c together with the environment they act on. -/
structure State where
  /-- the persisted namespace "volf.errors" -/
  nvs : Store
  /-- status codes forced on the coming NVS operations, one per operation in
  call order; 0, or an exhausted list, lets the operation run normally -/
  faults : List Int
  /-- what xTaskGetTickCount() returns -/
  tick_count : Nat
  /-- the FreeRTOS configuration constant portTICK_PERIOD_MS -/
  portTICK_PERIOD_MS : Nat
  error_log_count : Nat
  publish_attempt_count : Nat
  continue_count : Nat
  abort_handler : Option Nat
  retry_handler : Option Nat
  continue_handler : Option Nat
  initialized : Bool
  loaded_errors : volf_errors
  /-- handler invocations so far, oldest first -/
  calls : List HandlerCall
  /-- set when an array of loaded_errors was indexed outside its bounds: the
  program then reads or writes memory outside the array, which is undefined
  behaviour, and from there on the other fields no longer describe the memory
  of the program -/
  out_of_bounds : Bool
  deriving DecidableEq, Repr

/-! ## NVS primitives

The calls of nvs.h that the module uses, over the `Store`. Each operation
first consumes one entry of `faults`; a non-zero entry is returned as the
operation's status and the operation has no effect. Values written are
durable at once. nvs_close has no effect on the model and is left out. -/

/-- Take the status forced on the next NVS operation. -/
def take_fault (s : State) : Int × State :=
  (s.faults.headD 0, { s with faults := s.faults.tail })

/-- The call nvs_open(NVS_NAME_ERRORS, mode, &handle). -/
def nvs_open (mode : nvs_open_mode_t) (s : State) : Int × nvs_handle_t × State :=
  let (f, s) := take_fault s
  if f ≠ 0 then (f, none, s) else (ESP_OK, some mode, s)

/-- The call nvs_get_u8(handle, key, &out): the value on ESP_OK, else the
status; the out parameter is then untouched. -/
def nvs_get_u8 (h : nvs_handle_t) (key : String) (s : State) : Except Int Nat × State :=
  let (f, s) := take_fault s
  if f ≠ 0 then (Except.error f, s) else
  match h with
  | none => (Except.error ESP_ERR_NVS_INVALID_HANDLE, s)
  | some _ =>
    match s.nvs.lookup key with
    | some (nvs_value.u8 v) => (Except.ok v, s)
    | some _ => (Except.error ESP_ERR_NVS_TYPE_MISMATCH, s)
    | none => (Except.error ESP_ERR_NVS_NOT_FOUND, s)

/-- The call nvs_get_u32(handle, key, &out). -/
def nvs_get_u32 (h : nvs_handle_t) (key : String) (s : State) : Except Int Nat × State :=
  let (f, s) := take_fault s
  if f ≠ 0 then (Except.error f, s) else
  match h with
  | none => (Except.error ESP_ERR_NVS_INVALID_HANDLE, s)
  | some _ =>
    match s.nvs.lookup key with
    | some (nvs_value.u32 v) => (Except.ok v, s)
    | some _ => (Except.error ESP_ERR_NVS_TYPE_MISMATCH, s)
    | none => (Except.error ESP_ERR_NVS_NOT_FOUND, s)

/-- The call nvs_get_str(handle, key, buf, &length) with `length` holding the
buffer size in bytes: a string whose UTF-8 bytes do not fit with the NUL is
not copied. -/
def nvs_get_str (h : nvs_handle_t) (key : String) (length : Nat) (s : State) :
    Except Int String × State :=
  let (f, s) := take_fault s
  if f ≠ 0 then (Except.error f, s) else
  match h with
  | none => (Except.error ESP_ERR_NVS_INVALID_HANDLE, s)
  | some _ =>
    match s.nvs.lookup key with
    | some (nvs_value.str v) =>
      if v.utf8ByteSize + 1 ≤ length then (Except.ok v, s)
      else (Except.error ESP_ERR_NVS_INVALID_LENGTH, s)
    | some _ => (Except.error ESP_ERR_NVS_TYPE_MISMATCH, s)
    | none => (Except.error ESP_ERR_NVS_NOT_FOUND, s)

/-- Common part of nvs_set_u8, nvs_set_u32 and nvs_set_str. -/
def nvs_set (h : nvs_handle_t) (key : String) (v : nvs_value) (s : State) : Int × State :=
  let (f, s) := take_fault s
  if f ≠ 0 then (f, s) else
  match h with
  | none => (ESP_ERR_NVS_INVALID_HANDLE, s)
  | some nvs_open_mode_t.NVS_READONLY => (ESP_ERR_NVS_READ_ONLY, s)
  | some nvs_open_mode_t.NVS_READWRITE => (ESP_OK, { s with nvs := s.nvs.put key v })

/-- The call nvs_set_u8(handle, key, value). -/
def nvs_set_u8 (h : nvs_handle_t) (key : String) (v : Nat) (s : State) : Int × State :=
  nvs_set h key (nvs_value.u8 v) s

/-- The call nvs_set_u32(handle, key, value). -/
def nvs_set_u32 (h : nvs_handle_t) (key : String) (v : Nat) (s : State) : Int × State :=
  nvs_set h key (nvs_value.u32 v) s

/-- The call nvs_set_str(handle, key, value). -/
def nvs_set_str (h : nvs_handle_t) (key : String) (v : String) (s : State) : Int × State :=
  nvs_set h key (nvs_value.str v) s

/-- The call nvs_erase_all(handle): refused on a read-only handle. -/
def nvs_erase_all (h : nvs_handle_t) (s : State) : Int × State :=
  let (f, s) := take_fault s
  if f ≠ 0 then (f, s) else
  match h with
  | none => (ESP_ERR_NVS_INVALID_HANDLE, s)
  | some nvs_open_mode_t.NVS_READONLY => (ESP_ERR_NVS_READ_ONLY, s)
  | some nvs_open_mode_t.NVS_READWRITE => (ESP_OK, { s with nvs := [] })

/-! ## The functions of volf_error.c -/

/-- Calling a handler pointer when it is not NULL. -/
def call_handler (h : Option Nat) (s : State) : State :=
  match h with
  | none => s
  | some f => { s with calls := s.calls ++ [{ handler := f, store := s.nvs }] }

def volf_register_error_handler (error : volf_error_t) (handler : Option Nat) (s : State) :
    State :=
  match error with
  | volf_error_t.RETRY => { s with retry_handler := handler }
  | volf_error_t.ABORT => { s with abort_handler := handler }
  | volf_error_t.CONTINUE => { s with continue_handler := handler }

/-- The argument is the pointer parameter: `none` is NULL. -/
def volf_clear_and_close (nvs_handle : Option nvs_handle_t) (s : State) : State :=
  match nvs_handle with
  | some nvs_errors_handle =>
    let (_, s) := nvs_erase_all nvs_errors_handle s
    { s with error_log_count := 0, publish_attempt_count := 0, continue_count := 0 }
  | none =>
    let (err, nvs_errors_handle, s) := nvs_open nvs_open_mode_t.NVS_READWRITE s
    if err ≠ ESP_OK then s else
    let (_, s) := nvs_erase_all nvs_errors_handle s
    { s with error_log_count := 0, publish_attempt_count := 0, continue_count := 0 }

def volf_clear_errors (s : State) : State :=
  volf_clear_and_close none s

def volf_store_runtime (nvs_handle : nvs_handle_t) (s : State) : Int × State :=
  let publish_attempt_runtime := (s.tick_count * s.portTICK_PERIOD_MS) % 2 ^ 32
  let publish_attempt_runtime_key :=
    snprintf MAX_KEY_SIZE
      (PUBLISH_ATTEMPT_RUNTIME_KEY_TEMPLATE s.error_log_count s.publish_attempt_count)
  let (err, s) := nvs_set_u32 nvs_handle publish_attempt_runtime_key publish_attempt_runtime s
  if err ≠ 0 ∧ err ≠ ESP_ERR_NVS_NOT_FOUND then (err, s) else (ESP_OK, s)

/-- Returns the key written into the buffer together with the state, as the
CONTINUE case increments continue_count. -/
def volf_build_error_context_key (error : volf_error_t) (s : State) : String × State :=
  match error with
  | volf_error_t.RETRY =>
    (snprintf MAX_KEY_SIZE (ERROR_RETRY_KEY_TEMPLATE s.error_log_count s.publish_attempt_count), s)
  | volf_error_t.ABORT =>
    (snprintf MAX_KEY_SIZE (ERROR_ABORT_KEY_TEMPLATE s.error_log_count s.publish_attempt_count), s)
  | volf_error_t.CONTINUE =>
    let s := { s with continue_count := (s.continue_count + 1) % 256 }
    (snprintf MAX_KEY_SIZE
      (ERROR_CONTINUE_KEY_TEMPLATE s.error_log_count s.publish_attempt_count s.continue_count), s)

def volf_store_error_log_counts (nvs_handle : nvs_handle_t) (s : State) : Int × State :=
  let (err, s) := nvs_set_u8 nvs_handle ERROR_LOG_COUNT_KEY s.error_log_count s
  if err ≠ 0 then (err, s) else
  let publish_attempt_count_key :=
    snprintf MAX_KEY_SIZE (PUBLISH_ATTEMPT_COUNT_KEY_TEMPLATE s.error_log_count)
  nvs_set_u8 nvs_handle publish_attempt_count_key s.publish_attempt_count s

/-- The buffer context_and_rc after snprintf(context_and_rc, strlen(context) + 10,
"%s(%d)", context, associated_rc). -/
def context_and_rc (context : String) (associated_rc : Int) : String :=
  snprintf (context.length + 10) (context ++ "(" ++ fmt_d associated_rc ++ ")")

def volf_store_error_context (error : volf_error_t) (context : String) (associated_rc : Int)
    (s : State) : State :=
  let (err, nvs_handle, s) := nvs_open nvs_open_mode_t.NVS_READWRITE s
  if err ≠ ESP_OK then s else
  let (err, s) := volf_store_error_log_counts nvs_handle s
  if err ≠ ESP_OK then volf_clear_and_close (some nvs_handle) s else
  let (error_context_key, s) := volf_build_error_context_key error s
  let (err, s) := nvs_set_str nvs_handle error_context_key (context_and_rc context associated_rc) s
  if err ≠ ESP_OK ∧ err ≠ ESP_ERR_NVS_NOT_FOUND then volf_clear_and_close (some nvs_handle) s else
  if error ≠ volf_error_t.CONTINUE then
    let (err, s) := volf_store_runtime nvs_handle s
    if err ≠ ESP_OK then volf_clear_and_close (some nvs_handle) s else s
  else s

/-- The while loop of volf_read_publish_attempt; `remaining` is
MAX_CONTINUE_CONTEXTS + 1 - continue_num, the iterations left before the
loop condition fails. Setting continue_num to -1 is the early exit. -/
def read_continue_contexts (nvs_handle : nvs_handle_t) (log_num attempt_num : Nat) :
    (remaining : Nat) → (continue_num : Nat) → volf_publish_attempt → State →
    volf_publish_attempt × State
  | 0, _, attempt, s => (attempt, s)
  | remaining + 1, continue_num, attempt, s =>
    let nvs_key :=
      snprintf MAX_KEY_SIZE (ERROR_CONTINUE_KEY_TEMPLATE log_num attempt_num continue_num)
    let (rc, s) := nvs_get_str nvs_handle nvs_key MAX_ERROR_CONTEXT_SIZE s
    match rc with
    | Except.error _ =>
      ({ attempt with num_continue_contexts := continue_num - 1 }, s)
    | Except.ok v =>
      read_continue_contexts nvs_handle log_num attempt_num remaining (continue_num + 1)
        { attempt with continue_contexts := attempt.continue_contexts.set (continue_num - 1) v } s

/-- The attempt is passed and returned by value in place of the pointer. -/
def volf_read_publish_attempt (nvs_handle : nvs_handle_t) (attempt : volf_publish_attempt)
    (log_num attempt_num : Nat) (s : State) : volf_publish_attempt × State :=
  let (r, s) := nvs_get_u32 nvs_handle
    (snprintf MAX_KEY_SIZE (PUBLISH_ATTEMPT_RUNTIME_KEY_TEMPLATE log_num attempt_num)) s
  let attempt :=
    match r with
    | Except.ok v => { attempt with runtime := v }
    | Except.error _ => attempt
  let (rc, s) := nvs_get_str nvs_handle
    (snprintf MAX_KEY_SIZE (ERROR_RETRY_KEY_TEMPLATE log_num attempt_num)) MAX_ERROR_CONTEXT_SIZE s
  let attempt :=
    match rc with
    | Except.ok v => { attempt with retry_context := v }
    | Except.error _ => attempt
  let (rc, s) := nvs_get_str nvs_handle
    (snprintf MAX_KEY_SIZE (ERROR_ABORT_KEY_TEMPLATE log_num attempt_num)) MAX_ERROR_CONTEXT_SIZE s
  let attempt :=
    match rc with
    | Except.ok v => { attempt with abort_context := v }
    | Except.error _ => attempt
  read_continue_contexts nvs_handle log_num attempt_num MAX_CONTINUE_CONTEXTS 1 attempt s

/-- The inner for loop of volf_read_errors; `remaining` is
logged_publish_attempts + 1 - publish_attempt_num. With an index outside
error_logs or publish_attempts the source reads the store into memory outside
the array; the embedding cannot say what that memory is, so it sets
`out_of_bounds` and leaves the access out. It follows the source as long as
the flag is not set. -/
def read_publish_attempts (nvs_handle : nvs_handle_t) (error_log_num error_log_index : Nat) :
    (remaining : Nat) → (publish_attempt_num : Nat) → State → State
  | 0, _, s => s
  | remaining + 1, publish_attempt_num, s =>
    match s.loaded_errors.error_logs[error_log_index]? with
    | none =>
      read_publish_attempts nvs_handle error_log_num error_log_index remaining
        (publish_attempt_num + 1) { s with out_of_bounds := true }
    | some log =>
      match log.publish_attempts[publish_attempt_num - 1]? with
      | none =>
        read_publish_attempts nvs_handle error_log_num error_log_index remaining
          (publish_attempt_num + 1) { s with out_of_bounds := true }
      | some current_attempt =>
        let (attempt, s) :=
          volf_read_publish_attempt nvs_handle current_attempt error_log_num publish_attempt_num s
        let log :=
          { log with publish_attempts := log.publish_attempts.set (publish_attempt_num - 1) attempt }
        let s :=
          { s with loaded_errors :=
              { s.loaded_errors with
                error_logs := s.loaded_errors.error_logs.set error_log_index log } }
        read_publish_attempts nvs_handle error_log_num error_log_index remaining
          (publish_attempt_num + 1) s

/-- The assignment loaded_errors.error_logs[error_log_index].num_publish_attempts = n.
With an index outside error_logs the source writes outside the array; the
embedding sets `out_of_bounds` in its place. -/
def set_num_publish_attempts (error_log_index n : Nat) (s : State) : State :=
  match s.loaded_errors.error_logs[error_log_index]? with
  | none => { s with out_of_bounds := true }
  | some log =>
    { s with loaded_errors :=
        { s.loaded_errors with
          error_logs :=
            s.loaded_errors.error_logs.set error_log_index { log with num_publish_attempts := n } } }

/-- The outer for loop of volf_read_errors; `remaining` is
error_log_count + 1 - error_log_num. -/
def read_error_logs (nvs_handle : nvs_handle_t) :
    (remaining : Nat) → (error_log_num : Nat) → (error_log_index : Nat) → State → State
  | 0, _, _, s => s
  | remaining + 1, error_log_num, error_log_index, s =>
    let (rc, s) := nvs_get_u8 nvs_handle
      (snprintf MAX_KEY_SIZE (PUBLISH_ATTEMPT_COUNT_KEY_TEMPLATE error_log_num)) s
    match rc with
    | Except.error _ =>
      read_error_logs nvs_handle remaining (error_log_num + 1) error_log_index s
    | Except.ok logged_publish_attempts =>
      if logged_publish_attempts > MAX_PUBLISH_ATTEMPTS then
        volf_clear_and_close (some nvs_handle) s
      else
        let s := read_publish_attempts nvs_handle error_log_num error_log_index
          logged_publish_attempts 1 s
        let s := set_num_publish_attempts error_log_index logged_publish_attempts s
        let s :=
          { s with loaded_errors :=
              { s.loaded_errors with
                num_error_logs := (s.loaded_errors.num_error_logs + 1) % 256 } }
        read_error_logs nvs_handle remaining (error_log_num + 1) ((error_log_index + 1) % 256) s

/-- When nvs_open fails the code only logs and goes on with the handle it
has, which is not a valid one. -/
def volf_read_errors (s : State) : State :=
  let s := { s with loaded_errors := { s.loaded_errors with num_error_logs := 0 } }
  let (_, nvs_handle, s) := nvs_open nvs_open_mode_t.NVS_READONLY s
  read_error_logs nvs_handle s.error_log_count 1 0 s

def volf_error_init (s : State) : State :=
  let (err, my_handle, s) := nvs_open nvs_open_mode_t.NVS_READWRITE s
  if err ≠ ESP_OK then s else
  let (r, s) := nvs_get_u8 my_handle ERROR_LOG_COUNT_KEY s
  match r with
  | Except.error err =>
    if err = ESP_ERR_NVS_NOT_FOUND then s
    else
      let (_, s) := nvs_erase_all my_handle s
      { s with initialized := true }
  | Except.ok v =>
    let s := { s with error_log_count := v }
    let s :=
      if s.error_log_count > 0 then
        let s := volf_read_errors s
        let (r, s) := nvs_get_u8 my_handle
          (snprintf MAX_KEY_SIZE (PUBLISH_ATTEMPT_COUNT_KEY_TEMPLATE s.error_log_count)) s
        match r with
        | Except.ok v => { s with publish_attempt_count := v }
        | Except.error _ => s
      else { s with error_log_count := 1 }
    { s with publish_attempt_count := (s.publish_attempt_count + 1) % 256, initialized := true }

/-- The statement `if (!initialized) { volf_error_init(); }` that opens
volf_errors_available and volf_handle_error. -/
def lazy_init (s : State) : State :=
  if s.initialized = false then volf_error_init s else s

def volf_errors_available (s : State) : Bool × State :=
  let s := lazy_init s
  (s.loaded_errors.num_error_logs != 0, s)

/-- Returns the ledger for &loaded_errors and `none` for NULL. -/
def volf_get_errors (s : State) : Option volf_errors × State :=
  let (available, s) := volf_errors_available s
  if available then (some s.loaded_errors, s) else (none, s)

def volf_increment_error_log_count (s : State) : State :=
  if s.error_log_count + 1 > MAX_ERROR_LOGS then volf_clear_and_close none s
  else
    let (rc, nvs_handle, s) := nvs_open nvs_open_mode_t.NVS_READWRITE s
    if rc ≠ ESP_OK then s
    else
      let (rc, s) := nvs_set_u8 nvs_handle ERROR_LOG_COUNT_KEY ((s.error_log_count + 1) % 256) s
      if rc ≠ ESP_OK then volf_clear_and_close (some nvs_handle) s else s

def volf_handle_error (error : volf_error_t) (context : String) (associated_rc : Int)
    (s : State) : State :=
  let s := lazy_init s
  if associated_rc = ESP_OK then s else
  let s := volf_store_error_context error context associated_rc s
  let error :=
    if s.publish_attempt_count ≥ MAX_PUBLISH_ATTEMPTS ∧ error ≠ volf_error_t.CONTINUE then
      volf_error_t.ABORT
    else error
  match error with
  | volf_error_t.RETRY => call_handler s.retry_handler s
  | volf_error_t.ABORT =>
    let s := volf_increment_error_log_count s
    call_handler s.abort_handler s
  | volf_error_t.CONTINUE => call_handler s.continue_handler s

/-! ## Program start -/

/-- The state of a program start over a given namespace: every static of
volf_error.c holds its initialiser. -/
def power_on (nvs : Store) (tick_period_ms : Nat) : State :=
  { nvs := nvs, faults := [], tick_count := 0, portTICK_PERIOD_MS := tick_period_ms,
    error_log_count := 0, publish_attempt_count := 0, continue_count := 0,
    abort_handler := none, retry_handler := none, continue_handler := none,
    initialized := false, loaded_errors := volf_errors.zero, calls := [],
    out_of_bounds := false }

/-- A restart of the device (esp_restart, or the wake-up that follows
esp_deep_sleep_start): the namespace persists, the statics are
re-initialised; the record of handler calls is kept. -/
def restart (s : State) : State :=
  { power_on s.nvs s.portTICK_PERIOD_MS with faults := s.faults, calls := s.calls }

/-- Program start as in app_main: volf_error_init, then the registration of
the handlers (app_main registers RETRY and ABORT and leaves CONTINUE out;
here each tier takes an optional handler). -/
def start_up (continue_h retry_h abort_h : Option Nat) (s : State) : State :=
  volf_register_error_handler volf_error_t.CONTINUE continue_h
    (volf_register_error_handler volf_error_t.ABORT abort_h
      (volf_register_error_handler volf_error_t.RETRY retry_h (volf_error_init s)))

/-! ## Specification-side notions -/

/-- The promotion rule in the words of the specification: an attempt count
that has reached MAX_PUBLISH_ATTEMPTS turns every severity but CONTINUE
into ABORT. -/
def promote (severity : volf_error_t) (attempt_count : Nat) : volf_error_t :=
  if attempt_count ≥ MAX_PUBLISH_ATTEMPTS ∧ severity ≠ volf_error_t.CONTINUE then
    volf_error_t.ABORT
  else severity

/-- The handler registered for a tier. -/
def registered (s : State) (severity : volf_error_t) : Option Nat :=
  match severity with
  | volf_error_t.RETRY => s.retry_handler
  | volf_error_t.ABORT => s.abort_handler
  | volf_error_t.CONTINUE => s.continue_handler

/-- The part of the state that only volf_register_error_handler and a
handler call change. -/
def State.fixed (s : State) :
    Nat × Nat × Option Nat × Option Nat × Option Nat × List HandlerCall :=
  (s.tick_count, s.portTICK_PERIOD_MS, s.abort_handler, s.retry_handler, s.continue_handler,
    s.calls)

/-- The three cursors. -/
def State.cursors (s : State) : Nat × Nat × Nat :=
  (s.error_log_count, s.publish_attempt_count, s.continue_count)

/-- The state a successful wipe leads to: namespace erased, cursors zero. -/
def wiped (s : State) : State :=
  { s with nvs := [], error_log_count := 0, publish_attempt_count := 0, continue_count := 0 }

/-- The store once the two counters and the diagnostic string of a failure
are written, in the order volf_store_error_context writes them. -/
def persisted (error : volf_error_t) (ctx : String) (rc : Int) (s : State) : Store :=
  ((s.nvs.put ERROR_LOG_COUNT_KEY (nvs_value.u8 s.error_log_count)).put
      (snprintf MAX_KEY_SIZE (PUBLISH_ATTEMPT_COUNT_KEY_TEMPLATE s.error_log_count))
      (nvs_value.u8 s.publish_attempt_count)).put
    (volf_build_error_context_key error s).1 (nvs_value.str (context_and_rc ctx rc))

/-- The key and value volf_store_runtime writes. -/
def runtime_key (s : State) : String :=
  snprintf MAX_KEY_SIZE
    (PUBLISH_ATTEMPT_RUNTIME_KEY_TEMPLATE s.error_log_count s.publish_attempt_count)

/-- The uptime in milliseconds as a uint32_t. -/
def runtime_value (s : State) : Nat :=
  (s.tick_count * s.portTICK_PERIOD_MS) % 2 ^ 32

/-- No log among the `n` logs from index `error_log_num` on stores more than
MAX_PUBLISH_ATTEMPTS attempts: the loop of volf_read_errors does not wipe. -/
def no_excess (st : Store) : (n : Nat) → (error_log_num : Nat) → Bool
  | 0, _ => true
  | n + 1, error_log_num =>
    (match st.lookup (snprintf MAX_KEY_SIZE (PUBLISH_ATTEMPT_COUNT_KEY_TEMPLATE error_log_num)) with
      | some (nvs_value.u8 v) => decide (v ≤ MAX_PUBLISH_ATTEMPTS)
      | _ => true) && no_excess st n (error_log_num + 1)

/-- Everything but the cursors, the in-memory ledger and its bounds flag. -/
def State.core (s : State) :
    Store × List Int × Bool × Nat × Nat × Option Nat × Option Nat × Option Nat × List HandlerCall :=
  (s.nvs, s.faults, s.initialized, s.fixed)

/-- The first three characters of a key, which tell its role. -/
def key_role (k : String) : List Char :=
  k.data.take 3

/-- The state with the namespace replaced. -/
def State.with_nvs (s : State) (st : Store) : State :=
  { s with nvs := st }

/-- The tail of volf_handle_error, from the promotion test to the handler
call, run on the state the persistence step leaves. -/
def dispatch (error : volf_error_t) (s : State) : State :=
  match promote error s.publish_attempt_count with
  | volf_error_t.RETRY => call_handler s.retry_handler s
  | volf_error_t.ABORT =>
    call_handler (volf_increment_error_log_count s).abort_handler
      (volf_increment_error_log_count s)
  | volf_error_t.CONTINUE => call_handler s.continue_handler s

/-- The state volf_store_error_context leads to when every store operation
succeeds. -/
def stored (error : volf_error_t) (ctx : String) (rc : Int) (s : State) : State :=
  match error with
  | volf_error_t.CONTINUE =>
    { s.with_nvs (persisted volf_error_t.CONTINUE ctx rc s) with
      continue_count := (s.continue_count + 1) % 256 }
  | volf_error_t.RETRY =>
    s.with_nvs ((persisted volf_error_t.RETRY ctx rc s).put (runtime_key s)
      (nvs_value.u32 (runtime_value s)))
  | volf_error_t.ABORT =>
    s.with_nvs ((persisted volf_error_t.ABORT ctx rc s).put (runtime_key s)
      (nvs_value.u32 (runtime_value s)))

/-- The store after volf_increment_error_log_count when every store
operation succeeds. -/
def advanced (s : State) : Store :=
  if s.error_log_count + 1 > MAX_ERROR_LOGS then []
  else s.nvs.put ERROR_LOG_COUNT_KEY (nvs_value.u8 ((s.error_log_count + 1) % 256))

/-! ## Scenarios -/

/-- A start of the firmware as app_main performs it after a restart or a
wake-up: handler 1 stands for esp_restart (RETRY), handler 2 for go_to_sleep
(ABORT); app_main registers no CONTINUE handler, so that one is optional. -/
def wake_up (continue_h : Option Nat) (s : State) : State :=
  start_up continue_h (some 1) (some 2) (restart s)

/-- A number of escalation cycles, each a failing ABORT call followed by the
wake-up that ends the deep sleep. -/
def abort_cycles : Nat → State → State
  | 0, s => s
  | n + 1, s =>
    abort_cycles n (wake_up none (volf_handle_error volf_error_t.ABORT "give-up" 9999 s))

/-- A number of attempts, each a failing RETRY call followed by the restart
its handler performs. -/
def retry_cycles : Nat → State → State
  | 0, s => s
  | n + 1, s =>
    retry_cycles n
      (wake_up (some 0) (volf_handle_error volf_error_t.RETRY "esp_wifi_connect" 5 s))

/-- A persisted ledger of one log with one attempt that carries a runtime, a
retry text, an abort text and `r` continue texts "c1", "c2", ... -/
def one_attempt_store (r : Nat) : Store :=
  [("ELC", nvs_value.u8 1), ("PAC_1", nvs_value.u8 1), ("PAR_1_1", nvs_value.u32 1234),
   ("ER_1_1", nvs_value.str "esp_wifi_connect(12295)"),
   ("EA_1_1", nvs_value.str "give-up(9999)")] ++
  (List.range r).map (fun i =>
    (snprintf MAX_KEY_SIZE (ERROR_CONTINUE_KEY_TEMPLATE 1 1 (i + 1)),
     nvs_value.str ("c" ++ fmt_d (i + 1))))

/-- Three failing calls in one run of the program, no abort handler being
registered: ABORT, ABORT, then RETRY, from an empty namespace. -/
def abort_abort_retry : State × State :=
  let a1 := volf_handle_error volf_error_t.ABORT "give-up" 9999 (power_on [] 10)
  let a2 := volf_handle_error volf_error_t.ABORT "give-up" 9999 a1
  (a2, volf_handle_error volf_error_t.RETRY "esp_wifi_connect" 5 a2)

/-- Attempt `a` of log `L` is open: the module is initialised on these
cursors, no store fault is pending, and no log up to `L` is corrupt. -/
def Attempt (s : State) (L a : Nat) : Prop :=
  s.initialized = true ∧ s.faults = [] ∧ s.error_log_count = L ∧ s.publish_attempt_count = a ∧
    no_excess s.nvs L 1 = true

/-- The scenario of the specification: two CONTINUE failures, then an ABORT
failure, in one run over an empty namespace with no handler registered. -/
def scenario_c5 (p : Nat) (err : Int) : State :=
  volf_handle_error volf_error_t.ABORT "give-up" err
    (volf_handle_error volf_error_t.CONTINUE "sensor-timeout" err
      (volf_handle_error volf_error_t.CONTINUE "sensor-timeout" err (power_on [] p)))

/-- No attempt count is stored yet for the logs after `L`. -/
def Absent (st : Store) (L : Nat) : Prop :=
  ∀ l, L < l → l ≤ MAX_ERROR_LOGS →
    st.lookup (snprintf MAX_KEY_SIZE (PUBLISH_ATTEMPT_COUNT_KEY_TEMPLATE l)) = none

/-- A run of escalation cycles: each failure is reported as ABORT and is
followed by a restart and the program start. -/
def abort_run (hc hr ha : Option Nat) : List (String × Int) → State → State
  | [], s => s
  | f :: rest, s =>
    abort_run hc hr ha rest
      (start_up hc hr ha (restart (volf_handle_error volf_error_t.ABORT f.1 f.2 s)))

/-- A fresh boot over a persisted ledger of one log with one attempt and
four continue texts: volf_error_init has loaded it. -/
def loaded_one_log : State :=
  volf_error_init (power_on (one_attempt_store 4) 10)

/-- A persisted ledger whose second log claims four attempts. -/
def excess_store : Store :=
  [("ELC", nvs_value.u8 2), ("PAC_1", nvs_value.u8 1),
   ("ER_1_1", nvs_value.str "esp_wifi_connect(12295)"), ("PAC_2", nvs_value.u8 4),
   ("PAC_0", nvs_value.u8 0)]

/-- A persisted log count of 6 with six logs of no attempt. -/
def six_logs_store : Store :=
  [("ELC", nvs_value.u8 6), ("PAC_1", nvs_value.u8 0), ("PAC_2", nvs_value.u8 0),
   ("PAC_3", nvs_value.u8 0), ("PAC_4", nvs_value.u8 0), ("PAC_5", nvs_value.u8 0),
   ("PAC_6", nvs_value.u8 0)]

/-- Three failing attempts ended by restarts, a fourth run in which only a
CONTINUE failure occurs and which ends in the regular deep sleep, and a fifth
run with a RETRY failure: the states after the fourth wake-up, after the RETRY
call, and after the wake-up that follows. -/
def attempt_overrun : State × State × State :=
  let r3 := retry_cycles 3 (wake_up (some 0) (power_on [] 10))
  let w4 := wake_up (some 0) (volf_handle_error volf_error_t.CONTINUE "aws_iot_shadow_yield_2" 5 r3)
  let t5 := volf_handle_error volf_error_t.RETRY "esp_wifi_connect" 5 w4
  (w4, t5, wake_up (some 0) t5)

/-- The number a string of decimal digits stands for. -/
def digits_value (cs : List Char) : Nat :=
  cs.foldl (fun acc c => 10 * acc + (c.toNat - 48)) 0

/-- The constant NVS_KEY_NAME_MAX_SIZE of nvs.h: the longest key, with its NUL. -/
def NVS_KEY_NAME_MAX_SIZE : Nat := 16

/-- A number of failing CONTINUE calls in a row. -/
def continue_failures : Nat → State → State
  | 0, s => s
  | n + 1, s =>
    continue_failures n (volf_handle_error volf_error_t.CONTINUE "esp_wifi_stop" 5 s)

/-- The second run of a device whose first run ended in a retry: attempt 1
of log 1 is open. -/
def second_run : State :=
  retry_cycles 1 (wake_up (some 0) (power_on [] 10))

/-! ## Voltage conversion (battery_state.c, sensors/soil_moisture_sensor.c)

The arguments are uint32_t values; `none` stands for a division by zero. -/

def convert_battery_voltage_to_pct (voltage low_voltage high_voltage : Nat) : Option Nat :=
  if voltage < low_voltage then some 0
  else if voltage > high_voltage then some 100
  else if (high_voltage + 2 ^ 32 - low_voltage) % 2 ^ 32 = 0 then none
  else some ((((voltage + 2 ^ 32 - low_voltage) % 2 ^ 32 * 100) % 2 ^ 32)
    / ((high_voltage + 2 ^ 32 - low_voltage) % 2 ^ 32))

def convert_moisture_voltage_to_pct (voltage low_voltage high_voltage : Nat) : Option Nat :=
  if voltage < low_voltage then some 100
  else if voltage > high_voltage then some 0
  else if (high_voltage + 2 ^ 32 - low_voltage) % 2 ^ 32 = 0 then none
  else some ((100 + 2 ^ 32 - (((voltage + 2 ^ 32 - low_voltage) % 2 ^ 32 * 100) % 2 ^ 32)
    / ((high_voltage + 2 ^ 32 - low_voltage) % 2 ^ 32)) % 2 ^ 32)

/-! ## What a store holds, in the words of the specification -/

/-- The attempt count a store holds for log `l`: the value of its count key
when that is an 8-bit entry. -/
def stored_attempt_count (st : Store) (l : Nat) : Option Nat :=
  match st.lookup (snprintf MAX_KEY_SIZE (PUBLISH_ATTEMPT_COUNT_KEY_TEMPLATE l)) with
  | some (nvs_value.u8 v) => some v
  | _ => none

/-- The runtime a store holds for attempt `a` of log `l`. -/
def stored_runtime (st : Store) (l a : Nat) : Option Nat :=
  match st.lookup (snprintf MAX_KEY_SIZE (PUBLISH_ATTEMPT_RUNTIME_KEY_TEMPLATE l a)) with
  | some (nvs_value.u32 v) => some v
  | _ => none

/-- The text a store holds under a key: a string entry whose UTF-8 bytes fit,
with the NUL, a context buffer of MAX_ERROR_CONTEXT_SIZE bytes. -/
def stored_text (st : Store) (key : String) : Option String :=
  match st.lookup key with
  | some (nvs_value.str v) =>
    if v.utf8ByteSize + 1 ≤ MAX_ERROR_CONTEXT_SIZE then some v else none
  | _ => none

/-- The continue texts of attempt `a` of log `l` at the indices `c`, `c + 1`,
... up to the first index that holds no text, `n` of them at most. -/
def leading_continue_texts (st : Store) (l a : Nat) : (n : Nat) → (c : Nat) → List String
  | 0, _ => []
  | n + 1, c =>
    match stored_text st (snprintf MAX_KEY_SIZE (ERROR_CONTINUE_KEY_TEMPLATE l a c)) with
    | some v => v :: leading_continue_texts st l a n (c + 1)
    | none => []

/-- The indices among `l`, ..., `l + n - 1` whose attempt count is readable,
in increasing order. -/
def readable_logs (st : Store) (n l : Nat) : List Nat :=
  (List.range' l n).filter (fun i => (stored_attempt_count st i).isSome)

/-! ## The reconstruction, told from what the store holds -/

/-- The attempt volf_read_publish_attempt leaves in a slot that held `att`:
runtime and texts are those the store holds for attempt `a` of log `l`, a
field without a stored value keeps what the slot held; the continue count is
assigned only when fewer than MAX_CONTINUE_CONTEXTS leading texts exist. -/
def reloaded_attempt (st : Store) (l a : Nat) (att : volf_publish_attempt) :
    volf_publish_attempt :=
  { runtime := (stored_runtime st l a).getD att.runtime,
    retry_context :=
      (stored_text st (snprintf MAX_KEY_SIZE (ERROR_RETRY_KEY_TEMPLATE l a))).getD
        att.retry_context,
    abort_context :=
      (stored_text st (snprintf MAX_KEY_SIZE (ERROR_ABORT_KEY_TEMPLATE l a))).getD
        att.abort_context,
    continue_contexts :=
      leading_continue_texts st l a MAX_CONTINUE_CONTEXTS 1 ++
        att.continue_contexts.drop (leading_continue_texts st l a MAX_CONTINUE_CONTEXTS 1).length,
    num_continue_contexts :=
      if (leading_continue_texts st l a MAX_CONTINUE_CONTEXTS 1).length < MAX_CONTINUE_CONTEXTS
      then (leading_continue_texts st l a MAX_CONTINUE_CONTEXTS 1).length
      else att.num_continue_contexts }

/-- The log a fresh boot reconstructs in a zero slot from the `n` attempts
stored for log `l`. -/
def reloaded_log (st : Store) (l n : Nat) : volf_error_log :=
  { publish_attempts :=
      (List.range' 1 n).map (fun p => reloaded_attempt st l p volf_publish_attempt.zero) ++
        List.replicate (MAX_PUBLISH_ATTEMPTS - n) volf_publish_attempt.zero,
    num_publish_attempts := n }

/-- The ledger a fresh boot reconstructs from a store whose log count is
`L`: the readable logs among 1..L in increasing order, compacted to the front
of the array. -/
def reloaded_ledger (st : Store) (L : Nat) : volf_errors :=
  { error_logs :=
      (readable_logs st L 1).map
          (fun l => reloaded_log st l ((stored_attempt_count st l).getD 0)) ++
        List.replicate (MAX_ERROR_LOGS - (readable_logs st L 1).length) volf_error_log.zero,
    num_error_logs := (readable_logs st L 1).length }

/-- A persisted log count of 7 with no attempt count for log 1 and the
attempt counts 1, 2, 3, 1, 2, 3 for the logs 2 to 7. -/
def seven_logs_store : Store :=
  [("ELC", nvs_value.u8 7), ("PAC_2", nvs_value.u8 1), ("PAC_3", nvs_value.u8 2),
   ("PAC_4", nvs_value.u8 3), ("PAC_5", nvs_value.u8 1), ("PAC_6", nvs_value.u8 2),
   ("PAC_7", nvs_value.u8 3)]

/-- The store a crash leaves between the write of the counters and the write
of the diagnostic string: log 1 is complete, log 2 holds a first attempt and
the counter of a second attempt, of which no other key is written. -/
def crash_store : Store :=
  [("ELC", nvs_value.u8 2), ("PAC_1", nvs_value.u8 1), ("PAR_1_1", nvs_value.u32 1234),
   ("ER_1_1", nvs_value.str "esp_wifi_connect(12295)"), ("EC_1_1_1", nvs_value.str "c1"),
   ("PAC_2", nvs_value.u8 2), ("PAR_2_1", nvs_value.u32 777),
   ("EA_2_1", nvs_value.str "give-up(9999)")]

/-- A store in which log 2 holds only the counter of a first attempt, and
log 1 claims four attempts. -/
def crash_store_with_excess : Store :=
  [("ELC", nvs_value.u8 2), ("PAC_1", nvs_value.u8 4), ("PAC_2", nvs_value.u8 1)]

/-! ## Programs around the module -/

/-- One step of a program that uses the module: a call of one of its
functions, a restart of the device, or the passing of time. -/
inductive ledger_call where
  | init
  | handle (error : volf_error_t) (context : String) (associated_rc : Int)
  | clear
  | register (error : volf_error_t) (handler : Option Nat)
  | available
  | get
  | reboot
  | elapse (ticks : Nat)
  deriving DecidableEq, Repr

/-- The state after one step. -/
def ledger_call.step (c : ledger_call) (s : State) : State :=
  match c with
  | ledger_call.init => volf_error_init s
  | ledger_call.handle error context associated_rc =>
    volf_handle_error error context associated_rc s
  | ledger_call.clear => volf_clear_errors s
  | ledger_call.register error handler => volf_register_error_handler error handler s
  | ledger_call.available => (volf_errors_available s).2
  | ledger_call.get => (volf_get_errors s).2
  | ledger_call.reboot => restart s
  | ledger_call.elapse ticks => { s with tick_count := (s.tick_count + ticks) % 2 ^ 32 }

/-- The state after a sequence of steps, first step first. -/
def run_calls : List ledger_call → State → State
  | [], s => s
  | c :: cs, s => run_calls cs (c.step s)

/-- The arrays of the in-memory ledger have their declared sizes. -/
def ledger_shape (e : volf_errors) : Prop :=
  e.error_logs.length = MAX_ERROR_LOGS ∧
    ∀ log ∈ e.error_logs, log.publish_attempts.length = MAX_PUBLISH_ATTEMPTS

/-- The invariant of the log count: no store fault is pending, the in-memory
log count and a persisted log count are at most MAX_ERROR_LOGS, and no array
of the ledger was indexed outside its bounds. -/
def log_count_bounded (s : State) : Prop :=
  s.faults = [] ∧ s.error_log_count ≤ MAX_ERROR_LOGS ∧
    (∀ v, s.nvs.lookup ERROR_LOG_COUNT_KEY = some (nvs_value.u8 v) → v ≤ MAX_ERROR_LOGS) ∧
    s.out_of_bounds = false ∧ ledger_shape s.loaded_errors

/-! ## Store operations of the reconstruction, counted -/

/-- The state with the pending store faults replaced. -/
def State.with_faults (s : State) (fs : List Int) : State :=
  { s with faults := fs }

/-- No fault is forced on the coming `k` store operations. -/
def unfaulted (k : Nat) (fs : List Int) : Bool :=
  (fs.take k).all (fun f => f == 0)

/-- The nvs_get_str calls of the loop of volf_read_publish_attempt from the
continue index `c` on, `n` at most: one per stored text and one for the first
index without a text. -/
def continue_reads (st : Store) (l a : Nat) : (n : Nat) → (c : Nat) → Nat
  | 0, _ => 0
  | n + 1, c =>
    match stored_text st (snprintf MAX_KEY_SIZE (ERROR_CONTINUE_KEY_TEMPLATE l a c)) with
    | some _ => 1 + continue_reads st l a n (c + 1)
    | none => 1

/-- The store operations of one volf_read_publish_attempt call: runtime,
retry text, abort text, and the continue loop. -/
def attempt_reads (st : Store) (l a : Nat) : Nat :=
  3 + continue_reads st l a MAX_CONTINUE_CONTEXTS 1

/-- The store operations of the inner loop of volf_read_errors over the
attempts `p`, ..., `p + n - 1` of log `l`. -/
def attempts_reads (st : Store) (l : Nat) : (n : Nat) → (p : Nat) → Nat
  | 0, _ => 0
  | n + 1, p => attempt_reads st l p + attempts_reads st l n (p + 1)

/-- The store operations of the outer loop of volf_read_errors over the logs
`l`, ..., `l + n - 1`, none of which holds too many attempts: the read of the
attempt count and, when it is readable, the reads of its attempts. -/
def logs_reads (st : Store) : (n : Nat) → (l : Nat) → Nat
  | 0, _ => 0
  | n + 1, l =>
    match stored_attempt_count st l with
    | some v => 1 + attempts_reads st l v 1 + logs_reads st n (l + 1)
    | none => 1 + logs_reads st n (l + 1)

/-- The store operations volf_error_init performs before it reads the attempt
count of the current log: nvs_open, the read of the log count, and the pass
of volf_read_errors with its own nvs_open. -/
def init_reads_before_count (st : Store) (L : Nat) : Nat :=
  3 + logs_reads st L 1

/-- What the reconstruction leaves alone: everything but the pending faults
and the in-memory ledger. -/
def State.frame (s : State) :=
  (s.nvs, s.cursors, s.initialized, s.fixed, s.out_of_bounds)

/-- A persisted log count of 6 with one attempt in each of the six logs; the
attempt of log 6 holds a runtime and a retry text. -/
def six_attempt_logs_store : Store :=
  [("ELC", nvs_value.u8 6), ("PAC_1", nvs_value.u8 1), ("PAC_2", nvs_value.u8 1),
   ("PAC_3", nvs_value.u8 1), ("PAC_4", nvs_value.u8 1), ("PAC_5", nvs_value.u8 1),
   ("PAC_6", nvs_value.u8 1), ("PAR_6_1", nvs_value.u32 200),
   ("ER_6_1", nvs_value.str "esp_wifi_connect(12295)")]

/-! ## Basic facts -/

/-! ### Handlers, calls and the clock are left alone -/

@[simp]
theorem take_fault_fixed (s : State) : (take_fault s).2.fixed = s.fixed := rfl

@[simp]
theorem nvs_open_fixed (m : nvs_open_mode_t) (s : State) :
    (nvs_open m s).2.2.fixed = s.fixed := by
  unfold nvs_open take_fault
  dsimp only
  split <;> rfl

@[simp]
theorem nvs_get_u8_fixed (h : nvs_handle_t) (k : String) (s : State) :
    (nvs_get_u8 h k s).2.fixed = s.fixed := by
  unfold nvs_get_u8 take_fault
  dsimp only
  split
  · rfl
  · split
    · rfl
    · split <;> rfl

@[simp]
theorem nvs_get_u32_fixed (h : nvs_handle_t) (k : String) (s : State) :
    (nvs_get_u32 h k s).2.fixed = s.fixed := by
  unfold nvs_get_u32 take_fault
  dsimp only
  split
  · rfl
  · split
    · rfl
    · split <;> rfl

@[simp]
theorem nvs_get_str_fixed (h : nvs_handle_t) (k : String) (n : Nat) (s : State) :
    (nvs_get_str h k n s).2.fixed = s.fixed := by
  unfold nvs_get_str take_fault
  dsimp only
  split
  · rfl
  · split
    · rfl
    · split
      · split <;> rfl
      · rfl
      · rfl

@[simp]
theorem nvs_set_fixed (h : nvs_handle_t) (k : String) (v : nvs_value) (s : State) :
    (nvs_set h k v s).2.fixed = s.fixed := by
  unfold nvs_set take_fault
  dsimp only
  split
  · rfl
  · split <;> rfl

@[simp]
theorem nvs_erase_all_fixed (h : nvs_handle_t) (s : State) :
    (nvs_erase_all h s).2.fixed = s.fixed := by
  unfold nvs_erase_all take_fault
  dsimp only
  split
  · rfl
  · split <;> rfl

@[simp]
theorem volf_clear_and_close_fixed (h : Option nvs_handle_t) (s : State) :
    (volf_clear_and_close h s).fixed = s.fixed := by
  unfold volf_clear_and_close
  split
  · show (nvs_erase_all _ s).2.fixed = s.fixed
    simp
  · dsimp only
    split
    · simp
    · show (nvs_erase_all _ (nvs_open _ s).2.2).2.fixed = s.fixed
      simp

@[simp]
theorem volf_store_error_log_counts_fixed (h : nvs_handle_t) (s : State) :
    (volf_store_error_log_counts h s).2.fixed = s.fixed := by
  unfold volf_store_error_log_counts nvs_set_u8
  dsimp only
  split <;> simp

@[simp]
theorem volf_store_runtime_fixed (h : nvs_handle_t) (s : State) :
    (volf_store_runtime h s).2.fixed = s.fixed := by
  unfold volf_store_runtime nvs_set_u32
  dsimp only
  split <;> simp

@[simp]
theorem volf_build_error_context_key_fixed (e : volf_error_t) (s : State) :
    (volf_build_error_context_key e s).2.fixed = s.fixed := by
  cases e <;> rfl

@[simp]
theorem volf_store_error_context_fixed (e : volf_error_t) (c : String) (rc : Int)
    (s : State) : (volf_store_error_context e c rc s).fixed = s.fixed := by
  unfold volf_store_error_context nvs_set_str
  dsimp only
  repeat' split
  all_goals simp


/-! ### Closed forms when every store operation succeeds -/

theorem take_fault_nil (s : State) (h : s.faults = []) : take_fault s = (0, s) := by
  cases s
  simp_all [take_fault]

theorem nvs_open_ok (m : nvs_open_mode_t) (s : State) (h : s.faults = []) :
    nvs_open m s = (ESP_OK, some m, s) := by
  simp [nvs_open, take_fault_nil s h]

theorem nvs_set_ok (k : String) (v : nvs_value) (s : State) (h : s.faults = []) :
    nvs_set (some nvs_open_mode_t.NVS_READWRITE) k v s
      = (ESP_OK, { s with nvs := s.nvs.put k v }) := by
  simp [nvs_set, take_fault_nil s h]

theorem nvs_erase_all_ok (s : State) (h : s.faults = []) :
    nvs_erase_all (some nvs_open_mode_t.NVS_READWRITE) s = (ESP_OK, { s with nvs := [] }) := by
  simp [nvs_erase_all, take_fault_nil s h]

theorem volf_clear_and_close_rw (s : State) (h : s.faults = []) :
    volf_clear_and_close (some (some nvs_open_mode_t.NVS_READWRITE)) s = wiped s := by
  simp [volf_clear_and_close, nvs_erase_all_ok s h, wiped]

theorem volf_clear_and_close_null (s : State) (h : s.faults = []) :
    volf_clear_and_close none s = wiped s := by
  simp [volf_clear_and_close, nvs_open_ok _ s h, nvs_erase_all_ok s h, wiped, ESP_OK]

theorem volf_store_error_log_counts_ok (s : State) (h : s.faults = []) :
    volf_store_error_log_counts (some nvs_open_mode_t.NVS_READWRITE) s
      = (ESP_OK, s.with_nvs
          ((s.nvs.put ERROR_LOG_COUNT_KEY (nvs_value.u8 s.error_log_count)).put
            (snprintf MAX_KEY_SIZE (PUBLISH_ATTEMPT_COUNT_KEY_TEMPLATE s.error_log_count))
            (nvs_value.u8 s.publish_attempt_count))) := by
  simp [volf_store_error_log_counts, nvs_set_u8, nvs_set_ok, h, ESP_OK, State.with_nvs]

theorem volf_store_runtime_ok (s : State) (h : s.faults = []) :
    volf_store_runtime (some nvs_open_mode_t.NVS_READWRITE) s
      = (ESP_OK, s.with_nvs (s.nvs.put (runtime_key s) (nvs_value.u32 (runtime_value s)))) := by
  simp [volf_store_runtime, nvs_set_u32, nvs_set_ok, h, ESP_OK, State.with_nvs, runtime_key,
    runtime_value]

theorem volf_store_error_context_continue (ctx : String) (rc : Int) (s : State)
    (h : s.faults = []) :
    volf_store_error_context volf_error_t.CONTINUE ctx rc s
      = { s.with_nvs (persisted volf_error_t.CONTINUE ctx rc s) with
          continue_count := (s.continue_count + 1) % 256 } := by
  simp [volf_store_error_context, nvs_open_ok, volf_store_error_log_counts_ok, h,
    volf_build_error_context_key, nvs_set_str, nvs_set_ok, ESP_OK, persisted, State.with_nvs]

theorem volf_store_error_context_retry (ctx : String) (rc : Int) (s : State)
    (h : s.faults = []) :
    volf_store_error_context volf_error_t.RETRY ctx rc s
      = s.with_nvs ((persisted volf_error_t.RETRY ctx rc s).put (runtime_key s)
          (nvs_value.u32 (runtime_value s))) := by
  simp [volf_store_error_context, nvs_open_ok, volf_store_error_log_counts_ok, h,
    volf_build_error_context_key, nvs_set_str, nvs_set_ok, ESP_OK, persisted,
    volf_store_runtime_ok, State.with_nvs, runtime_key, runtime_value]

theorem volf_store_error_context_abort (ctx : String) (rc : Int) (s : State)
    (h : s.faults = []) :
    volf_store_error_context volf_error_t.ABORT ctx rc s
      = s.with_nvs ((persisted volf_error_t.ABORT ctx rc s).put (runtime_key s)
          (nvs_value.u32 (runtime_value s))) := by
  simp [volf_store_error_context, nvs_open_ok, volf_store_error_log_counts_ok, h,
    volf_build_error_context_key, nvs_set_str, nvs_set_ok, ESP_OK, persisted,
    volf_store_runtime_ok, State.with_nvs, runtime_key, runtime_value]

theorem volf_increment_error_log_count_ok (s : State) (h : s.faults = []) :
    volf_increment_error_log_count s
      = if s.error_log_count + 1 > MAX_ERROR_LOGS then wiped s
        else s.with_nvs
          (s.nvs.put ERROR_LOG_COUNT_KEY (nvs_value.u8 ((s.error_log_count + 1) % 256))) := by
  simp [volf_increment_error_log_count, volf_clear_and_close_null, nvs_open_ok, h, nvs_set_u8,
    nvs_set_ok, ESP_OK, State.with_nvs]

theorem nvs_get_u8_snd (h : nvs_handle_t) (k : String) (s : State) (hf : s.faults = []) :
    (nvs_get_u8 h k s).2 = s := by
  simp only [nvs_get_u8, take_fault_nil s hf]
  split
  · rfl
  · split
    · rfl
    · split <;> rfl

theorem nvs_get_u32_snd (h : nvs_handle_t) (k : String) (s : State) (hf : s.faults = []) :
    (nvs_get_u32 h k s).2 = s := by
  simp only [nvs_get_u32, take_fault_nil s hf]
  split
  · rfl
  · split
    · rfl
    · split <;> rfl

theorem nvs_get_str_snd (h : nvs_handle_t) (k : String) (n : Nat) (s : State)
    (hf : s.faults = []) : (nvs_get_str h k n s).2 = s := by
  simp only [nvs_get_str, take_fault_nil s hf]
  split
  · rfl
  · split
    · rfl
    · split
      · split <;> rfl
      · rfl
      · rfl

theorem read_continue_contexts_snd (h : nvs_handle_t) (l a : Nat) (n c : Nat)
    (att : volf_publish_attempt) (s : State) (hf : s.faults = []) :
    (read_continue_contexts h l a n c att s).2 = s := by
  induction n generalizing c att with
  | zero => rfl
  | succ n ih =>
    simp only [read_continue_contexts]
    have h1 := nvs_get_str_snd h
      (snprintf MAX_KEY_SIZE (ERROR_CONTINUE_KEY_TEMPLATE l a c)) MAX_ERROR_CONTEXT_SIZE s hf
    generalize nvs_get_str h
      (snprintf MAX_KEY_SIZE (ERROR_CONTINUE_KEY_TEMPLATE l a c)) MAX_ERROR_CONTEXT_SIZE s = q at h1
    obtain ⟨rc, s1⟩ := q
    simp only at h1
    subst h1
    cases rc with
    | error e => rfl
    | ok v => exact ih _ _

theorem volf_read_publish_attempt_snd (h : nvs_handle_t) (att : volf_publish_attempt)
    (l a : Nat) (s : State) (hf : s.faults = []) :
    (volf_read_publish_attempt h att l a s).2 = s := by
  unfold volf_read_publish_attempt
  simp only []
  rw [read_continue_contexts_snd]
  · simp [nvs_get_u32_snd, nvs_get_str_snd, hf]
  · simp [nvs_get_u32_snd, nvs_get_str_snd, hf]

@[simp]
theorem read_continue_contexts_fixed (h : nvs_handle_t) (l a : Nat) (n c : Nat)
    (att : volf_publish_attempt) (s : State) :
    (read_continue_contexts h l a n c att s).2.fixed = s.fixed := by
  induction n generalizing c att s with
  | zero => rfl
  | succ n ih =>
    simp only [read_continue_contexts]
    have h1 := nvs_get_str_fixed h
      (snprintf MAX_KEY_SIZE (ERROR_CONTINUE_KEY_TEMPLATE l a c)) MAX_ERROR_CONTEXT_SIZE s
    generalize nvs_get_str h
      (snprintf MAX_KEY_SIZE (ERROR_CONTINUE_KEY_TEMPLATE l a c)) MAX_ERROR_CONTEXT_SIZE s = q at h1
    obtain ⟨rc, s1⟩ := q
    cases rc with
    | error e => exact h1
    | ok v => exact (ih _ _ _).trans h1

@[simp]
theorem volf_read_publish_attempt_fixed (h : nvs_handle_t) (att : volf_publish_attempt)
    (l a : Nat) (s : State) : (volf_read_publish_attempt h att l a s).2.fixed = s.fixed := by
  unfold volf_read_publish_attempt
  simp

@[simp]
theorem read_publish_attempts_fixed (h : nvs_handle_t) (l i : Nat) (n p : Nat) (s : State) :
    (read_publish_attempts h l i n p s).fixed = s.fixed := by
  induction n generalizing p s with
  | zero => rfl
  | succ n ih =>
    simp only [read_publish_attempts]
    split
    · exact ih _ _
    · split
      · exact ih _ _
      · rw [ih]
        exact volf_read_publish_attempt_fixed _ _ _ _ _

@[simp]
theorem set_num_publish_attempts_fixed (i n : Nat) (s : State) :
    (set_num_publish_attempts i n s).fixed = s.fixed := by
  unfold set_num_publish_attempts
  split <;> rfl

@[simp]
theorem read_error_logs_fixed (h : nvs_handle_t) (n l i : Nat) (s : State) :
    (read_error_logs h n l i s).fixed = s.fixed := by
  induction n generalizing l i s with
  | zero => rfl
  | succ n ih =>
    simp only [read_error_logs]
    have h1 := nvs_get_u8_fixed h
      (snprintf MAX_KEY_SIZE (PUBLISH_ATTEMPT_COUNT_KEY_TEMPLATE l)) s
    generalize nvs_get_u8 h (snprintf MAX_KEY_SIZE (PUBLISH_ATTEMPT_COUNT_KEY_TEMPLATE l)) s = q
      at h1
    obtain ⟨rc, s1⟩ := q
    cases rc with
    | error e => exact (ih _ _ _).trans h1
    | ok v =>
      dsimp only
      split
      · exact (volf_clear_and_close_fixed _ _).trans h1
      · rw [ih]
        exact ((set_num_publish_attempts_fixed _ _ _).trans
          (read_publish_attempts_fixed _ _ _ _ _ _)).trans h1

@[simp]
theorem volf_read_errors_fixed (s : State) : (volf_read_errors s).fixed = s.fixed := by
  unfold volf_read_errors
  simp only [read_error_logs_fixed]
  exact nvs_open_fixed _ _

@[simp]
theorem volf_error_init_fixed (s : State) : (volf_error_init s).fixed = s.fixed := by
  unfold volf_error_init
  have ho := nvs_open_fixed nvs_open_mode_t.NVS_READWRITE s
  generalize nvs_open nvs_open_mode_t.NVS_READWRITE s = q at ho
  obtain ⟨err, hd, s1⟩ := q
  dsimp only at ho ⊢
  split
  · exact ho
  · have hg := nvs_get_u8_fixed hd ERROR_LOG_COUNT_KEY s1
    generalize nvs_get_u8 hd ERROR_LOG_COUNT_KEY s1 = q at hg
    obtain ⟨r, s2⟩ := q
    dsimp only at hg ⊢
    cases r with
    | error e =>
      dsimp only
      split
      · exact hg.trans ho
      · show (nvs_erase_all hd s2).2.fixed = s.fixed
        exact (nvs_erase_all_fixed _ _).trans (hg.trans ho)
    | ok v =>
      dsimp only
      split
      · have hr := volf_read_errors_fixed { s2 with error_log_count := v }
        generalize volf_read_errors { s2 with error_log_count := v } = s3 at hr
        have hp := nvs_get_u8_fixed hd
          (snprintf MAX_KEY_SIZE (PUBLISH_ATTEMPT_COUNT_KEY_TEMPLATE s3.error_log_count)) s3
        generalize nvs_get_u8 hd
          (snprintf MAX_KEY_SIZE (PUBLISH_ATTEMPT_COUNT_KEY_TEMPLATE s3.error_log_count)) s3 = q
          at hp
        obtain ⟨r2, s4⟩ := q
        cases r2 with
        | error e => exact hp.trans (hr.trans (hg.trans ho))
        | ok v2 => exact hp.trans (hr.trans (hg.trans ho))
      · exact hg.trans ho

@[simp]
theorem lazy_init_fixed (s : State) : (lazy_init s).fixed = s.fixed := by
  unfold lazy_init
  split <;> simp

@[simp]
theorem volf_increment_error_log_count_fixed (s : State) :
    (volf_increment_error_log_count s).fixed = s.fixed := by
  unfold volf_increment_error_log_count nvs_set_u8
  dsimp only
  repeat' split
  all_goals simp

theorem core_faults {s t : State} (h : t.core = s.core) : t.faults = s.faults :=
  congrArg (fun c => c.2.1) h

theorem core_nvs {s t : State} (h : t.core = s.core) : t.nvs = s.nvs :=
  congrArg (fun c => c.1) h

theorem core_initialized {s t : State} (h : t.core = s.core) : t.initialized = s.initialized :=
  congrArg (fun c => c.2.2.1) h

theorem core_fixed {s t : State} (h : t.core = s.core) : t.fixed = s.fixed :=
  congrArg (fun c => c.2.2.2) h

theorem read_publish_attempts_core (h : nvs_handle_t) (l i : Nat) (n p : Nat) (s : State)
    (hf : s.faults = []) :
    (read_publish_attempts h l i n p s).core = s.core ∧
      (read_publish_attempts h l i n p s).cursors = s.cursors := by
  induction n generalizing p s with
  | zero => exact ⟨rfl, rfl⟩
  | succ n ih =>
    simp only [read_publish_attempts]
    split
    · exact ih _ _ hf
    · split
      · exact ih _ _ hf
      · rename_i log _ att _
        have h1 := volf_read_publish_attempt_snd h att l p s hf
        generalize volf_read_publish_attempt h att l p s = q at h1
        obtain ⟨a1, s1⟩ := q
        dsimp only at h1 ⊢
        subst h1
        exact ih _ _ hf

theorem set_num_publish_attempts_core (i n : Nat) (s : State) :
    (set_num_publish_attempts i n s).core = s.core ∧
      (set_num_publish_attempts i n s).cursors = s.cursors := by
  unfold set_num_publish_attempts
  split <;> exact ⟨rfl, rfl⟩

theorem nvs_erase_all_refused (h : nvs_handle_t) (s : State) (hf : s.faults = [])
    (hh : h ≠ some nvs_open_mode_t.NVS_READWRITE) : (nvs_erase_all h s).2 = s := by
  simp only [nvs_erase_all, take_fault_nil s hf]
  split
  · rfl
  · split
    · rfl
    · rfl
    · exact absurd rfl hh

theorem volf_clear_and_close_refused (h : nvs_handle_t) (s : State) (hf : s.faults = [])
    (hh : h ≠ some nvs_open_mode_t.NVS_READWRITE) :
    volf_clear_and_close (some h) s
      = { s with error_log_count := 0, publish_attempt_count := 0, continue_count := 0 } := by
  have := nvs_erase_all_refused h s hf hh
  unfold volf_clear_and_close
  dsimp only
  rw [this]

theorem read_error_logs_core (h : nvs_handle_t) (n l i : Nat) (s : State)
    (hf : s.faults = []) (hh : h ≠ some nvs_open_mode_t.NVS_READWRITE) :
    (read_error_logs h n l i s).core = s.core := by
  induction n generalizing l i s with
  | zero => rfl
  | succ n ih =>
    simp only [read_error_logs]
    have h1 := nvs_get_u8_snd h (snprintf MAX_KEY_SIZE (PUBLISH_ATTEMPT_COUNT_KEY_TEMPLATE l)) s hf
    generalize nvs_get_u8 h (snprintf MAX_KEY_SIZE (PUBLISH_ATTEMPT_COUNT_KEY_TEMPLATE l)) s = q
      at h1
    obtain ⟨rc, s1⟩ := q
    dsimp only at h1
    subst h1
    cases rc with
    | error e => exact ih _ _ _ hf
    | ok v =>
      dsimp only
      split
      · rw [volf_clear_and_close_refused h s1 hf hh]
        rfl
      · have hp := (read_publish_attempts_core h l i v 1 s1 hf).1
        have hs := (set_num_publish_attempts_core i v (read_publish_attempts h l i v 1 s1)).1
        rw [ih]
        · exact hs.trans hp
        · show (set_num_publish_attempts i v (read_publish_attempts h l i v 1 s1)).faults = []
          rw [core_faults hs, core_faults hp]
          exact hf

theorem nvs_get_u8_ok (m : nvs_open_mode_t) (k : String) (s : State) (hf : s.faults = []) :
    nvs_get_u8 (some m) k s =
      ((match s.nvs.lookup k with
        | some (nvs_value.u8 v) => Except.ok v
        | some _ => Except.error ESP_ERR_NVS_TYPE_MISMATCH
        | none => Except.error ESP_ERR_NVS_NOT_FOUND), s) := by
  simp only [nvs_get_u8, take_fault_nil s hf]
  split
  · rename_i hc
    exact absurd rfl hc
  · split <;> rfl

theorem read_error_logs_cursors (m : nvs_open_mode_t) (n l i : Nat) (s : State)
    (hf : s.faults = []) (hx : no_excess s.nvs n l = true) :
    (read_error_logs (some m) n l i s).cursors = s.cursors := by
  induction n generalizing l i s with
  | zero => rfl
  | succ n ih =>
    simp only [no_excess, Bool.and_eq_true] at hx
    obtain ⟨hx1, hx2⟩ := hx
    simp only [read_error_logs, nvs_get_u8_ok m _ s hf]
    split
    · exact ih _ _ _ hf hx2
    · rename_i v hv
      split at hv
      · rename_i w hw
        cases hv
        rw [hw] at hx1
        have hle : v ≤ MAX_PUBLISH_ATTEMPTS := by simpa using hx1
        simp only [gt_iff_lt, Nat.not_lt.mpr hle, if_false]
        have hp := read_publish_attempts_core (some m) l i v 1 s hf
        have hs := set_num_publish_attempts_core i v (read_publish_attempts (some m) l i v 1 s)
        rw [ih]
        · exact hs.2.trans hp.2
        · show (set_num_publish_attempts i v (read_publish_attempts (some m) l i v 1 s)).faults = []
          rw [core_faults hs.1, core_faults hp.1]
          exact hf
        · show no_excess (set_num_publish_attempts i v
            (read_publish_attempts (some m) l i v 1 s)).nvs n (l + 1) = true
          rw [core_nvs hs.1, core_nvs hp.1]
          exact hx2
      · cases hv
      · cases hv

theorem volf_read_errors_core (s : State) (hf : s.faults = []) :
    (volf_read_errors s).core = s.core := by
  unfold volf_read_errors
  simp only [nvs_open_ok _ _ (show ({ s with loaded_errors :=
    { s.loaded_errors with num_error_logs := 0 } } : State).faults = [] from hf)]
  exact (read_error_logs_core (some nvs_open_mode_t.NVS_READONLY) _ _ _
    { s with loaded_errors := { s.loaded_errors with num_error_logs := 0 } } hf
    (by decide)).trans rfl

theorem volf_read_errors_cursors (s : State) (hf : s.faults = [])
    (hx : no_excess s.nvs s.error_log_count 1 = true) :
    (volf_read_errors s).cursors = s.cursors := by
  unfold volf_read_errors
  simp only [nvs_open_ok _ _ (show ({ s with loaded_errors :=
    { s.loaded_errors with num_error_logs := 0 } } : State).faults = [] from hf)]
  exact (read_error_logs_cursors nvs_open_mode_t.NVS_READONLY _ _ _
    { s with loaded_errors := { s.loaded_errors with num_error_logs := 0 } } hf hx).trans rfl

theorem volf_error_init_absent (s : State) (hf : s.faults = [])
    (hl : s.nvs.lookup ERROR_LOG_COUNT_KEY = none) : volf_error_init s = s := by
  simp [volf_error_init, nvs_open_ok _ s hf, nvs_get_u8_ok _ _ s hf, hl, ESP_OK]

theorem volf_error_init_zero (s : State) (hf : s.faults = [])
    (hl : s.nvs.lookup ERROR_LOG_COUNT_KEY = some (nvs_value.u8 0)) :
    volf_error_init s =
      { s with error_log_count := 1, publish_attempt_count := (s.publish_attempt_count + 1) % 256,
               initialized := true } := by
  simp [volf_error_init, nvs_open_ok _ s hf, nvs_get_u8_ok _ _ s hf, hl, ESP_OK]

theorem volf_error_init_loaded (s : State) (L : Nat) (hf : s.faults = [])
    (hl : s.nvs.lookup ERROR_LOG_COUNT_KEY = some (nvs_value.u8 L)) (hL : 0 < L)
    (hx : no_excess s.nvs L 1 = true) :
    (volf_error_init s).core = (s.nvs, [], true, s.fixed) ∧
    (volf_error_init s).error_log_count = L ∧
    (volf_error_init s).publish_attempt_count =
      ((match s.nvs.lookup (snprintf MAX_KEY_SIZE (PUBLISH_ATTEMPT_COUNT_KEY_TEMPLATE L)) with
        | some (nvs_value.u8 a) => a
        | _ => s.publish_attempt_count) + 1) % 256 ∧
    (volf_error_init s).continue_count = s.continue_count := by
  have hs1 : ({ s with error_log_count := L } : State).faults = [] := hf
  have hc := volf_read_errors_core { s with error_log_count := L } hs1
  have hk := volf_read_errors_cursors { s with error_log_count := L } hs1 hx
  simp only [volf_error_init, nvs_open_ok _ s hf, nvs_get_u8_ok _ _ s hf, hl, ESP_OK, ne_eq,
    not_true_eq_false, if_false, gt_iff_lt, hL, if_true]
  generalize volf_read_errors { s with error_log_count := L } = t at hc hk
  have ht : t.faults = [] := (core_faults hc).trans hf
  have hn : t.nvs = s.nvs := core_nvs hc
  have he : t.error_log_count = L := congrArg (fun c => c.1) hk
  have hp : t.publish_attempt_count = s.publish_attempt_count := congrArg (fun c => c.2.1) hk
  have hcc : t.continue_count = s.continue_count := congrArg (fun c => c.2.2) hk
  have hfx : t.fixed = s.fixed := core_fixed hc
  simp only [nvs_get_u8_ok _ _ t ht]
  have hlk : List.lookup (snprintf MAX_KEY_SIZE
        (PUBLISH_ATTEMPT_COUNT_KEY_TEMPLATE t.error_log_count)) t.nvs
      = List.lookup (snprintf MAX_KEY_SIZE (PUBLISH_ATTEMPT_COUNT_KEY_TEMPLATE L)) s.nvs := by
    rw [hn, he]
  rw [hlk]
  generalize List.lookup (snprintf MAX_KEY_SIZE (PUBLISH_ATTEMPT_COUNT_KEY_TEMPLATE L)) s.nvs = o
  rcases o with _ | ⟨v | v | v⟩ <;> dsimp only <;> refine ⟨?_, he, ?_, hcc⟩
  · show (t.nvs, t.faults, true, t.fixed) = _
    rw [hn, ht, hfx]
  · show (t.publish_attempt_count + 1) % 256 = _
    rw [hp]
  · show (t.nvs, t.faults, true, t.fixed) = _
    rw [hn, ht, hfx]
  · rfl
  · show (t.nvs, t.faults, true, t.fixed) = _
    rw [hn, ht, hfx]
  · show (t.publish_attempt_count + 1) % 256 = _
    rw [hp]
  · show (t.nvs, t.faults, true, t.fixed) = _
    rw [hn, ht, hfx]
  · show (t.publish_attempt_count + 1) % 256 = _
    rw [hp]

theorem volf_error_init_faults (s : State) (hf : s.faults = []) :
    (volf_error_init s).faults = [] := by
  simp only [volf_error_init, nvs_open_ok _ s hf, nvs_get_u8_ok _ _ s hf, ESP_OK, ne_eq,
    not_true_eq_false, if_false]
  split
  · split
    · exact hf
    · show (nvs_erase_all _ s).2.faults = []
      rw [nvs_erase_all_ok s hf]
      exact hf
  · rename_i v _
    show (if v > 0 then _ else _ : State).faults = []
    split
    · have hs1 : ({ s with error_log_count := v } : State).faults = [] := hf
      have hc := volf_read_errors_core { s with error_log_count := v } hs1
      generalize volf_read_errors { s with error_log_count := v } = t at hc
      have ht : t.faults = [] := (core_faults hc).trans hf
      simp only [nvs_get_u8_ok _ _ t ht]
      split <;> exact ht
    · exact hf

theorem lazy_init_faults (s : State) (hf : s.faults = []) : (lazy_init s).faults = [] := by
  unfold lazy_init
  split
  · exact volf_error_init_faults s hf
  · exact hf

theorem fixed_calls {s t : State} (h : t.fixed = s.fixed) : t.calls = s.calls :=
  congrArg (fun c => c.2.2.2.2.2) h

theorem fixed_registered {s t : State} (h : t.fixed = s.fixed) (e : volf_error_t) :
    registered t e = registered s e := by
  have ha : t.abort_handler = s.abort_handler := congrArg (fun c => c.2.2.1) h
  have hr : t.retry_handler = s.retry_handler := congrArg (fun c => c.2.2.2.1) h
  have hc : t.continue_handler = s.continue_handler := congrArg (fun c => c.2.2.2.2.1) h
  cases e
  · exact hc
  · exact hr
  · exact ha

theorem call_handler_handlers (h : Option Nat) (s : State) :
    (call_handler h s).calls.map HandlerCall.handler
      = s.calls.map HandlerCall.handler ++ h.toList := by
  cases h <;> simp [call_handler]

theorem volf_handle_error_failure (error : volf_error_t) (ctx : String) (rc : Int) (s : State)
    (hrc : rc ≠ ESP_OK) :
    volf_handle_error error ctx rc s
      = dispatch error (volf_store_error_context error ctx rc (lazy_init s)) := by
  unfold volf_handle_error dispatch promote
  simp only [hrc, if_false]

theorem dispatch_fixed_handlers (error : volf_error_t) (s : State) :
    (dispatch error s).calls.map HandlerCall.handler
      = s.calls.map HandlerCall.handler ++
          (registered s (promote error s.publish_attempt_count)).toList := by
  unfold dispatch
  have h2 := volf_increment_error_log_count_fixed s
  generalize promote error s.publish_attempt_count = e
  cases e
  · exact call_handler_handlers _ _
  · exact call_handler_handlers _ _
  · dsimp only
    rw [call_handler_handlers, fixed_calls h2]
    exact congrArg _ (congrArg _ (fixed_registered h2 volf_error_t.ABORT))

theorem volf_store_error_context_ok (error : volf_error_t) (ctx : String) (rc : Int)
    (s : State) (hf : s.faults = []) :
    volf_store_error_context error ctx rc s = stored error ctx rc s := by
  cases error
  · exact volf_store_error_context_continue ctx rc s hf
  · exact volf_store_error_context_retry ctx rc s hf
  · exact volf_store_error_context_abort ctx rc s hf

theorem stored_faults (error : volf_error_t) (ctx : String) (rc : Int) (s : State) :
    (stored error ctx rc s).faults = s.faults := by
  cases error <;> rfl

theorem stored_fixed (error : volf_error_t) (ctx : String) (rc : Int) (s : State) :
    (stored error ctx rc s).fixed = s.fixed := by
  cases error <;> rfl

theorem stored_initialized (error : volf_error_t) (ctx : String) (rc : Int) (s : State) :
    (stored error ctx rc s).initialized = s.initialized := by
  cases error <;> rfl

theorem stored_error_log_count (error : volf_error_t) (ctx : String) (rc : Int) (s : State) :
    (stored error ctx rc s).error_log_count = s.error_log_count := by
  cases error <;> rfl

theorem stored_publish_attempt_count (error : volf_error_t) (ctx : String) (rc : Int)
    (s : State) : (stored error ctx rc s).publish_attempt_count = s.publish_attempt_count := by
  cases error <;> rfl

/-- C1. The handler that a failing volf_handle_error call invokes is the one
registered for promote(severity, publish_attempt_count), the counter being
read when the promotion test runs, after the persistence step (without a
store fault that is its value after the lazy initialisation); and promote
leaves CONTINUE and ABORT unchanged for every 8-bit attempt count. -/
theorem handle_error_dispatches_promoted_severity (error : volf_error_t) (ctx : String)
    (rc : Int) (s : State) (hrc : rc ≠ ESP_OK) :
    (volf_handle_error error ctx rc s).calls.map HandlerCall.handler
        = s.calls.map HandlerCall.handler ++
          (registered s (promote error
            (volf_store_error_context error ctx rc (lazy_init s)).publish_attempt_count)).toList
    ∧ (s.faults = [] →
        (volf_store_error_context error ctx rc (lazy_init s)).publish_attempt_count
          = (lazy_init s).publish_attempt_count)
    ∧ ∀ n, n < 256 →
        promote volf_error_t.CONTINUE n = volf_error_t.CONTINUE ∧
        promote volf_error_t.ABORT n = volf_error_t.ABORT := by
  refine ⟨?_, ?_, ?_⟩
  · rw [volf_handle_error_failure error ctx rc s hrc, dispatch_fixed_handlers]
    have h1 : (volf_store_error_context error ctx rc (lazy_init s)).fixed = s.fixed :=
      (volf_store_error_context_fixed _ _ _ _).trans (lazy_init_fixed s)
    rw [fixed_calls h1, fixed_registered h1]
  · intro hf
    rw [volf_store_error_context_ok _ _ _ _ (lazy_init_faults s hf)]
    exact stored_publish_attempt_count _ _ _ _
  · intro n _
    constructor
    · simp [promote]
    · simp [promote]

theorem handle_error_dispatches_promoted_severity_witness :
    (5 : Int) ≠ ESP_OK ∧
    (volf_handle_error volf_error_t.RETRY "esp_wifi_connect" 5
        { power_on [] 10 with publish_attempt_count := 3, error_log_count := 1,
                              initialized := true, abort_handler := some 2,
                              retry_handler := some 1 }).calls.map HandlerCall.handler
      = [2] :=
  ⟨by decide,
   (handle_error_dispatches_promoted_severity volf_error_t.RETRY "esp_wifi_connect" 5
      { power_on [] 10 with publish_attempt_count := 3, error_log_count := 1,
                            initialized := true, abort_handler := some 2,
                            retry_handler := some 1 } (by decide)).1.trans (by decide)⟩

theorem nvs_open_empty (m : nvs_open_mode_t) (s : State) (hs : s.nvs = []) :
    (nvs_open m s).2.2.nvs = [] ∧ (nvs_open m s).2.2.loaded_errors = s.loaded_errors := by
  unfold nvs_open take_fault
  dsimp only
  split <;> exact ⟨hs, rfl⟩

theorem nvs_get_u8_empty (h : nvs_handle_t) (k : String) (s : State) (hs : s.nvs = []) :
    ∃ e, (nvs_get_u8 h k s).1 = Except.error e ∧ (nvs_get_u8 h k s).2.nvs = [] ∧
      (nvs_get_u8 h k s).2.loaded_errors = s.loaded_errors := by
  unfold nvs_get_u8 take_fault
  dsimp only
  split
  · exact ⟨_, rfl, hs, rfl⟩
  · split
    · exact ⟨_, rfl, hs, rfl⟩
    · rw [hs]
      exact ⟨_, rfl, rfl, rfl⟩

theorem nvs_erase_all_empty (h : nvs_handle_t) (s : State) (hs : s.nvs = []) :
    (nvs_erase_all h s).2.nvs = [] ∧ (nvs_erase_all h s).2.loaded_errors = s.loaded_errors := by
  unfold nvs_erase_all take_fault
  dsimp only
  split
  · exact ⟨hs, rfl⟩
  · split
    · exact ⟨hs, rfl⟩
    · exact ⟨hs, rfl⟩
    · exact ⟨rfl, rfl⟩

theorem volf_error_init_empty (s : State) (hs : s.nvs = []) :
    (volf_error_init s).nvs = [] ∧ (volf_error_init s).loaded_errors = s.loaded_errors := by
  unfold volf_error_init
  have ho := nvs_open_empty nvs_open_mode_t.NVS_READWRITE s hs
  generalize nvs_open nvs_open_mode_t.NVS_READWRITE s = q at ho
  obtain ⟨err, hd, s1⟩ := q
  dsimp only at ho ⊢
  split
  · exact ho
  · obtain ⟨e, he, hn, hl⟩ := nvs_get_u8_empty hd ERROR_LOG_COUNT_KEY s1 ho.1
    generalize nvs_get_u8 hd ERROR_LOG_COUNT_KEY s1 = q at he hn hl
    obtain ⟨r, s2⟩ := q
    dsimp only at he hn hl ⊢
    subst he
    dsimp only
    split
    · exact ⟨hn, hl.trans ho.2⟩
    · have hz := nvs_erase_all_empty hd s2 hn
      exact ⟨hz.1, hz.2.trans (hl.trans ho.2)⟩

theorem lazy_init_empty (s : State) (hs : s.nvs = []) :
    (lazy_init s).nvs = [] ∧ (lazy_init s).loaded_errors = s.loaded_errors := by
  unfold lazy_init
  split
  · exact volf_error_init_empty s hs
  · exact ⟨hs, rfl⟩

/-- C3. From an empty ledger, any finite sequence of volf_handle_error calls
with status ESP_OK, whatever the severities and contexts (and whatever the store
operations return), leaves the namespace without a key, invokes no handler, and
volf_errors_available() returns false afterwards. -/
theorem success_calls_leave_ledger_empty (s : State) (reports : List (volf_error_t × String))
    (hs : s.nvs = []) (hl : s.loaded_errors.num_error_logs = 0) :
    (reports.foldl (fun st r => volf_handle_error r.1 r.2 ESP_OK st) s).nvs = [] ∧
    (reports.foldl (fun st r => volf_handle_error r.1 r.2 ESP_OK st) s).calls = s.calls ∧
    (volf_errors_available
      (reports.foldl (fun st r => volf_handle_error r.1 r.2 ESP_OK st) s)).1 = false ∧
    (volf_errors_available
      (reports.foldl (fun st r => volf_handle_error r.1 r.2 ESP_OK st) s)).2.nvs = [] := by
  induction reports generalizing s with
  | nil =>
    have h := lazy_init_empty s hs
    refine ⟨hs, rfl, ?_, h.1⟩
    show ((lazy_init s).loaded_errors.num_error_logs != 0) = false
    rw [h.2, hl]
    rfl
  | cons r rest ih =>
    have hstep : volf_handle_error r.1 r.2 ESP_OK s = lazy_init s := by
      simp [volf_handle_error]
    have h := lazy_init_empty s hs
    simp only [List.foldl_cons, hstep]
    have := ih (lazy_init s) h.1 (by rw [h.2]; exact hl)
    refine ⟨this.1, ?_, this.2.2⟩
    rw [this.2.1]
    exact fixed_calls (lazy_init_fixed s)

theorem success_calls_leave_ledger_empty_witness :
    (power_on [] 10).nvs = [] ∧ (power_on [] 10).loaded_errors.num_error_logs = 0 ∧
    (volf_handle_error volf_error_t.ABORT "esp_wifi_start" ESP_OK
      (volf_handle_error volf_error_t.RETRY "esp_wifi_init" ESP_OK (power_on [] 10))).nvs = [] :=
  ⟨rfl, rfl,
   (success_calls_leave_ledger_empty (power_on [] 10)
      [(volf_error_t.RETRY, "esp_wifi_init"), (volf_error_t.ABORT, "esp_wifi_start")]
      rfl rfl).1⟩

theorem key_role_snprintf (c1 c2 c3 : Char) (rest : List Char) :
    key_role (snprintf MAX_KEY_SIZE (String.mk (c1 :: c2 :: c3 :: rest))) = [c1, c2, c3] := by
  simp [key_role, snprintf, MAX_KEY_SIZE]

theorem key_role_count (l : Nat) :
    key_role (snprintf MAX_KEY_SIZE (PUBLISH_ATTEMPT_COUNT_KEY_TEMPLATE l)) = ['P', 'A', 'C'] :=
  key_role_snprintf 'P' 'A' 'C' ('_' :: (fmt_d l).data)

theorem key_role_runtime (l a : Nat) :
    key_role (snprintf MAX_KEY_SIZE (PUBLISH_ATTEMPT_RUNTIME_KEY_TEMPLATE l a))
      = ['P', 'A', 'R'] :=
  key_role_snprintf 'P' 'A' 'R' ('_' :: ((fmt_d l).data ++ ("_".data ++ (fmt_d a).data)))

theorem key_role_retry (l a : Nat) :
    key_role (snprintf MAX_KEY_SIZE (ERROR_RETRY_KEY_TEMPLATE l a)) = ['E', 'R', '_'] :=
  key_role_snprintf 'E' 'R' '_' ((fmt_d l).data ++ ("_".data ++ (fmt_d a).data))

theorem key_role_abort (l a : Nat) :
    key_role (snprintf MAX_KEY_SIZE (ERROR_ABORT_KEY_TEMPLATE l a)) = ['E', 'A', '_'] :=
  key_role_snprintf 'E' 'A' '_' ((fmt_d l).data ++ ("_".data ++ (fmt_d a).data))

theorem key_role_continue (l a c : Nat) :
    key_role (snprintf MAX_KEY_SIZE (ERROR_CONTINUE_KEY_TEMPLATE l a c)) = ['E', 'C', '_'] :=
  key_role_snprintf 'E' 'C' '_'
    ((fmt_d l).data ++ ("_".data ++ ((fmt_d a).data ++ ("_".data ++ (fmt_d c).data))))

theorem key_role_log_count : key_role ERROR_LOG_COUNT_KEY = ['E', 'L', 'C'] := rfl

theorem key_role_context (e : volf_error_t) (s : State) :
    key_role (volf_build_error_context_key e s).1 = ['E', 'C', '_'] ∨
    key_role (volf_build_error_context_key e s).1 = ['E', 'R', '_'] ∨
    key_role (volf_build_error_context_key e s).1 = ['E', 'A', '_'] := by
  cases e
  · exact Or.inl (key_role_continue _ _ _)
  · exact Or.inr (Or.inl (key_role_retry _ _))
  · exact Or.inr (Or.inr (key_role_abort _ _))

theorem ne_of_key_role {a b : String} (h : key_role a ≠ key_role b) : a ≠ b :=
  fun hab => h (congrArg key_role hab)

theorem context_key_ne_log_count (e : volf_error_t) (s : State) :
    (volf_build_error_context_key e s).1 ≠ ERROR_LOG_COUNT_KEY := by
  apply ne_of_key_role
  rw [key_role_log_count]
  rcases key_role_context e s with h | h | h <;> rw [h] <;> decide

theorem context_key_ne_runtime (e : volf_error_t) (s : State) (l a : Nat) :
    (volf_build_error_context_key e s).1 ≠
      snprintf MAX_KEY_SIZE (PUBLISH_ATTEMPT_RUNTIME_KEY_TEMPLATE l a) := by
  apply ne_of_key_role
  rw [key_role_runtime]
  rcases key_role_context e s with h | h | h <;> rw [h] <;> decide

theorem count_key_ne_log_count (l : Nat) :
    snprintf MAX_KEY_SIZE (PUBLISH_ATTEMPT_COUNT_KEY_TEMPLATE l) ≠ ERROR_LOG_COUNT_KEY := by
  apply ne_of_key_role
  rw [key_role_log_count, key_role_count]
  decide

theorem lookup_put (st : Store) (k k' : String) (v : nvs_value) :
    (st.put k v).lookup k' = if k' = k then some v else st.lookup k' := by
  unfold Store.put
  by_cases h : k' = k
  · subst h
    simp [List.lookup]
  · have h2 : (k' == k) = false := by simpa using h
    simp only [List.lookup, h2, h, if_false]
    induction st with
    | nil => rfl
    | cons e rest ih =>
      obtain ⟨ek, ev⟩ := e
      by_cases hk : ek = k
      · subst hk
        have hk' : (k' == ek) = false := h2
        simp [List.filter, List.lookup, hk', ih]
      · have hne : (ek != k) = true := by simpa using hk
        simp only [List.filter, hne, List.lookup]
        split <;> simp_all

theorem call_handler_calls (h : Option Nat) (s : State) :
    (call_handler h s).calls
      = s.calls ++ h.toList.map (fun f => { handler := f, store := s.nvs }) := by
  cases h <;> simp [call_handler]

theorem call_handler_nvs (h : Option Nat) (s : State) : (call_handler h s).nvs = s.nvs := by
  cases h <;> rfl

theorem call_handler_cursors (h : Option Nat) (s : State) :
    (call_handler h s).cursors = s.cursors := by
  cases h <;> rfl

theorem call_handler_faults (h : Option Nat) (s : State) :
    (call_handler h s).faults = s.faults := by
  cases h <;> rfl

theorem call_handler_initialized (h : Option Nat) (s : State) :
    (call_handler h s).initialized = s.initialized := by
  cases h <;> rfl

/-- The dispatch when every store operation succeeds: the final store, the
handler call with the store it sees, and the cursors. -/
theorem dispatch_ok (error : volf_error_t) (s : State) (hf : s.faults = []) :
    (dispatch error s).nvs
      = (if promote error s.publish_attempt_count = volf_error_t.ABORT then advanced s
         else s.nvs) ∧
    (dispatch error s).calls
      = s.calls ++ (registered s (promote error s.publish_attempt_count)).toList.map
          (fun f => { handler := f, store := (dispatch error s).nvs }) ∧
    (dispatch error s).cursors
      = (if promote error s.publish_attempt_count = volf_error_t.ABORT ∧
            s.error_log_count + 1 > MAX_ERROR_LOGS then (0, 0, 0) else s.cursors) ∧
    (dispatch error s).faults = [] ∧
    (dispatch error s).initialized = s.initialized := by
  unfold dispatch
  generalize promote error s.publish_attempt_count = e
  cases e
  · refine ⟨call_handler_nvs _ _, ?_, ?_, ?_, call_handler_initialized _ _⟩
    · rw [call_handler_calls, call_handler_nvs]
      rfl
    · rw [call_handler_cursors]
      simp
    · rw [call_handler_faults]
      exact hf
  · refine ⟨call_handler_nvs _ _, ?_, ?_, ?_, call_handler_initialized _ _⟩
    · rw [call_handler_calls, call_handler_nvs]
      rfl
    · rw [call_handler_cursors]
      simp
    · rw [call_handler_faults]
      exact hf
  · dsimp only
    rw [volf_increment_error_log_count_ok s hf, call_handler_nvs, call_handler_calls,
      call_handler_cursors, call_handler_faults, call_handler_initialized]
    unfold advanced
    by_cases hw : s.error_log_count + 1 > MAX_ERROR_LOGS
    · simp only [hw, if_true, and_self]
      exact ⟨rfl, rfl, rfl, hf, rfl⟩
    · simp only [hw, if_false, and_false, if_true]
      exact ⟨rfl, rfl, rfl, hf, rfl⟩

theorem lookup_persisted (e : volf_error_t) (ctx : String) (rc : Int) (s : State) :
    (persisted e ctx rc s).lookup (volf_build_error_context_key e s).1
      = some (nvs_value.str (context_and_rc ctx rc)) := by
  unfold persisted
  rw [lookup_put]
  simp

theorem lookup_stored (e : volf_error_t) (ctx : String) (rc : Int) (s : State) :
    (stored e ctx rc s).nvs.lookup (volf_build_error_context_key e s).1
      = some (nvs_value.str (context_and_rc ctx rc)) := by
  cases e
  · exact lookup_persisted _ _ _ _
  · show List.lookup _ (Store.put _ _ _) = _
    rw [lookup_put, if_neg (show _ ≠ runtime_key s from context_key_ne_runtime _ _ _ _)]
    exact lookup_persisted _ _ _ _
  · show List.lookup _ (Store.put _ _ _) = _
    rw [lookup_put, if_neg (show _ ≠ runtime_key s from context_key_ne_runtime _ _ _ _)]
    exact lookup_persisted _ _ _ _

/-- C4 (amended). A failing volf_handle_error call whose store operations
succeed invokes at most the handler registered for the effective severity,
and the store that handler sees holds the diagnostic string of this failure
under the key of its severity and current coordinates, except when the call
is dispatched as ABORT with error_log_count already MAX_ERROR_LOGS: then the
namespace has been erased before the abort handler runs and it sees an empty
store. -/
theorem handler_sees_recorded_failure (error : volf_error_t) (ctx : String) (rc : Int)
    (s : State) (hrc : rc ≠ ESP_OK) (hf : s.faults = []) :
    ∃ st : Store,
      (volf_handle_error error ctx rc s).calls
        = s.calls ++ (registered s (promote error (lazy_init s).publish_attempt_count)).toList.map
            (fun f => { handler := f, store := st }) ∧
      (if promote error (lazy_init s).publish_attempt_count = volf_error_t.ABORT ∧
            (lazy_init s).error_log_count + 1 > MAX_ERROR_LOGS then st = []
       else st.lookup (volf_build_error_context_key error (lazy_init s)).1
              = some (nvs_value.str (context_and_rc ctx rc))) := by
  have hl := lazy_init_faults s hf
  have hfx := lazy_init_fixed s
  rw [volf_handle_error_failure error ctx rc s hrc, volf_store_error_context_ok _ _ _ _ hl]
  generalize lazy_init s = s0 at hl hfx
  have hs1 : (stored error ctx rc s0).faults = [] := (stored_faults _ _ _ _).trans hl
  obtain ⟨h1, h2, -, -, -⟩ := dispatch_ok error (stored error ctx rc s0) hs1
  rw [stored_publish_attempt_count] at h1 h2
  refine ⟨(dispatch error (stored error ctx rc s0)).nvs, ?_, ?_⟩
  · rw [h2, fixed_calls (stored_fixed _ _ _ _), fixed_registered (stored_fixed _ _ _ _),
      fixed_calls hfx, fixed_registered hfx]
  · rw [h1]
    by_cases hp : promote error s0.publish_attempt_count = volf_error_t.ABORT
    · simp only [hp, if_true, true_and]
      unfold advanced
      rw [stored_error_log_count]
      by_cases hw : s0.error_log_count + 1 > MAX_ERROR_LOGS
      · simp only [hw, if_true]
      · simp only [hw, if_false]
        rw [lookup_put, if_neg (context_key_ne_log_count _ _)]
        exact lookup_stored _ _ _ _
    · simp only [hp, if_false, false_and]
      exact lookup_stored _ _ _ _

theorem handler_sees_recorded_failure_witness :
    (5 : Int) ≠ ESP_OK ∧ (wake_up none (power_on [] 10)).faults = [] ∧
    ∃ st : Store,
      (volf_handle_error volf_error_t.RETRY "esp_wifi_connect" 5
          (wake_up none (power_on [] 10))).calls
        = (wake_up none (power_on [] 10)).calls ++
            (registered (wake_up none (power_on [] 10))
              (promote volf_error_t.RETRY
                (lazy_init (wake_up none (power_on [] 10))).publish_attempt_count)).toList.map
              (fun f => { handler := f, store := st }) ∧
      (if promote volf_error_t.RETRY
              (lazy_init (wake_up none (power_on [] 10))).publish_attempt_count
            = volf_error_t.ABORT ∧
          (lazy_init (wake_up none (power_on [] 10))).error_log_count + 1 > MAX_ERROR_LOGS
        then st = []
       else st.lookup (volf_build_error_context_key volf_error_t.RETRY
              (lazy_init (wake_up none (power_on [] 10)))).1
              = some (nvs_value.str (context_and_rc "esp_wifi_connect" 5))) :=
  ⟨by decide, by decide,
   handler_sees_recorded_failure volf_error_t.RETRY "esp_wifi_connect" 5
     (wake_up none (power_on [] 10)) (by decide) (by decide)⟩

/-- C4 (counterexample). After five escalation cycles from an empty store
the log cursor is MAX_ERROR_LOGS; the next failing ABORT call erases the
namespace before the abort handler runs, so the handler is invoked while the
store holds nothing under the key of this failure (nor under any key). -/
theorem abort_on_full_ledger_sees_empty_store :
    (abort_cycles 5 (wake_up none (power_on [] 10))).error_log_count = MAX_ERROR_LOGS ∧
    (abort_cycles 5 (wake_up none (power_on [] 10))).faults = [] ∧
    (volf_handle_error volf_error_t.ABORT "give-up" 9999
        (abort_cycles 5 (wake_up none (power_on [] 10)))).calls.getLast?
      = some { handler := 2, store := [] } ∧
    ([] : Store).lookup
        (volf_build_error_context_key volf_error_t.ABORT
          (abort_cycles 5 (wake_up none (power_on [] 10)))).1
      ≠ some (nvs_value.str (context_and_rc "give-up" 9999)) := by
  decide

/-- C8. When volf_handle_error dispatches ABORT with in-memory log count L
and the store operations succeed: if L + 1 > MAX_ERROR_LOGS the namespace is
erased and the three cursors are 0; otherwise the persisted log count becomes
L + 1 and every other key holds what the persistence step of this call left
there. -/
theorem abort_advances_or_wipes (error : volf_error_t) (ctx : String) (rc : Int) (s : State)
    (hrc : rc ≠ ESP_OK) (hf : s.faults = [])
    (hab : promote error (lazy_init s).publish_attempt_count = volf_error_t.ABORT) :
    ((lazy_init s).error_log_count + 1 > MAX_ERROR_LOGS →
      (volf_handle_error error ctx rc s).nvs = [] ∧
      (volf_handle_error error ctx rc s).cursors = (0, 0, 0)) ∧
    (¬ (lazy_init s).error_log_count + 1 > MAX_ERROR_LOGS →
      (volf_handle_error error ctx rc s).nvs.lookup ERROR_LOG_COUNT_KEY
        = some (nvs_value.u8 ((lazy_init s).error_log_count + 1)) ∧
      (∀ k, k ≠ ERROR_LOG_COUNT_KEY →
        (volf_handle_error error ctx rc s).nvs.lookup k
          = (volf_store_error_context error ctx rc (lazy_init s)).nvs.lookup k) ∧
      (volf_handle_error error ctx rc s).cursors = (lazy_init s).cursors) := by
  have hl := lazy_init_faults s hf
  rw [volf_handle_error_failure error ctx rc s hrc, volf_store_error_context_ok _ _ _ _ hl]
  generalize lazy_init s = s0 at hl hab
  have hs1 : (stored error ctx rc s0).faults = [] := (stored_faults _ _ _ _).trans hl
  obtain ⟨h1, -, h3, -, -⟩ := dispatch_ok error (stored error ctx rc s0) hs1
  simp only [stored_publish_attempt_count, stored_error_log_count, hab, if_true, true_and]
    at h1 h3
  unfold advanced at h1
  rw [stored_error_log_count] at h1
  constructor
  · intro hw
    rw [h1, h3]
    simp only [hw, if_true, and_self]
  · intro hw
    rw [h1, h3]
    simp only [hw, if_false]
    have hlt : s0.error_log_count + 1 < 256 := by
      unfold MAX_ERROR_LOGS at hw
      omega
    refine ⟨?_, ?_, ?_⟩
    · rw [lookup_put, if_pos rfl, Nat.mod_eq_of_lt hlt]
    · intro k hk
      rw [lookup_put, if_neg hk]
    · have hc : error ≠ volf_error_t.CONTINUE := by
        intro hc
        subst hc
        simp [promote] at hab
      cases error
      · exact absurd rfl hc
      · rfl
      · rfl

theorem abort_advances_or_wipes_witness :
    (9999 : Int) ≠ ESP_OK ∧ (abort_cycles 2 (wake_up none (power_on [] 10))).faults = [] ∧
    (volf_handle_error volf_error_t.ABORT "give-up" 9999
        (abort_cycles 2 (wake_up none (power_on [] 10)))).nvs.lookup ERROR_LOG_COUNT_KEY
      = some (nvs_value.u8 3) :=
  ⟨by decide, by decide,
   (((abort_advances_or_wipes volf_error_t.ABORT "give-up" 9999
      (abort_cycles 2 (wake_up none (power_on [] 10))) (by decide) (by decide)
      (by decide)).2 (by decide)).1).trans (by decide)⟩

theorem take_fault_cons (s : State) (f : Int) (rest : List Int) (h : s.faults = f :: rest) :
    take_fault s = (f, { s with faults := rest }) := by
  cases s
  simp_all [take_fault]

/-- The persistence step when writing one of the two counters fails: the
ledger is wiped and nothing else is written. -/
theorem volf_store_error_context_counter_fault (error : volf_error_t) (ctx : String) (rc : Int)
    (s : State) (e : Int) (he : e ≠ 0)
    (hf : s.faults = [0, e] ∨ s.faults = [0, 0, e]) :
    volf_store_error_context error ctx rc s = wiped { s with faults := [] } := by
  rcases hf with hf | hf
  · have h1 : nvs_open nvs_open_mode_t.NVS_READWRITE s
        = (ESP_OK, some nvs_open_mode_t.NVS_READWRITE, { s with faults := [e] }) := by
      simp [nvs_open, take_fault_cons s 0 [e] hf, ESP_OK]
    have h2 : volf_store_error_log_counts (some nvs_open_mode_t.NVS_READWRITE)
        { s with faults := [e] } = (e, { s with faults := [] }) := by
      simp [volf_store_error_log_counts, nvs_set_u8, nvs_set,
        take_fault_cons { s with faults := [e] } e [] rfl, he]
    simp only [volf_store_error_context, h1, h2, ESP_OK, ne_eq, not_true_eq_false, if_false, he,
      not_false_eq_true, if_true]
    exact volf_clear_and_close_rw _ rfl
  · have h1 : nvs_open nvs_open_mode_t.NVS_READWRITE s
        = (ESP_OK, some nvs_open_mode_t.NVS_READWRITE, { s with faults := [0, e] }) := by
      simp [nvs_open, take_fault_cons s 0 [0, e] hf, ESP_OK]
    have h2 : volf_store_error_log_counts (some nvs_open_mode_t.NVS_READWRITE)
        { s with faults := [0, e] }
        = (e, { s with faults := [],
                       nvs := s.nvs.put ERROR_LOG_COUNT_KEY (nvs_value.u8 s.error_log_count) }) := by
      simp [volf_store_error_log_counts, nvs_set_u8, nvs_set,
        take_fault_cons { s with faults := [0, e] } 0 [e] rfl, take_fault, he, ESP_OK]
    simp only [volf_store_error_context, h1, h2, ESP_OK, ne_eq, not_true_eq_false, if_false, he,
      not_false_eq_true, if_true]
    exact volf_clear_and_close_rw _ rfl

theorem lazy_init_initialized (s : State) (hi : s.initialized = true) : lazy_init s = s := by
  simp [lazy_init, hi]

/-- C10 (amended). When writing either counter fails during a failing call
(the store operations after it succeeding), the ledger is wiped, cursors at 0,
and neither the diagnostic string nor a runtime is written; the dispatch
still takes place, unpromoted since the attempt counter is 0 by then: the
handler registered for the requested severity is invoked, and for ABORT the
log cursor is advanced from 0 first, which persists a log count of 1. -/
theorem counter_fault_wipes_then_dispatches (error : volf_error_t) (ctx : String) (rc : Int)
    (s : State) (e : Int) (hrc : rc ≠ ESP_OK) (hi : s.initialized = true) (he : e ≠ 0)
    (hf : s.faults = [0, e] ∨ s.faults = [0, 0, e]) :
    (volf_handle_error error ctx rc s).cursors = (0, 0, 0) ∧
    (volf_handle_error error ctx rc s).nvs
      = (if error = volf_error_t.ABORT then [(ERROR_LOG_COUNT_KEY, nvs_value.u8 1)] else []) ∧
    (volf_handle_error error ctx rc s).calls
      = s.calls ++ (registered s error).toList.map
          (fun f => { handler := f, store := (volf_handle_error error ctx rc s).nvs }) := by
  rw [volf_handle_error_failure error ctx rc s hrc, lazy_init_initialized s hi,
    volf_store_error_context_counter_fault error ctx rc s e he hf]
  obtain ⟨h1, h2, h3, -, -⟩ := dispatch_ok error (wiped { s with faults := [] }) rfl
  have hp : promote error (wiped { s with faults := [] }).publish_attempt_count = error := by
    show promote error 0 = error
    simp [promote, MAX_PUBLISH_ATTEMPTS]
  rw [hp] at h1 h2 h3
  refine ⟨?_, ?_, ?_⟩
  · rw [h3]
    have : ¬ ((wiped { s with faults := [] }).error_log_count + 1 > MAX_ERROR_LOGS) := by
      show ¬ (0 + 1 > MAX_ERROR_LOGS)
      decide
    simp only [this, and_false, if_false]
    rfl
  · rw [h1]
    by_cases hab : error = volf_error_t.ABORT
    · simp only [hab, if_true]
      rfl
    · simp only [hab, if_false]
      rfl
  · rw [h2]
    cases error <;> rfl

theorem counter_fault_wipes_then_dispatches_witness :
    (5 : Int) ≠ ESP_OK ∧ (0x1105 : Int) ≠ 0 ∧
    (volf_handle_error volf_error_t.CONTINUE "esp_wifi_stop" 5
      { retry_cycles 1 (wake_up (some 0) (power_on [] 10)) with faults := [0, 0, 0x1105] }).nvs
      = [] :=
  ⟨by decide, by decide,
   (counter_fault_wipes_then_dispatches volf_error_t.CONTINUE "esp_wifi_stop" 5
      { retry_cycles 1 (wake_up (some 0) (power_on [] 10)) with faults := [0, 0, 0x1105] }
      0x1105 (by decide) (by decide) (by decide) (Or.inr rfl)).2.1⟩

/-- C10 (counterexample). In the second attempt of a cycle the write of the
log count fails (0x1105, not enough space): the RETRY call wipes the ledger
and then invokes the retry handler all the same, and an ABORT call in the
same situation invokes the abort handler after persisting a log count of 1. -/
theorem counter_fault_still_invokes_handler :
    (volf_handle_error volf_error_t.RETRY "esp_wifi_connect" 5
      { retry_cycles 1 (wake_up (some 0) (power_on [] 10)) with faults := [0, 0x1105] }).calls
      = (retry_cycles 1 (wake_up (some 0) (power_on [] 10))).calls ++
          [{ handler := 1, store := [] }] ∧
    (volf_handle_error volf_error_t.ABORT "give-up" 5
      { retry_cycles 1 (wake_up (some 0) (power_on [] 10)) with faults := [0, 0x1105] }).calls
      = (retry_cycles 1 (wake_up (some 0) (power_on [] 10))).calls ++
          [{ handler := 2, store := [("ELC", nvs_value.u8 1)] }] := by
  decide

/-- C6 (the code at the failing input). A store of one log with one attempt
and five continue texts is reloaded with the runtime, the retry text, the
abort text and the five continue texts as written, but with
num_continue_contexts 0: the scan leaves the loop by its bound without ever
setting the count. With four continue texts the count is 4. -/
theorem five_continue_contexts_reload_with_count_zero :
    (volf_error_init (power_on (one_attempt_store 5) 10)).loaded_errors.num_error_logs = 1 ∧
    ((volf_error_init (power_on (one_attempt_store 5) 10)).loaded_errors.error_logs.head?.map
        (fun l => (l.num_publish_attempts, l.publish_attempts.head?)))
      = some (1, some { runtime := 1234, retry_context := "esp_wifi_connect(12295)",
                        abort_context := "give-up(9999)",
                        continue_contexts := ["c1", "c2", "c3", "c4", "c5"],
                        num_continue_contexts := 0 }) ∧
    ((volf_error_init (power_on (one_attempt_store 4) 10)).loaded_errors.error_logs.head?.map
        (fun l => (l.num_publish_attempts, l.publish_attempts.head?)))
      = some (1, some { runtime := 1234, retry_context := "esp_wifi_connect(12295)",
                        abort_context := "give-up(9999)",
                        continue_contexts := ["c1", "c2", "c3", "c4", ""],
                        num_continue_contexts := 4 }) := by
  decide

/-- C9 (the code at the failing input). In one run of the program without an
abort handler, the second ABORT call advances the persisted log count from 1
to 2 while error_log_count stays 1; the RETRY call that follows writes the log
count back to 1 and stores its diagnostic under log 1, attempt 1, and nothing
under log 2. Had the device restarted in between, the same call would have
been stored under log 2 with attempt counter 1. -/
theorem next_failure_after_abort_reuses_old_log :
    abort_abort_retry.1.nvs.lookup "ELC" = some (nvs_value.u8 2) ∧
    abort_abort_retry.1.error_log_count = 1 ∧
    abort_abort_retry.2.nvs.lookup "ELC" = some (nvs_value.u8 1) ∧
    abort_abort_retry.2.nvs.lookup "ER_1_1" = some (nvs_value.str "esp_wifi_connect(5)") ∧
    abort_abort_retry.2.nvs.lookup "ER_2_1" = none ∧
    abort_abort_retry.2.nvs.lookup "PAC_2" = none ∧
    (volf_handle_error volf_error_t.RETRY "esp_wifi_connect" 5
        (wake_up none abort_abort_retry.1)).nvs.lookup "ER_2_1"
      = some (nvs_value.str "esp_wifi_connect(5)") ∧
    (volf_handle_error volf_error_t.RETRY "esp_wifi_connect" 5
        (wake_up none abort_abort_retry.1)).nvs.lookup "ELC" = some (nvs_value.u8 2) := by
  decide

theorem log_count_ne_context_key (e : volf_error_t) (s : State) :
    ERROR_LOG_COUNT_KEY ≠ (volf_build_error_context_key e s).1 :=
  fun h => context_key_ne_log_count e s h.symm

theorem log_count_ne_runtime_key (s : State) : ERROR_LOG_COUNT_KEY ≠ runtime_key s := by
  apply ne_of_key_role
  rw [key_role_log_count]
  show _ ≠ key_role (snprintf MAX_KEY_SIZE (PUBLISH_ATTEMPT_RUNTIME_KEY_TEMPLATE _ _))
  rw [key_role_runtime]
  decide

theorem count_key_ne_context_key (l : Nat) (e : volf_error_t) (s : State) :
    snprintf MAX_KEY_SIZE (PUBLISH_ATTEMPT_COUNT_KEY_TEMPLATE l)
      ≠ (volf_build_error_context_key e s).1 := by
  apply ne_of_key_role
  rw [key_role_count]
  rcases key_role_context e s with h | h | h <;> rw [h] <;> decide

theorem count_key_ne_runtime_key (l : Nat) (s : State) :
    snprintf MAX_KEY_SIZE (PUBLISH_ATTEMPT_COUNT_KEY_TEMPLATE l) ≠ runtime_key s := by
  apply ne_of_key_role
  rw [key_role_count]
  show _ ≠ key_role (snprintf MAX_KEY_SIZE (PUBLISH_ATTEMPT_RUNTIME_KEY_TEMPLATE _ _))
  rw [key_role_runtime]
  decide

theorem lookup_persisted_log_count (e : volf_error_t) (ctx : String) (rc : Int) (s : State) :
    (persisted e ctx rc s).lookup ERROR_LOG_COUNT_KEY = some (nvs_value.u8 s.error_log_count) := by
  unfold persisted
  rw [lookup_put, if_neg (log_count_ne_context_key e s), lookup_put,
    if_neg (fun h => count_key_ne_log_count _ h.symm), lookup_put, if_pos rfl]

theorem lookup_persisted_count (e : volf_error_t) (ctx : String) (rc : Int) (s : State)
    (l : Nat) :
    (persisted e ctx rc s).lookup (snprintf MAX_KEY_SIZE (PUBLISH_ATTEMPT_COUNT_KEY_TEMPLATE l))
      = if snprintf MAX_KEY_SIZE (PUBLISH_ATTEMPT_COUNT_KEY_TEMPLATE l)
            = snprintf MAX_KEY_SIZE (PUBLISH_ATTEMPT_COUNT_KEY_TEMPLATE s.error_log_count)
        then some (nvs_value.u8 s.publish_attempt_count)
        else s.nvs.lookup (snprintf MAX_KEY_SIZE (PUBLISH_ATTEMPT_COUNT_KEY_TEMPLATE l)) := by
  unfold persisted
  rw [lookup_put, if_neg (count_key_ne_context_key l e s), lookup_put]
  split
  · rfl
  · rw [lookup_put, if_neg (count_key_ne_log_count l)]

theorem lookup_stored_log_count (e : volf_error_t) (ctx : String) (rc : Int) (s : State) :
    (stored e ctx rc s).nvs.lookup ERROR_LOG_COUNT_KEY
      = some (nvs_value.u8 s.error_log_count) := by
  cases e
  · exact lookup_persisted_log_count _ _ _ _
  · show List.lookup _ (Store.put _ _ _) = _
    rw [lookup_put, if_neg (log_count_ne_runtime_key s)]
    exact lookup_persisted_log_count _ _ _ _
  · show List.lookup _ (Store.put _ _ _) = _
    rw [lookup_put, if_neg (log_count_ne_runtime_key s)]
    exact lookup_persisted_log_count _ _ _ _

theorem lookup_stored_count (e : volf_error_t) (ctx : String) (rc : Int) (s : State) (l : Nat) :
    (stored e ctx rc s).nvs.lookup (snprintf MAX_KEY_SIZE (PUBLISH_ATTEMPT_COUNT_KEY_TEMPLATE l))
      = if snprintf MAX_KEY_SIZE (PUBLISH_ATTEMPT_COUNT_KEY_TEMPLATE l)
            = snprintf MAX_KEY_SIZE (PUBLISH_ATTEMPT_COUNT_KEY_TEMPLATE s.error_log_count)
        then some (nvs_value.u8 s.publish_attempt_count)
        else s.nvs.lookup (snprintf MAX_KEY_SIZE (PUBLISH_ATTEMPT_COUNT_KEY_TEMPLATE l)) := by
  cases e
  · exact lookup_persisted_count _ _ _ _ _
  · show List.lookup _ (Store.put _ _ _) = _
    rw [lookup_put, if_neg (count_key_ne_runtime_key l s)]
    exact lookup_persisted_count _ _ _ _ _
  · show List.lookup _ (Store.put _ _ _) = _
    rw [lookup_put, if_neg (count_key_ne_runtime_key l s)]
    exact lookup_persisted_count _ _ _ _ _

theorem no_excess_stored (e : volf_error_t) (ctx : String) (rc : Int) (s : State) (n l : Nat)
    (hp : s.publish_attempt_count ≤ MAX_PUBLISH_ATTEMPTS) (hx : no_excess s.nvs n l = true) :
    no_excess (stored e ctx rc s).nvs n l = true := by
  induction n generalizing l with
  | zero => rfl
  | succ n ih =>
    simp only [no_excess, Bool.and_eq_true] at hx ⊢
    refine ⟨?_, ih _ hx.2⟩
    rw [lookup_stored_count]
    by_cases hk : snprintf MAX_KEY_SIZE (PUBLISH_ATTEMPT_COUNT_KEY_TEMPLATE l)
        = snprintf MAX_KEY_SIZE (PUBLISH_ATTEMPT_COUNT_KEY_TEMPLATE s.error_log_count)
    · rw [if_pos hk]
      simpa using hp
    · rw [if_neg hk]
      exact hx.1

theorem no_excess_nil (n l : Nat) : no_excess [] n l = true := by
  induction n generalizing l with
  | zero => rfl
  | succ n ih => simp [no_excess, ih]

theorem volf_handle_error_initialized (e : volf_error_t) (ctx : String) (rc : Int) (s : State)
    (hrc : rc ≠ ESP_OK) (hi : s.initialized = true) (hf : s.faults = []) :
    volf_handle_error e ctx rc s = dispatch e (stored e ctx rc s) := by
  rw [volf_handle_error_failure e ctx rc s hrc, lazy_init_initialized s hi,
    volf_store_error_context_ok e ctx rc s hf]

theorem start_up_fields (hc hr ha : Option Nat) (s : State) :
    (start_up hc hr ha s).nvs = (volf_error_init s).nvs ∧
    (start_up hc hr ha s).faults = (volf_error_init s).faults ∧
    (start_up hc hr ha s).initialized = (volf_error_init s).initialized ∧
    (start_up hc hr ha s).cursors = (volf_error_init s).cursors ∧
    (start_up hc hr ha s).calls = (volf_error_init s).calls ∧
    (start_up hc hr ha s).loaded_errors = (volf_error_init s).loaded_errors ∧
    (start_up hc hr ha s).continue_handler = hc ∧
    (start_up hc hr ha s).retry_handler = hr ∧
    (start_up hc hr ha s).abort_handler = ha :=
  ⟨rfl, rfl, rfl, rfl, rfl, rfl, rfl, rfl, rfl⟩

/-- A restart over a store whose log count is `L` > 0 and whose log `L` holds
attempt count `a` opens attempt `a + 1` of log `L`. -/
theorem wake_opens_next_attempt (hc hr ha : Option Nat) (t : State) (L a : Nat)
    (hf : t.faults = [])
    (hE : t.nvs.lookup ERROR_LOG_COUNT_KEY = some (nvs_value.u8 L)) (hL : 0 < L)
    (hx : no_excess t.nvs L 1 = true)
    (hP : t.nvs.lookup (snprintf MAX_KEY_SIZE (PUBLISH_ATTEMPT_COUNT_KEY_TEMPLATE L))
      = some (nvs_value.u8 a))
    (ha256 : a + 1 < 256) :
    Attempt (start_up hc hr ha (restart t)) L (a + 1) ∧
    (start_up hc hr ha (restart t)).nvs = t.nvs ∧
    (start_up hc hr ha (restart t)).calls = t.calls := by
  obtain ⟨h1, h2, h3, h4⟩ := volf_error_init_loaded (restart t) L hf hE hL hx
  obtain ⟨g1, g2, g3, g4, g5, -, -, -, -⟩ := start_up_fields hc hr ha (restart t)
  have hp : (volf_error_init (restart t)).publish_attempt_count = a + 1 := by
    rw [h3]
    show ((match List.lookup _ t.nvs with
      | some (nvs_value.u8 a) => a
      | _ => 0) + 1) % 256 = a + 1
    rw [hP]
    exact Nat.mod_eq_of_lt ha256
  have hnvs : (volf_error_init (restart t)).nvs = t.nvs := congrArg (fun c => c.1) h1
  have hfl : (volf_error_init (restart t)).faults = [] := congrArg (fun c => c.2.1) h1
  have hin : (volf_error_init (restart t)).initialized = true := congrArg (fun c => c.2.2.1) h1
  have hfx : (volf_error_init (restart t)).fixed = (restart t).fixed :=
    congrArg (fun c => c.2.2.2) h1
  refine ⟨⟨?_, ?_, ?_, ?_, ?_⟩, ?_, ?_⟩
  · rw [g3, hin]
  · rw [g2, hfl]
  · exact (congrArg (fun c => c.1) g4).trans h2
  · exact (congrArg (fun c => c.2.1) g4).trans hp
  · rw [g1, hnvs]
    exact hx
  · rw [g1, hnvs]
  · rw [g5, fixed_calls hfx]
    rfl

/-- A failing call that is not dispatched as ABORT, followed by a restart,
opens the next attempt of the same log. -/
theorem failure_then_wake (hc hr ha : Option Nat) (e : volf_error_t) (ctx : String) (rc : Int)
    (s : State) (L a : Nat) (hs : Attempt s L a) (hL : 0 < L) (ha3 : a ≤ MAX_PUBLISH_ATTEMPTS)
    (hrc : rc ≠ ESP_OK) (hne : promote e a ≠ volf_error_t.ABORT) :
    Attempt (start_up hc hr ha (restart (volf_handle_error e ctx rc s))) L (a + 1) ∧
    (start_up hc hr ha (restart (volf_handle_error e ctx rc s))).calls.map HandlerCall.handler
      = s.calls.map HandlerCall.handler ++ (registered s (promote e a)).toList := by
  obtain ⟨hi, hf, hl, hp, hx⟩ := hs
  have hs1 : (stored e ctx rc s).faults = [] := (stored_faults _ _ _ _).trans hf
  obtain ⟨d1, -, -, d4, -⟩ := dispatch_ok e (stored e ctx rc s) hs1
  rw [stored_publish_attempt_count, hp, if_neg hne] at d1
  have hcalls := dispatch_fixed_handlers e (stored e ctx rc s)
  rw [stored_publish_attempt_count, hp, fixed_calls (stored_fixed _ _ _ _),
    fixed_registered (stored_fixed _ _ _ _)] at hcalls
  rw [volf_handle_error_initialized e ctx rc s hrc hi hf]
  have hE : (dispatch e (stored e ctx rc s)).nvs.lookup ERROR_LOG_COUNT_KEY
      = some (nvs_value.u8 L) := by
    rw [d1, lookup_stored_log_count, hl]
  have hP : (dispatch e (stored e ctx rc s)).nvs.lookup
      (snprintf MAX_KEY_SIZE (PUBLISH_ATTEMPT_COUNT_KEY_TEMPLATE L)) = some (nvs_value.u8 a) := by
    rw [d1, lookup_stored_count, hl, if_pos rfl, hp]
  have hx' : no_excess (dispatch e (stored e ctx rc s)).nvs L 1 = true := by
    rw [d1]
    exact no_excess_stored e ctx rc s L 1 (hp ▸ ha3) hx
  have ha256 : a + 1 < 256 := by
    unfold MAX_PUBLISH_ATTEMPTS at ha3
    omega
  obtain ⟨w1, -, w3⟩ := wake_opens_next_attempt hc hr ha _ L a d4 hE hL hx' hP ha256
  exact ⟨w1, by rw [w3, hcalls]⟩

theorem lazy_init_empty_store (s : State) (hn : s.nvs = []) (hf : s.faults = []) :
    lazy_init s = s := by
  unfold lazy_init
  split
  · exact volf_error_init_absent s hf (by rw [hn]; rfl)
  · rfl

/-- The first failure over an empty namespace is stored under log 0, attempt
0; the restart after it opens attempt 1 of log 1. -/
theorem first_failure_then_wake (hc hr ha : Option Nat) (e : volf_error_t) (ctx : String)
    (rc : Int) (s : State) (hn : s.nvs = []) (hf : s.faults = [])
    (hl : s.error_log_count = 0) (hp : s.publish_attempt_count = 0)
    (hrc : rc ≠ ESP_OK) (hne : e ≠ volf_error_t.ABORT) :
    Attempt (start_up hc hr ha (restart (volf_handle_error e ctx rc s))) 1 1 ∧
    (start_up hc hr ha (restart (volf_handle_error e ctx rc s))).calls.map HandlerCall.handler
      = s.calls.map HandlerCall.handler ++ (registered s e).toList := by
  have hpr : promote e 0 = e := by
    simp [promote, MAX_PUBLISH_ATTEMPTS]
  have hs1 : (stored e ctx rc s).faults = [] := (stored_faults _ _ _ _).trans hf
  obtain ⟨d1, -, -, d4, -⟩ := dispatch_ok e (stored e ctx rc s) hs1
  rw [stored_publish_attempt_count, hp, hpr, if_neg hne] at d1
  have hcalls := dispatch_fixed_handlers e (stored e ctx rc s)
  rw [stored_publish_attempt_count, hp, hpr, fixed_calls (stored_fixed _ _ _ _),
    fixed_registered (stored_fixed _ _ _ _)] at hcalls
  rw [volf_handle_error_failure e ctx rc s hrc, lazy_init_empty_store s hn hf,
    volf_store_error_context_ok e ctx rc s hf]
  generalize dispatch e (stored e ctx rc s) = t at d1 d4 hcalls
  have hE : (restart t).nvs.lookup ERROR_LOG_COUNT_KEY = some (nvs_value.u8 0) := by
    show t.nvs.lookup ERROR_LOG_COUNT_KEY = _
    rw [d1, lookup_stored_log_count, hl]
  have hz := volf_error_init_zero (restart t) d4 hE
  obtain ⟨g1, g2, g3, g4, g5, -, -, -, -⟩ := start_up_fields hc hr ha (restart t)
  rw [hz] at g1 g2 g3 g4 g5
  refine ⟨⟨g3, g2.trans d4, congrArg (fun c => c.1) g4, congrArg (fun c => c.2.1) g4, ?_⟩, ?_⟩
  · rw [g1]
    show no_excess t.nvs 1 1 = true
    rw [d1]
    exact no_excess_stored e ctx rc s 1 1 (by rw [hp]; decide) (by rw [hn]; exact no_excess_nil 1 1)
  · rw [g5]
    exact hcalls

theorem volf_handle_error_handlers (e : volf_error_t) (ctx : String) (rc : Int) (s : State)
    (hrc : rc ≠ ESP_OK) (hi : s.initialized = true) (hf : s.faults = []) :
    (volf_handle_error e ctx rc s).calls.map HandlerCall.handler
      = s.calls.map HandlerCall.handler ++
          (registered s (promote e s.publish_attempt_count)).toList := by
  rw [volf_handle_error_initialized e ctx rc s hrc hi hf, dispatch_fixed_handlers,
    stored_publish_attempt_count, fixed_calls (stored_fixed _ _ _ _),
    fixed_registered (stored_fixed _ _ _ _)]

theorem registered_start_up (hc hr ha : Option Nat) (s : State) (e : volf_error_t) :
    registered (start_up hc hr ha s) e
      = (match e with
        | volf_error_t.CONTINUE => hc
        | volf_error_t.RETRY => hr
        | volf_error_t.ABORT => ha) := by
  cases e <;> rfl

theorem start_up_power_on (hc hr ha : Option Nat) (p : Nat) :
    (start_up hc hr ha (power_on [] p)).nvs = [] ∧
    (start_up hc hr ha (power_on [] p)).faults = [] ∧
    (start_up hc hr ha (power_on [] p)).error_log_count = 0 ∧
    (start_up hc hr ha (power_on [] p)).publish_attempt_count = 0 ∧
    (start_up hc hr ha (power_on [] p)).calls = [] := by
  have hw0 : volf_error_init (power_on [] p) = power_on [] p :=
    volf_error_init_absent _ rfl rfl
  obtain ⟨g1, g2, -, g4, g5, -, -, -, -⟩ := start_up_fields hc hr ha (power_on [] p)
  rw [hw0] at g1 g2 g4 g5
  exact ⟨g1, g2, congrArg (fun c => c.1) g4, congrArg (fun c => c.2.1) g4, g5⟩

/-- C2 (amended). From an empty ledger, with the three handlers registered at
every program start and a restart after each of three failing RETRY calls
(the attempt counter advances only in volf_error_init), the three calls are
dispatched to the retry handler, and the next failing call is dispatched as
ABORT when its severity is RETRY or ABORT (the abort handler is invoked, the
retry and continue handlers are not), and as CONTINUE when it is CONTINUE. -/
theorem fourth_attempt_escalates (p : Nat) (hc hr ha : Option Nat) (c1 c2 c3 c4 : String)
    (r1 r2 r3 r4 : Int) (sev : volf_error_t)
    (h1 : r1 ≠ ESP_OK) (h2 : r2 ≠ ESP_OK) (h3 : r3 ≠ ESP_OK) (h4 : r4 ≠ ESP_OK) :
    (volf_handle_error sev c4 r4
      (start_up hc hr ha (restart (volf_handle_error volf_error_t.RETRY c3 r3
        (start_up hc hr ha (restart (volf_handle_error volf_error_t.RETRY c2 r2
          (start_up hc hr ha (restart (volf_handle_error volf_error_t.RETRY c1 r1
            (start_up hc hr ha (power_on [] p)))))))))))).calls.map HandlerCall.handler
      = hr.toList ++ hr.toList ++ hr.toList ++
          (if sev = volf_error_t.CONTINUE then hc else ha).toList := by
  obtain ⟨z1, z2, z3, z4, z5⟩ := start_up_power_on hc hr ha p
  obtain ⟨a1, k1⟩ := first_failure_then_wake hc hr ha volf_error_t.RETRY c1 r1
    (start_up hc hr ha (power_on [] p)) z1 z2 z3 z4 h1 (by decide)
  rw [z5, registered_start_up] at k1
  have g1 := registered_start_up hc hr ha (restart (volf_handle_error volf_error_t.RETRY c1 r1
    (start_up hc hr ha (power_on [] p))))
  generalize start_up hc hr ha (restart (volf_handle_error volf_error_t.RETRY c1 r1
    (start_up hc hr ha (power_on [] p)))) = w1 at a1 k1 g1
  obtain ⟨a2, k2⟩ := failure_then_wake hc hr ha volf_error_t.RETRY c2 r2 w1 1 1 a1
    (by decide) (by decide) h2 (by decide)
  rw [k1, g1] at k2
  have g2 := registered_start_up hc hr ha (restart (volf_handle_error volf_error_t.RETRY c2 r2
    w1))
  generalize start_up hc hr ha (restart (volf_handle_error volf_error_t.RETRY c2 r2 w1)) = w2
    at a2 k2 g2
  obtain ⟨a3, k3⟩ := failure_then_wake hc hr ha volf_error_t.RETRY c3 r3 w2 1 2 a2
    (by decide) (by decide) h3 (by decide)
  rw [k2, g2] at k3
  have g3 := registered_start_up hc hr ha (restart (volf_handle_error volf_error_t.RETRY c3 r3
    w2))
  generalize start_up hc hr ha (restart (volf_handle_error volf_error_t.RETRY c3 r3 w2)) = w3
    at a3 k3 g3
  obtain ⟨i3, f3, -, p3, -⟩ := a3
  rw [volf_handle_error_handlers sev c4 r4 w3 h4 i3 f3, k3, g3, p3]
  cases sev <;> simp [promote, MAX_PUBLISH_ATTEMPTS]

theorem fourth_attempt_escalates_witness :
    (5 : Int) ≠ ESP_OK ∧
    (volf_handle_error volf_error_t.RETRY "esp_wifi_connect" 5
      (start_up (some 0) (some 1) (some 2) (restart (volf_handle_error volf_error_t.RETRY
        "esp_wifi_connect" 5
        (start_up (some 0) (some 1) (some 2) (restart (volf_handle_error volf_error_t.RETRY
          "esp_wifi_connect" 5
          (start_up (some 0) (some 1) (some 2) (restart (volf_handle_error volf_error_t.RETRY
            "esp_wifi_connect" 5
            (start_up (some 0) (some 1) (some 2)
              (power_on [] 10)))))))))))).calls.map HandlerCall.handler
      = [1, 1, 1, 2] :=
  ⟨by decide,
   fourth_attempt_escalates 10 (some 0) (some 1) (some 2) "esp_wifi_connect" "esp_wifi_connect"
     "esp_wifi_connect" "esp_wifi_connect" 5 5 5 5 volf_error_t.RETRY
     (by decide) (by decide) (by decide) (by decide)⟩

/-- C2 (counterexample). After three failing RETRY calls, each followed by a
restart, a failing CONTINUE call is dispatched to the continue handler (0) and
not to the abort handler (2); and without the restarts a fourth failing RETRY
call of the same run is dispatched to the retry handler (1) again. -/
theorem fourth_failure_not_always_abort :
    (volf_handle_error volf_error_t.CONTINUE "esp_wifi_stop" 5
        (retry_cycles 3 (wake_up (some 0) (power_on [] 10)))).calls.map HandlerCall.handler
      = [1, 1, 1, 0] ∧
    (volf_handle_error volf_error_t.RETRY "esp_wifi_connect" 5
      (volf_handle_error volf_error_t.RETRY "esp_wifi_connect" 5
        (volf_handle_error volf_error_t.RETRY "esp_wifi_connect" 5
          (volf_handle_error volf_error_t.RETRY "esp_wifi_connect" 5
            (wake_up (some 0) (power_on [] 10)))))).calls.map HandlerCall.handler
      = [1, 1, 1, 1] := by
  decide

theorem snprintf_length_le (n : Nat) (x : String) : (snprintf n x).length ≤ n - 1 := by
  show (List.take (n - 1) x.data).length ≤ n - 1
  rw [List.length_take]
  exact Nat.min_le_left _ _

theorem context_and_rc_length (ctx : String) (rc : Int) :
    (context_and_rc ctx rc).length ≤ ctx.length + 9 :=
  snprintf_length_le _ _

theorem context_and_rc_short (ctx : String) (rc : Int) (h : (fmt_d rc).length ≤ 7) :
    context_and_rc ctx rc = ctx ++ "(" ++ fmt_d rc ++ ")" := by
  unfold context_and_rc snprintf
  apply String.ext
  show List.take _ _ = _
  apply List.take_of_length_le
  have h' : (fmt_d rc).data.length ≤ 7 := h
  have hl : (ctx ++ "(" ++ fmt_d rc ++ ")").data.length
      = ctx.data.length + 1 + (fmt_d rc).data.length + 1 := by
    simp only [String.data_append, List.length_append]
    rfl
  rw [hl]
  show _ ≤ ctx.data.length + 10 - 1
  omega

theorem key_evals :
    snprintf MAX_KEY_SIZE (PUBLISH_ATTEMPT_COUNT_KEY_TEMPLATE 0) = "PAC_0" ∧
    snprintf MAX_KEY_SIZE (PUBLISH_ATTEMPT_COUNT_KEY_TEMPLATE 1) = "PAC_1" ∧
    snprintf MAX_KEY_SIZE (PUBLISH_ATTEMPT_COUNT_KEY_TEMPLATE 2) = "PAC_2" ∧
    snprintf MAX_KEY_SIZE (ERROR_CONTINUE_KEY_TEMPLATE 0 0 1) = "EC_0_0_1" ∧
    snprintf MAX_KEY_SIZE (ERROR_CONTINUE_KEY_TEMPLATE 1 1 1) = "EC_1_1_1" ∧
    snprintf MAX_KEY_SIZE (ERROR_CONTINUE_KEY_TEMPLATE 1 1 2) = "EC_1_1_2" ∧
    snprintf MAX_KEY_SIZE (ERROR_ABORT_KEY_TEMPLATE 1 1) = "EA_1_1" ∧
    snprintf MAX_KEY_SIZE (ERROR_RETRY_KEY_TEMPLATE 1 1) = "ER_1_1" ∧
    snprintf MAX_KEY_SIZE (PUBLISH_ATTEMPT_RUNTIME_KEY_TEMPLATE 1 1) = "PAR_1_1" := by
  decide

theorem scenario_c5_store (p : Nat) (err : Int) (herr : err ≠ ESP_OK) :
    (scenario_c5 p err).nvs =
      [("ELC", nvs_value.u8 2), ("PAR_1_1", nvs_value.u32 0),
       ("EA_1_1", nvs_value.str (context_and_rc "give-up" err)),
       ("PAC_1", nvs_value.u8 1),
       ("EC_1_1_2", nvs_value.str (context_and_rc "sensor-timeout" err)),
       ("EC_0_0_1", nvs_value.str (context_and_rc "sensor-timeout" err)),
       ("PAC_0", nvs_value.u8 0)] ∧
    (scenario_c5 p err).faults = [] := by
  unfold scenario_c5
  -- first call
  have e1 : volf_handle_error volf_error_t.CONTINUE "sensor-timeout" err (power_on [] p)
      = stored volf_error_t.CONTINUE "sensor-timeout" err (power_on [] p) := by
    rw [volf_handle_error_failure _ _ _ _ herr, lazy_init_empty_store _ rfl rfl,
      volf_store_error_context_ok _ _ _ _ rfl]
    rfl
  rw [e1]
  have e2 : volf_handle_error volf_error_t.CONTINUE "sensor-timeout" err
      (stored volf_error_t.CONTINUE "sensor-timeout" err (power_on [] p))
      = stored volf_error_t.CONTINUE "sensor-timeout" err
          { stored volf_error_t.CONTINUE "sensor-timeout" err (power_on [] p) with
            error_log_count := 1, publish_attempt_count := 1, initialized := true } := by
    rw [volf_handle_error_failure _ _ _ _ herr]
    have hz : lazy_init (stored volf_error_t.CONTINUE "sensor-timeout" err (power_on [] p))
        = { stored volf_error_t.CONTINUE "sensor-timeout" err (power_on [] p) with
            error_log_count := 1, publish_attempt_count := 1, initialized := true } := by
      unfold lazy_init
      rw [if_pos (show (stored volf_error_t.CONTINUE "sensor-timeout" err
        (power_on [] p)).initialized = false from rfl),
        volf_error_init_zero _ rfl (lookup_stored_log_count _ _ _ _)]
      rfl
    rw [hz, volf_store_error_context_ok _ _ _ _ rfl]
    rfl
  rw [e2]
  rw [volf_handle_error_initialized _ _ _ _ herr rfl rfl]
  obtain ⟨d1, -, -, d4, -⟩ := dispatch_ok volf_error_t.ABORT (stored volf_error_t.ABORT "give-up" err
    (stored volf_error_t.CONTINUE "sensor-timeout" err
          { stored volf_error_t.CONTINUE "sensor-timeout" err (power_on [] p) with
            error_log_count := 1, publish_attempt_count := 1, initialized := true })) rfl
  refine ⟨?_, d4⟩
  rw [d1]
  obtain ⟨k0, k1, k2, k3, k4, k5, k6, k7, k8⟩ := key_evals
  simp [promote, advanced, stored, State.with_nvs, persisted, volf_build_error_context_key,
    runtime_key, runtime_value, power_on, k0, k1, k2, k3, k4, k5, k6, k7, k8, Store.put,
    MAX_ERROR_LOGS, ERROR_LOG_COUNT_KEY, List.filter]


theorem utf8ByteSize_append (a b : String) :
    (a ++ b).utf8ByteSize = a.utf8ByteSize + b.utf8ByteSize := by
  show String.utf8Len (a.data ++ b.data) = String.utf8Len a.data + String.utf8Len b.data
  exact String.utf8Len_append a.data b.data

theorem digitChar_bytes : ∀ m : Nat, m < 10 → (Nat.digitChar m).utf8Size = 1 := by
  decide

theorem toDigitsCore_bytes (fuel n : Nat) (ds : List Char)
    (h : String.utf8ByteSize.go ds = ds.length) :
    String.utf8ByteSize.go (Nat.toDigitsCore 10 fuel n ds)
      = (Nat.toDigitsCore 10 fuel n ds).length := by
  induction fuel generalizing n ds with
  | zero => exact h
  | succ fuel ih =>
    have hd : String.utf8ByteSize.go (Nat.digitChar (n % 10) :: ds)
        = (Nat.digitChar (n % 10) :: ds).length := by
      simp only [String.utf8ByteSize.go, h, List.length_cons,
        digitChar_bytes (n % 10) (Nat.mod_lt _ (by decide))]
    simp only [Nat.toDigitsCore]
    split
    · exact hd
    · exact ih _ _ hd

theorem repr_bytes (n : Nat) : (Nat.repr n).utf8ByteSize = (Nat.repr n).length :=
  toDigitsCore_bytes (n + 1) n [] rfl

/-- The decimal form of a status is ASCII: its bytes are its characters. -/
theorem fmt_d_bytes (i : Int) : (fmt_d i).utf8ByteSize = (fmt_d i).length := by
  cases i with
  | ofNat n => exact repr_bytes n
  | negSucc n =>
    show ("-" ++ Nat.repr (n + 1)).utf8ByteSize = ("-" ++ Nat.repr (n + 1)).length
    rw [utf8ByteSize_append, repr_bytes, String.length_append]
    rfl

theorem reload_c5_store (pp : Nat) (cs : List HandlerCall) (d c : String)
    (hd : d.utf8ByteSize + 1 ≤ MAX_ERROR_CONTEXT_SIZE) :
    (volf_error_init
      { power_on
          [("ELC", nvs_value.u8 2), ("PAR_1_1", nvs_value.u32 0), ("EA_1_1", nvs_value.str d),
           ("PAC_1", nvs_value.u8 1), ("EC_1_1_2", nvs_value.str c),
           ("EC_0_0_1", nvs_value.str c), ("PAC_0", nvs_value.u8 0)] pp with
        calls := cs }).loaded_errors
      = { error_logs :=
            { publish_attempts :=
                { volf_publish_attempt.zero with abort_context := d } ::
                  List.replicate 2 volf_publish_attempt.zero,
              num_publish_attempts := 1 } :: List.replicate 4 volf_error_log.zero,
          num_error_logs := 1 } := by
  obtain ⟨k0, k1, k2, k3, k4, k5, k6, k7, k8⟩ := key_evals
  simp [volf_error_init, nvs_open, take_fault, power_on, nvs_get_u8, ESP_OK, ERROR_LOG_COUNT_KEY,
    List.lookup, volf_read_errors, read_error_logs, k0, k1, k2, k3, k4, k5, k6, k7, k8,
    MAX_PUBLISH_ATTEMPTS, read_publish_attempts, volf_errors.zero, volf_error_log.zero,
    volf_publish_attempt.zero, MAX_ERROR_LOGS, MAX_CONTINUE_CONTEXTS, List.replicate,
    volf_read_publish_attempt, nvs_get_u32, nvs_get_str, read_continue_contexts, hd,
    set_num_publish_attempts]


/-- C5 (amended). From an empty store, two failing CONTINUE calls
"sensor-timeout" and a failing ABORT call "give-up" with the same status ERR,
whose decimal form has at most 7 characters, leave a ledger that
volf_error_init reloads as exactly one log with one attempt whose abort
context is "give-up(ERR)"; the persisted log count is then 2, log 1 being
closed. -/
theorem scenario_reloads_one_log_one_attempt (p : Nat) (err : Int) (herr : err ≠ ESP_OK)
    (hlen : (fmt_d err).length ≤ 7) :
    (volf_error_init (restart (scenario_c5 p err))).loaded_errors.num_error_logs = 1 ∧
    ((volf_error_init (restart (scenario_c5 p err))).loaded_errors.error_logs.head?.map
        (fun l => (l.num_publish_attempts,
          l.publish_attempts.head?.map (fun a => a.abort_context))))
      = some (1, some ("give-up" ++ "(" ++ fmt_d err ++ ")")) ∧
    (scenario_c5 p err).nvs.lookup ERROR_LOG_COUNT_KEY = some (nvs_value.u8 2) := by
  obtain ⟨hst, hfl⟩ := scenario_c5_store p err herr
  have hd : (context_and_rc "give-up" err).utf8ByteSize + 1 ≤ MAX_ERROR_CONTEXT_SIZE := by
    rw [context_and_rc_short _ _ hlen]
    simp only [utf8ByteSize_append, fmt_d_bytes]
    have h7 : "give-up".utf8ByteSize = 7 := by decide
    have h1 : "(".utf8ByteSize = 1 := by decide
    have h2 : ")".utf8ByteSize = 1 := by decide
    unfold MAX_ERROR_CONTEXT_SIZE
    omega
  have hr : restart (scenario_c5 p err)
      = { power_on (scenario_c5 p err).nvs (scenario_c5 p err).portTICK_PERIOD_MS with
          calls := (scenario_c5 p err).calls } := by
    unfold restart
    rw [hfl]
    rfl
  rw [hr, hst, reload_c5_store _ _ _ _ hd, context_and_rc_short _ _ hlen]
  exact ⟨rfl, rfl, rfl⟩

theorem scenario_reloads_one_log_one_attempt_witness :
    (7 : Int) ≠ ESP_OK ∧ (fmt_d 7).length ≤ 7 ∧
    (volf_error_init (restart (scenario_c5 10 7))).loaded_errors.num_error_logs = 1 :=
  ⟨by decide, by decide,
   (scenario_reloads_one_log_one_attempt 10 7 (by decide) (by decide)).1⟩

/-- C5 (counterexample). With ERR = 7 the first continue text is stored under
log 0, attempt 0, index 1 and the second under log 1, attempt 1, index 2; the
reloaded attempt has no continue context (index 1 of log 1, attempt 1 is
absent), and the persisted log count is 2, not 1. -/
theorem scenario_continue_contexts_not_reloaded :
    (scenario_c5 10 7).nvs.lookup "EC_0_0_1" = some (nvs_value.str "sensor-timeout(7)") ∧
    (scenario_c5 10 7).nvs.lookup "EC_1_1_2" = some (nvs_value.str "sensor-timeout(7)") ∧
    (scenario_c5 10 7).nvs.lookup "EC_1_1_1" = none ∧
    ((volf_error_init (restart (scenario_c5 10 7))).loaded_errors.error_logs.head?.map
        (fun l => l.publish_attempts.head?.map
          (fun a => (a.num_continue_contexts, a.continue_contexts))))
      = some (some (0, ["", "", "", "", ""])) ∧
    (scenario_c5 10 7).nvs.lookup "ELC" ≠ some (nvs_value.u8 1) := by
  decide

theorem count_key_inj : ∀ l, l < 6 → ∀ l', l' < 6 →
    snprintf MAX_KEY_SIZE (PUBLISH_ATTEMPT_COUNT_KEY_TEMPLATE l)
      = snprintf MAX_KEY_SIZE (PUBLISH_ATTEMPT_COUNT_KEY_TEMPLATE l') → l = l' := by
  decide

theorem no_excess_snoc (st : Store) (n l : Nat) :
    no_excess st (n + 1) l
      = (no_excess st n l &&
          (match st.lookup (snprintf MAX_KEY_SIZE (PUBLISH_ATTEMPT_COUNT_KEY_TEMPLATE (l + n))) with
            | some (nvs_value.u8 v) => decide (v ≤ MAX_PUBLISH_ATTEMPTS)
            | _ => true)) := by
  induction n generalizing l with
  | zero => simp [no_excess]
  | succ n ih =>
    rw [no_excess, ih (l + 1), no_excess, Bool.and_assoc]
    have : l + 1 + n = l + (n + 1) := by omega
    rw [this]

theorem lookup_advanced (s : State) (k : String) (hk : k ≠ ERROR_LOG_COUNT_KEY)
    (hw : ¬ s.error_log_count + 1 > MAX_ERROR_LOGS) :
    (advanced s).lookup k = s.nvs.lookup k := by
  unfold advanced
  rw [if_neg hw, lookup_put, if_neg hk]

theorem no_excess_congr (st st' : Store) (n l : Nat)
    (h : ∀ i, st'.lookup (snprintf MAX_KEY_SIZE (PUBLISH_ATTEMPT_COUNT_KEY_TEMPLATE i))
      = st.lookup (snprintf MAX_KEY_SIZE (PUBLISH_ATTEMPT_COUNT_KEY_TEMPLATE i))) :
    no_excess st' n l = no_excess st n l := by
  induction n generalizing l with
  | zero => rfl
  | succ n ih => rw [no_excess, no_excess, h, ih]

/-- A restart over a store whose log count is `L` > 0 and which holds no
attempt count for log `L` yet opens attempt 1 of log `L`. -/
theorem wake_opens_new_log (hc hr ha : Option Nat) (t : State) (L : Nat)
    (hf : t.faults = [])
    (hE : t.nvs.lookup ERROR_LOG_COUNT_KEY = some (nvs_value.u8 L)) (hL : 0 < L)
    (hx : no_excess t.nvs L 1 = true)
    (hP : t.nvs.lookup (snprintf MAX_KEY_SIZE (PUBLISH_ATTEMPT_COUNT_KEY_TEMPLATE L)) = none) :
    Attempt (start_up hc hr ha (restart t)) L 1 ∧
    (start_up hc hr ha (restart t)).nvs = t.nvs ∧
    (start_up hc hr ha (restart t)).calls = t.calls := by
  obtain ⟨h1, h2, h3, h4⟩ := volf_error_init_loaded (restart t) L hf hE hL hx
  obtain ⟨g1, g2, g3, g4, g5, -, -, -, -⟩ := start_up_fields hc hr ha (restart t)
  have hp : (volf_error_init (restart t)).publish_attempt_count = 1 := by
    rw [h3]
    show ((match List.lookup _ t.nvs with
      | some (nvs_value.u8 a) => a
      | _ => 0) + 1) % 256 = 1
    rw [hP]
    rfl
  have hnvs : (volf_error_init (restart t)).nvs = t.nvs := congrArg (fun c => c.1) h1
  have hfl : (volf_error_init (restart t)).faults = [] := congrArg (fun c => c.2.1) h1
  have hin : (volf_error_init (restart t)).initialized = true := congrArg (fun c => c.2.2.1) h1
  have hfx : (volf_error_init (restart t)).fixed = (restart t).fixed :=
    congrArg (fun c => c.2.2.2) h1
  refine ⟨⟨?_, ?_, ?_, ?_, ?_⟩, ?_, ?_⟩
  · rw [g3, hin]
  · rw [g2, hfl]
  · exact (congrArg (fun c => c.1) g4).trans h2
  · exact (congrArg (fun c => c.2.1) g4).trans hp
  · rw [g1, hnvs]
    exact hx
  · rw [g1, hnvs]
  · rw [g5, fixed_calls hfx]
    rfl

/-- One escalation cycle below the capacity: the call dispatched as ABORT
closes log `L`, and the restart opens attempt 1 of log `L + 1`. -/
theorem abort_then_wake_log (hc hr ha : Option Nat) (e : volf_error_t) (ctx : String) (rc : Int)
    (s : State) (L a : Nat) (hs : Attempt s L a) (hab : Absent s.nvs L)
    (hL4 : L + 1 ≤ MAX_ERROR_LOGS) (ha3 : a ≤ MAX_PUBLISH_ATTEMPTS)
    (hrc : rc ≠ ESP_OK) (hpr : promote e a = volf_error_t.ABORT) :
    Attempt (start_up hc hr ha (restart (volf_handle_error e ctx rc s))) (L + 1) 1 ∧
    Absent (start_up hc hr ha (restart (volf_handle_error e ctx rc s))).nvs (L + 1) ∧
    (start_up hc hr ha (restart (volf_handle_error e ctx rc s))).nvs.lookup ERROR_LOG_COUNT_KEY
      = some (nvs_value.u8 (L + 1)) := by
  obtain ⟨hi, hf, hl, hp, hx⟩ := hs
  have hs1 : (stored e ctx rc s).faults = [] := (stored_faults _ _ _ _).trans hf
  obtain ⟨d1, -, -, d4, -⟩ := dispatch_ok e (stored e ctx rc s) hs1
  rw [stored_publish_attempt_count, hp, if_pos hpr] at d1
  rw [volf_handle_error_initialized e ctx rc s hrc hi hf]
  have hw : ¬ (stored e ctx rc s).error_log_count + 1 > MAX_ERROR_LOGS := by
    rw [stored_error_log_count, hl]
    omega
  have hL5 : L < 6 := by
    unfold MAX_ERROR_LOGS at hL4
    omega
  have hcount : ∀ l, l ≤ MAX_ERROR_LOGS → l ≠ L →
      (dispatch e (stored e ctx rc s)).nvs.lookup
          (snprintf MAX_KEY_SIZE (PUBLISH_ATTEMPT_COUNT_KEY_TEMPLATE l))
        = s.nvs.lookup (snprintf MAX_KEY_SIZE (PUBLISH_ATTEMPT_COUNT_KEY_TEMPLATE l)) := by
    intro l hl5 hne
    rw [d1, lookup_advanced _ _ (count_key_ne_log_count l) hw, lookup_stored_count, hl,
      if_neg]
    intro hk
    exact hne (count_key_inj l (by unfold MAX_ERROR_LOGS at hl5; omega) L hL5 hk)
  have hE : (dispatch e (stored e ctx rc s)).nvs.lookup ERROR_LOG_COUNT_KEY
      = some (nvs_value.u8 (L + 1)) := by
    rw [d1]
    unfold advanced
    rw [if_neg hw, lookup_put, if_pos rfl, stored_error_log_count, hl, Nat.mod_eq_of_lt]
    omega
  have hP : (dispatch e (stored e ctx rc s)).nvs.lookup
      (snprintf MAX_KEY_SIZE (PUBLISH_ATTEMPT_COUNT_KEY_TEMPLATE (L + 1))) = none := by
    rw [hcount (L + 1) hL4 (by omega)]
    exact hab (L + 1) (by omega) hL4
  have hx' : no_excess (dispatch e (stored e ctx rc s)).nvs (L + 1) 1 = true := by
    rw [no_excess_snoc, Bool.and_eq_true]
    constructor
    · have hq : no_excess (dispatch e (stored e ctx rc s)).nvs L 1
          = no_excess (stored e ctx rc s).nvs L 1 := by
        apply no_excess_congr
        intro i
        rw [d1, lookup_advanced _ _ (count_key_ne_log_count i) hw]
      rw [hq]
      exact no_excess_stored e ctx rc s L 1 (hp ▸ ha3) hx
    · have h1L : 1 + L = L + 1 := by omega
      rw [h1L, hP]
  obtain ⟨w1, w2, -⟩ := wake_opens_new_log hc hr ha _ (L + 1) d4 hE (by omega) hx' hP
  refine ⟨w1, ?_, ?_⟩
  · intro l hlt hl5
    rw [w2, hcount l hl5 (by omega)]
    exact hab l (by omega) hl5
  · rw [w2]
    exact hE

/-- The first escalation cycle over an empty namespace is stored under log 0;
the restart after it opens attempt 1 of log 1. -/
theorem first_abort_then_wake (hc hr ha : Option Nat) (ctx : String) (rc : Int) (s : State)
    (hn : s.nvs = []) (hf : s.faults = []) (hl : s.error_log_count = 0) (hrc : rc ≠ ESP_OK) :
    Attempt (start_up hc hr ha (restart (volf_handle_error volf_error_t.ABORT ctx rc s))) 1 1 ∧
    Absent (start_up hc hr ha (restart (volf_handle_error volf_error_t.ABORT ctx rc s))).nvs 1 ∧
    (start_up hc hr ha (restart (volf_handle_error volf_error_t.ABORT ctx rc s))).nvs.lookup
      ERROR_LOG_COUNT_KEY = some (nvs_value.u8 1) := by
  have hs1 : (stored volf_error_t.ABORT ctx rc s).faults = [] := (stored_faults _ _ _ _).trans hf
  obtain ⟨d1, -, -, d4, -⟩ := dispatch_ok volf_error_t.ABORT (stored volf_error_t.ABORT ctx rc s) hs1
  have hpr : promote volf_error_t.ABORT (stored volf_error_t.ABORT ctx rc s).publish_attempt_count
      = volf_error_t.ABORT := by
    simp [promote]
  rw [if_pos hpr] at d1
  rw [volf_handle_error_failure _ _ _ _ hrc, lazy_init_empty_store s hn hf,
    volf_store_error_context_ok _ ctx rc s hf]
  have hw : ¬ (stored volf_error_t.ABORT ctx rc s).error_log_count + 1 > MAX_ERROR_LOGS := by
    rw [stored_error_log_count, hl]
    decide
  have hcount : ∀ l, l ≤ MAX_ERROR_LOGS → l ≠ 0 →
      (dispatch volf_error_t.ABORT (stored volf_error_t.ABORT ctx rc s)).nvs.lookup
          (snprintf MAX_KEY_SIZE (PUBLISH_ATTEMPT_COUNT_KEY_TEMPLATE l)) = none := by
    intro l hl5 hne
    rw [d1, lookup_advanced _ _ (count_key_ne_log_count l) hw, lookup_stored_count, hl,
      if_neg, hn]
    · rfl
    · intro hk
      exact hne (count_key_inj l (by unfold MAX_ERROR_LOGS at hl5; omega) 0 (by decide) hk)
  have hE : (dispatch volf_error_t.ABORT (stored volf_error_t.ABORT ctx rc s)).nvs.lookup
      ERROR_LOG_COUNT_KEY = some (nvs_value.u8 1) := by
    rw [d1]
    unfold advanced
    rw [if_neg hw, lookup_put, if_pos rfl, stored_error_log_count, hl]
  have hP := hcount 1 (by decide) (by decide)
  have hx' : no_excess (dispatch volf_error_t.ABORT (stored volf_error_t.ABORT ctx rc s)).nvs 1 1
      = true := by
    simp only [no_excess, hP, Bool.and_self]
  obtain ⟨w1, w2, -⟩ := wake_opens_new_log hc hr ha _ 1 d4 hE (by decide) hx' hP
  refine ⟨w1, ?_, ?_⟩
  · intro l hlt hl5
    rw [w2]
    exact hcount l hl5 (by omega)
  · rw [w2]
    exact hE

/-- Escalation cycles below the capacity: each opens the next log. -/
theorem abort_run_opens (hc hr ha : Option Nat) (fs : List (String × Int)) (s : State)
    (L : Nat) (hs : Attempt s L 1) (hab : Absent s.nvs L)
    (hE : s.nvs.lookup ERROR_LOG_COUNT_KEY = some (nvs_value.u8 L))
    (hcap : L + fs.length ≤ MAX_ERROR_LOGS) (hrc : ∀ f ∈ fs, f.2 ≠ ESP_OK) :
    Attempt (abort_run hc hr ha fs s) (L + fs.length) 1 ∧
    Absent (abort_run hc hr ha fs s).nvs (L + fs.length) ∧
    (abort_run hc hr ha fs s).nvs.lookup ERROR_LOG_COUNT_KEY
      = some (nvs_value.u8 (L + fs.length)) := by
  induction fs generalizing s L with
  | nil => exact ⟨hs, hab, hE⟩
  | cons f rest ih =>
    simp only [List.length_cons] at hcap ⊢
    have hf := hrc f (List.mem_cons_self _ _)
    have hpr : promote volf_error_t.ABORT 1 = volf_error_t.ABORT := by decide
    obtain ⟨a1, a2, a3⟩ := abort_then_wake_log hc hr ha volf_error_t.ABORT f.1 f.2 s L 1 hs hab
      (by omega) (by decide) hf hpr
    have := ih (start_up hc hr ha (restart (volf_handle_error volf_error_t.ABORT f.1 f.2 s)))
      (L + 1) a1 a2 a3 (by omega) (fun g hg => hrc g (List.mem_cons_of_mem _ hg))
    have hlen : L + 1 + rest.length = L + (rest.length + 1) := by omega
    rw [hlen] at this
    exact this

/-- Capacity as the code has it, for any contexts and statuses: from an empty
ledger, with a restart after every call dispatched as ABORT, five such calls
leave the persisted log count at MAX_ERROR_LOGS (the first cycle went to log
0); the call after them finds error_log_count = MAX_ERROR_LOGS and wipes: the
namespace holds no key, the three cursors are zero, and after the restart
volf_errors_available() returns false. -/
theorem ledger_wipes_on_sixth_abort (p : Nat) (hc hr ha : Option Nat) (f1 f6 : String × Int)
    (fs : List (String × Int)) (hlen : fs.length = 4) (h1 : f1.2 ≠ ESP_OK)
    (hfs : ∀ f ∈ fs, f.2 ≠ ESP_OK) (h6 : f6.2 ≠ ESP_OK) :
    (abort_run hc hr ha (f1 :: fs) (start_up hc hr ha (power_on [] p))).nvs.lookup
        ERROR_LOG_COUNT_KEY = some (nvs_value.u8 MAX_ERROR_LOGS) ∧
    (abort_run hc hr ha (f1 :: fs) (start_up hc hr ha (power_on [] p))).error_log_count
      = MAX_ERROR_LOGS ∧
    (volf_handle_error volf_error_t.ABORT f6.1 f6.2
      (abort_run hc hr ha (f1 :: fs) (start_up hc hr ha (power_on [] p)))).nvs = [] ∧
    (volf_handle_error volf_error_t.ABORT f6.1 f6.2
      (abort_run hc hr ha (f1 :: fs) (start_up hc hr ha (power_on [] p)))).cursors
      = (0, 0, 0) ∧
    (volf_errors_available (restart (volf_handle_error volf_error_t.ABORT f6.1 f6.2
      (abort_run hc hr ha (f1 :: fs) (start_up hc hr ha (power_on [] p)))))).1 = false := by
  obtain ⟨z1, z2, z3, -, -⟩ := start_up_power_on hc hr ha p
  obtain ⟨a1, a2, a3⟩ := first_abort_then_wake hc hr ha f1.1 f1.2
    (start_up hc hr ha (power_on [] p)) z1 z2 z3 h1
  obtain ⟨b1, -, b3⟩ := abort_run_opens hc hr ha fs _ 1 a1 a2 a3
    (by rw [hlen]; decide) hfs
  rw [hlen] at b1 b3
  have hrun : abort_run hc hr ha (f1 :: fs) (start_up hc hr ha (power_on [] p))
      = abort_run hc hr ha fs (start_up hc hr ha (restart
          (volf_handle_error volf_error_t.ABORT f1.1 f1.2
            (start_up hc hr ha (power_on [] p))))) := rfl
  rw [hrun]
  generalize abort_run hc hr ha fs (start_up hc hr ha (restart
    (volf_handle_error volf_error_t.ABORT f1.1 f1.2 (start_up hc hr ha (power_on [] p))))) = s5
    at b1 b3
  obtain ⟨hi, hf, hl, hp, -⟩ := b1
  have hs1 : (stored volf_error_t.ABORT f6.1 f6.2 s5).faults = [] :=
    (stored_faults _ _ _ _).trans hf
  obtain ⟨d1, -, d3, d4, -⟩ := dispatch_ok volf_error_t.ABORT
    (stored volf_error_t.ABORT f6.1 f6.2 s5) hs1
  have hpr : promote volf_error_t.ABORT
      (stored volf_error_t.ABORT f6.1 f6.2 s5).publish_attempt_count = volf_error_t.ABORT := by
    simp [promote]
  have hw : (stored volf_error_t.ABORT f6.1 f6.2 s5).error_log_count + 1 > MAX_ERROR_LOGS := by
    rw [stored_error_log_count, hl]
    decide
  rw [if_pos hpr] at d1
  rw [if_pos ⟨hpr, hw⟩] at d3
  unfold advanced at d1
  rw [if_pos hw] at d1
  rw [volf_handle_error_initialized _ _ _ _ h6 hi hf]
  refine ⟨b3, hl, d1, d3, ?_⟩
  have he := lazy_init_empty (restart (dispatch volf_error_t.ABORT
    (stored volf_error_t.ABORT f6.1 f6.2 s5))) d1
  show ((lazy_init _).loaded_errors.num_error_logs != 0) = false
  rw [he.2]
  rfl

theorem ledger_wipes_on_sixth_abort_witness :
    ([("a", 1), ("b", 2), ("c", 3), ("d", 4)] : List (String × Int)).length = 4 ∧
    (1 : Int) ≠ ESP_OK ∧
    (volf_handle_error volf_error_t.ABORT "give-up" 9999
      (abort_run none (some 1) (some 2)
        [("give-up", 1), ("a", 1), ("b", 2), ("c", 3), ("d", 4)]
        (start_up none (some 1) (some 2) (power_on [] 10)))).nvs = [] :=
  ⟨rfl, by decide,
   (ledger_wipes_on_sixth_abort 10 none (some 1) (some 2) ("give-up", 1) ("give-up", 9999)
      [("a", 1), ("b", 2), ("c", 3), ("d", 4)] rfl (by decide) (by decide) (by decide)).2.2.1⟩

/-- C7 (the code at the failing input). When the fifth escalation from an
empty ledger has been dispatched, each followed by a restart, the namespace
still holds the ledger (log count 5 and the texts of the earlier cycles), the
cursors are not zero and volf_errors_available() is true; and five ABORT
calls in one run, without restarts, leave the persisted log count at 2. -/
theorem five_aborts_do_not_wipe :
    (volf_handle_error volf_error_t.ABORT "give-up" 9999
        (abort_cycles 4 (wake_up none (power_on [] 10)))).nvs.lookup "ELC"
      = some (nvs_value.u8 5) ∧
    (volf_handle_error volf_error_t.ABORT "give-up" 9999
        (abort_cycles 4 (wake_up none (power_on [] 10)))).nvs.lookup "EA_1_1"
      = some (nvs_value.str "give-up(9999)") ∧
    (volf_handle_error volf_error_t.ABORT "give-up" 9999
        (abort_cycles 4 (wake_up none (power_on [] 10)))).cursors = (4, 1, 0) ∧
    (volf_errors_available (volf_handle_error volf_error_t.ABORT "give-up" 9999
        (abort_cycles 4 (wake_up none (power_on [] 10))))).1 = true ∧
    (volf_handle_error volf_error_t.ABORT "give-up" 9999
      (volf_handle_error volf_error_t.ABORT "give-up" 9999
        (volf_handle_error volf_error_t.ABORT "give-up" 9999
          (volf_handle_error volf_error_t.ABORT "give-up" 9999
            (volf_handle_error volf_error_t.ABORT "give-up" 9999
              (wake_up none (power_on [] 10))))))).nvs.lookup "ELC"
      = some (nvs_value.u8 2) := by
  decide

/-- C11. When the store operations succeed, volf_clear_errors leaves the
namespace without a key and the three cursors at 0, from every state, and a
second call in a row leaves exactly the state the first one left. -/
theorem clear_errors_idempotent (s : State) (hf : s.faults = []) :
    (volf_clear_errors s).nvs = [] ∧
    (volf_clear_errors s).cursors = (0, 0, 0) ∧
    volf_clear_errors (volf_clear_errors s) = volf_clear_errors s := by
  unfold volf_clear_errors
  rw [volf_clear_and_close_null s hf, volf_clear_and_close_null (wiped s) hf]
  exact ⟨rfl, rfl, rfl⟩

theorem clear_errors_idempotent_witness :
    loaded_one_log.faults = [] ∧ (volf_clear_errors loaded_one_log).nvs = [] :=
  ⟨by decide, (clear_errors_idempotent loaded_one_log (by decide)).1⟩

/-- C12 (the code at the failing input). With one log loaded,
volf_errors_available() is true; after volf_clear_errors() the namespace is
empty and the cursors are 0, but volf_errors_available() is still true and
volf_get_errors() still returns the ledger with its one log: the wipe does
not touch loaded_errors. -/
theorem cleared_ledger_still_available :
    (volf_errors_available loaded_one_log).1 = true ∧
    (volf_clear_errors loaded_one_log).nvs = [] ∧
    (volf_clear_errors loaded_one_log).cursors = (0, 0, 0) ∧
    (volf_errors_available (volf_clear_errors loaded_one_log)).1 = true ∧
    ((volf_get_errors (volf_clear_errors loaded_one_log)).1.map
        (fun e => e.num_error_logs)) = some 1 ∧
    (volf_get_errors (volf_clear_errors loaded_one_log)).1 = some loaded_one_log.loaded_errors := by
  decide

/-- C13 (the code at the failing input). For the status 12345678 the buffer of
strlen(context) + 10 bytes cuts the diagnostic string after the last digit:
the closing parenthesis is lost, and that is what is stored under the retry
key; a status of seven characters is stored in full. -/
theorem long_status_loses_parenthesis :
    context_and_rc "esp_wifi_connect" 12345678 = "esp_wifi_connect(12345678" ∧
    context_and_rc "esp_wifi_connect" (-1234567) = "esp_wifi_connect(-1234567" ∧
    context_and_rc "esp_wifi_connect" 1234567 = "esp_wifi_connect(1234567)" ∧
    (volf_store_error_context volf_error_t.RETRY "esp_wifi_connect" 12345678
        (retry_cycles 1 (wake_up (some 0) (power_on [] 10)))).nvs.lookup "ER_1_1"
      = some (nvs_value.str "esp_wifi_connect(12345678") := by
  decide

/-- C17 (the code at the failing input). Log 2 of the store claims four
attempts. volf_error_init returns with publish_attempt_count 1, not 0; log 1,
read before the corrupt one, is still reported as available; and no key is
erased, the handle of volf_read_errors being read-only. -/
theorem corrupt_attempt_count_not_wiped :
    (volf_error_init (power_on excess_store 10)).cursors = (0, 1, 0) ∧
    (volf_error_init (power_on excess_store 10)).nvs = excess_store ∧
    (volf_error_init (power_on excess_store 10)).loaded_errors.num_error_logs = 1 ∧
    (volf_errors_available (volf_error_init (power_on excess_store 10))).1 = true := by
  decide

/-- C18 (counterexample). The ninth store operation of this start, the read
of PAC_1 in volf_error_init, fails with ESP_ERR_NVS_INVALID_LENGTH: nothing is
erased, error_log_count is 1 and publish_attempt_count 1, the module is
initialised and the log stays available. -/
theorem failed_attempt_count_read_not_wiped :
    (volf_error_init { power_on (one_attempt_store 0) 10 with
        faults := [0, 0, 0, 0, 0, 0, 0, 0, ESP_ERR_NVS_INVALID_LENGTH] }).nvs
      = one_attempt_store 0 ∧
    (volf_error_init { power_on (one_attempt_store 0) 10 with
        faults := [0, 0, 0, 0, 0, 0, 0, 0, ESP_ERR_NVS_INVALID_LENGTH] }).cursors = (1, 1, 0) ∧
    (volf_error_init { power_on (one_attempt_store 0) 10 with
        faults := [0, 0, 0, 0, 0, 0, 0, 0, ESP_ERR_NVS_INVALID_LENGTH] }).faults = [] ∧
    (volf_error_init { power_on (one_attempt_store 0) 10 with
        faults := [0, 0, 0, 0, 0, 0, 0, 0, ESP_ERR_NVS_INVALID_LENGTH] }).initialized = true ∧
    (volf_error_init (power_on (one_attempt_store 0) 10)).cursors = (1, 2, 0) := by
  decide

/-- C19 (the code at the failing input). The fourth run starts as attempt 4
of log 1 because the CONTINUE failure of the run before persisted an attempt
count of 3; its RETRY failure persists PAC_1 = 4, and the start after it finds
too many attempts in log 1 and resets the cursors. -/
theorem engine_persists_fourth_attempt :
    attempt_overrun.1.cursors = (1, 4, 0) ∧
    attempt_overrun.2.1.nvs.lookup "PAC_1" = some (nvs_value.u8 4) ∧
    attempt_overrun.2.1.nvs.lookup "ER_1_4" = some (nvs_value.str "esp_wifi_connect(5)") ∧
    attempt_overrun.2.2.cursors = (0, 1, 0) ∧
    attempt_overrun.2.2.loaded_errors.num_error_logs = 0 := by
  decide

/-- C20 (the code at the failing input). With a persisted log count of 6 and
six logs in the store, the sixth log is written to error_logs[5], outside the
array of MAX_ERROR_LOGS entries, and num_error_logs is 6; with a log count of
5 over the same store no index leaves the arrays. -/
theorem sixth_log_indexes_out_of_bounds :
    (volf_error_init (power_on six_logs_store 10)).out_of_bounds = true ∧
    (volf_error_init (power_on six_logs_store 10)).loaded_errors.num_error_logs = 6 ∧
    (volf_error_init (power_on six_logs_store 10)).loaded_errors.error_logs.length
      = MAX_ERROR_LOGS ∧
    (volf_error_init (power_on (("ELC", nvs_value.u8 5) :: six_logs_store.tail) 10)).out_of_bounds
      = false := by
  decide

theorem fmt_d_digit : ∀ n : Nat, n < 10 → (fmt_d n).data.length = 1 := by
  decide

set_option maxRecDepth 100000 in
theorem fmt_d_u8 : ∀ n : Nat, n < 256 →
    digits_value (fmt_d n).data = n ∧
    (fmt_d n).data.all (fun c => c != '_') = true ∧
    (fmt_d n).data.length ≤ 3 := by
  decide

theorem fmt_d_inj (n m : Nat) (hn : n < 256) (hm : m < 256) (h : fmt_d n = fmt_d m) :
    n = m := by
  have h1 := (fmt_d_u8 n hn).1
  have h2 := (fmt_d_u8 m hm).1
  rw [h] at h1
  exact h1.symm.trans h2

theorem split_at_underscore (xs xs' ys ys' : List Char)
    (hx : xs.all (fun c => c != '_') = true) (hx' : xs'.all (fun c => c != '_') = true)
    (h : xs ++ '_' :: ys = xs' ++ '_' :: ys') : xs = xs' ∧ ys = ys' := by
  induction xs generalizing xs' with
  | nil =>
    cases xs' with
    | nil => exact ⟨rfl, by simpa using h⟩
    | cons c cs =>
      simp only [List.nil_append, List.cons_append, List.cons.injEq] at h
      simp only [List.all_cons, Bool.and_eq_true] at hx'
      rw [← h.1] at hx'
      exact absurd hx'.1 (by decide)
  | cons a as ih =>
    cases xs' with
    | nil =>
      simp only [List.nil_append, List.cons_append, List.cons.injEq] at h
      simp only [List.all_cons, Bool.and_eq_true] at hx
      rw [h.1] at hx
      exact absurd hx.1 (by decide)
    | cons c cs =>
      simp only [List.cons_append, List.cons.injEq] at h
      simp only [List.all_cons, Bool.and_eq_true] at hx hx'
      obtain ⟨r1, r2⟩ := ih cs hx.2 hx'.2 h.2
      exact ⟨by rw [h.1, r1], r2⟩

theorem snprintf_fits (n : Nat) (x : String) (h : x.data.length ≤ n - 1) : snprintf n x = x := by
  unfold snprintf
  rw [List.take_of_length_le h]

theorem fmt_d_data_inj (n m : Nat) (hn : n < 256) (hm : m < 256)
    (h : (fmt_d n).data = (fmt_d m).data) : n = m :=
  fmt_d_inj n m hn hm (String.ext h)

/-- A template of one field after a prefix of at most 8 characters gives
distinct keys for distinct 8-bit values. -/
theorem one_field_inj (p : String) (hp : p.data.length ≤ 8) (l l' : Nat)
    (hl : l < 256) (hl' : l' < 256)
    (h : snprintf MAX_KEY_SIZE (p ++ fmt_d l) = snprintf MAX_KEY_SIZE (p ++ fmt_d l')) :
    l = l' := by
  have b := (fmt_d_u8 l hl).2.2
  have b' := (fmt_d_u8 l' hl').2.2
  rw [snprintf_fits, snprintf_fits] at h
  · have hd := congrArg String.data h
    simp only [String.data_append] at hd
    exact fmt_d_data_inj l l' hl hl' (List.append_cancel_left hd)
  · simp only [String.data_append, List.length_append, MAX_KEY_SIZE]
    omega
  · simp only [String.data_append, List.length_append, MAX_KEY_SIZE]
    omega

/-- A template of two fields after a prefix of at most 4 characters gives
distinct keys for distinct pairs of 8-bit values. -/
theorem two_field_inj (p : String) (hp : p.data.length ≤ 4) (l a l' a' : Nat)
    (hl : l < 256) (ha : a < 256) (hl' : l' < 256) (ha' : a' < 256)
    (h : snprintf MAX_KEY_SIZE (p ++ fmt_d l ++ "_" ++ fmt_d a)
      = snprintf MAX_KEY_SIZE (p ++ fmt_d l' ++ "_" ++ fmt_d a')) :
    l = l' ∧ a = a' := by
  obtain ⟨-, u1, b1⟩ := fmt_d_u8 l hl
  obtain ⟨-, -, b2⟩ := fmt_d_u8 a ha
  obtain ⟨-, u3, b3⟩ := fmt_d_u8 l' hl'
  obtain ⟨-, -, b4⟩ := fmt_d_u8 a' ha'
  have hu : "_".data = ['_'] := rfl
  rw [snprintf_fits, snprintf_fits] at h
  · have hd := congrArg String.data h
    simp only [String.data_append, List.append_assoc, hu, List.singleton_append] at hd
    obtain ⟨r1, r2⟩ := split_at_underscore _ _ _ _ u1 u3 (List.append_cancel_left hd)
    exact ⟨fmt_d_data_inj l l' hl hl' r1, fmt_d_data_inj a a' ha ha' r2⟩
  · simp only [String.data_append, List.length_append, MAX_KEY_SIZE, hu, List.length_singleton]
    omega
  · simp only [String.data_append, List.length_append, MAX_KEY_SIZE, hu, List.length_singleton]
    omega

/-- A template of three fields gives distinct keys for distinct triples of
8-bit values whenever both expansions fit the key buffer. -/
theorem three_field_inj (p : String) (l a c l' a' c' : Nat)
    (hl : l < 256) (ha : a < 256) (hc : c < 256) (hl' : l' < 256) (ha' : a' < 256)
    (hc' : c' < 256)
    (hfit : (p ++ fmt_d l ++ "_" ++ fmt_d a ++ "_" ++ fmt_d c).data.length ≤ MAX_KEY_SIZE - 1)
    (hfit' : (p ++ fmt_d l' ++ "_" ++ fmt_d a' ++ "_" ++ fmt_d c').data.length
      ≤ MAX_KEY_SIZE - 1)
    (h : snprintf MAX_KEY_SIZE (p ++ fmt_d l ++ "_" ++ fmt_d a ++ "_" ++ fmt_d c)
      = snprintf MAX_KEY_SIZE (p ++ fmt_d l' ++ "_" ++ fmt_d a' ++ "_" ++ fmt_d c')) :
    l = l' ∧ a = a' ∧ c = c' := by
  obtain ⟨-, u1, -⟩ := fmt_d_u8 l hl
  obtain ⟨-, u2, -⟩ := fmt_d_u8 a ha
  obtain ⟨-, u3, -⟩ := fmt_d_u8 l' hl'
  obtain ⟨-, u4, -⟩ := fmt_d_u8 a' ha'
  have hu : "_".data = ['_'] := rfl
  rw [snprintf_fits _ _ hfit, snprintf_fits _ _ hfit'] at h
  have hd := congrArg String.data h
  simp only [String.data_append, List.append_assoc, hu, List.singleton_append] at hd
  obtain ⟨r1, r2⟩ := split_at_underscore _ _ _ _ u1 u3 (List.append_cancel_left hd)
  obtain ⟨r3, r4⟩ := split_at_underscore _ _ _ _ u2 u4 r2
  exact ⟨fmt_d_data_inj l l' hl hl' r1, fmt_d_data_inj a a' ha ha' r3,
    fmt_d_data_inj c c' hc hc' r4⟩

/-- C15 (amended). For the roles PAC, PAR, ER and EA, two distinct coordinate
tuples of 8-bit indices give distinct keys in the MAX_KEY_SIZE buffer; for the
role EC two distinct tuples give distinct keys whenever both template
expansions have at most 11 characters, so that neither is truncated. -/
theorem key_codec_injective (l a c l' a' c' : Nat)
    (hl : l < 256) (ha : a < 256) (hc : c < 256) (hl' : l' < 256) (ha' : a' < 256)
    (hc' : c' < 256) :
    (snprintf MAX_KEY_SIZE (PUBLISH_ATTEMPT_COUNT_KEY_TEMPLATE l)
        = snprintf MAX_KEY_SIZE (PUBLISH_ATTEMPT_COUNT_KEY_TEMPLATE l') → l = l') ∧
    (snprintf MAX_KEY_SIZE (PUBLISH_ATTEMPT_RUNTIME_KEY_TEMPLATE l a)
        = snprintf MAX_KEY_SIZE (PUBLISH_ATTEMPT_RUNTIME_KEY_TEMPLATE l' a') → l = l' ∧ a = a') ∧
    (snprintf MAX_KEY_SIZE (ERROR_RETRY_KEY_TEMPLATE l a)
        = snprintf MAX_KEY_SIZE (ERROR_RETRY_KEY_TEMPLATE l' a') → l = l' ∧ a = a') ∧
    (snprintf MAX_KEY_SIZE (ERROR_ABORT_KEY_TEMPLATE l a)
        = snprintf MAX_KEY_SIZE (ERROR_ABORT_KEY_TEMPLATE l' a') → l = l' ∧ a = a') ∧
    ((ERROR_CONTINUE_KEY_TEMPLATE l a c).length ≤ MAX_KEY_SIZE - 1 →
      (ERROR_CONTINUE_KEY_TEMPLATE l' a' c').length ≤ MAX_KEY_SIZE - 1 →
      snprintf MAX_KEY_SIZE (ERROR_CONTINUE_KEY_TEMPLATE l a c)
        = snprintf MAX_KEY_SIZE (ERROR_CONTINUE_KEY_TEMPLATE l' a' c') →
      l = l' ∧ a = a' ∧ c = c') :=
  ⟨one_field_inj "PAC_" (by decide) l l' hl hl',
   two_field_inj "PAR_" (by decide) l a l' a' hl ha hl' ha',
   two_field_inj "ER_" (by decide) l a l' a' hl ha hl' ha',
   two_field_inj "EA_" (by decide) l a l' a' hl ha hl' ha',
   three_field_inj "EC_" l a c l' a' c' hl ha hc hl' ha' hc'⟩

theorem key_codec_injective_witness :
    (5 : Nat) < 256 ∧ (4 : Nat) < 256 ∧ (3 : Nat) < 256 ∧
    snprintf MAX_KEY_SIZE (PUBLISH_ATTEMPT_RUNTIME_KEY_TEMPLATE 5 4)
      ≠ snprintf MAX_KEY_SIZE (PUBLISH_ATTEMPT_RUNTIME_KEY_TEMPLATE 5 3) :=
  ⟨by decide, by decide, by decide,
   fun h => absurd ((key_codec_injective 5 4 0 5 3 0 (by decide) (by decide) (by decide)
      (by decide) (by decide) (by decide)).2.1 h).2 (by decide)⟩

/-- C15 (counterexample). The continue keys of the distinct 8-bit tuples
(255, 255, 1) and (255, 255, 2) are both cut to "EC_255_255_". -/
theorem continue_keys_collide_when_truncated :
    snprintf MAX_KEY_SIZE (ERROR_CONTINUE_KEY_TEMPLATE 255 255 1) = "EC_255_255_" ∧
    snprintf MAX_KEY_SIZE (ERROR_CONTINUE_KEY_TEMPLATE 255 255 1)
      = snprintf MAX_KEY_SIZE (ERROR_CONTINUE_KEY_TEMPLATE 255 255 2) ∧
    (255, 255, 1) ≠ (255, 255, 2) := by
  decide

/-- C16. For a log index up to MAX_ERROR_LOGS, an attempt index up to
MAX_PUBLISH_ATTEMPTS + 1 and a continue index up to 255, the expansion of
every role's template has at most 11 characters, so snprintf stores it whole
in the MAX_KEY_SIZE buffer, and it is shorter than the longest key the store
takes. -/
theorem reachable_keys_untruncated (l a c : Nat) (hl : l ≤ MAX_ERROR_LOGS)
    (ha : a ≤ MAX_PUBLISH_ATTEMPTS + 1) (hc : c ≤ 255) :
    ((PUBLISH_ATTEMPT_COUNT_KEY_TEMPLATE l).length ≤ 11 ∧
      snprintf MAX_KEY_SIZE (PUBLISH_ATTEMPT_COUNT_KEY_TEMPLATE l)
        = PUBLISH_ATTEMPT_COUNT_KEY_TEMPLATE l) ∧
    ((PUBLISH_ATTEMPT_RUNTIME_KEY_TEMPLATE l a).length ≤ 11 ∧
      snprintf MAX_KEY_SIZE (PUBLISH_ATTEMPT_RUNTIME_KEY_TEMPLATE l a)
        = PUBLISH_ATTEMPT_RUNTIME_KEY_TEMPLATE l a) ∧
    ((ERROR_RETRY_KEY_TEMPLATE l a).length ≤ 11 ∧
      snprintf MAX_KEY_SIZE (ERROR_RETRY_KEY_TEMPLATE l a) = ERROR_RETRY_KEY_TEMPLATE l a) ∧
    ((ERROR_ABORT_KEY_TEMPLATE l a).length ≤ 11 ∧
      snprintf MAX_KEY_SIZE (ERROR_ABORT_KEY_TEMPLATE l a) = ERROR_ABORT_KEY_TEMPLATE l a) ∧
    ((ERROR_CONTINUE_KEY_TEMPLATE l a c).length ≤ 11 ∧
      snprintf MAX_KEY_SIZE (ERROR_CONTINUE_KEY_TEMPLATE l a c)
        = ERROR_CONTINUE_KEY_TEMPLATE l a c) ∧
    ERROR_LOG_COUNT_KEY.length ≤ 11 ∧
    MAX_KEY_SIZE - 1 < NVS_KEY_NAME_MAX_SIZE := by
  have h1 := fmt_d_digit l (by unfold MAX_ERROR_LOGS at hl; omega)
  have h2 := fmt_d_digit a (by unfold MAX_PUBLISH_ATTEMPTS at ha; omega)
  have h3 := (fmt_d_u8 c (by omega)).2.2
  have hu : "_".data.length = 1 := rfl
  have p1 : "PAC_".data.length = 4 := rfl
  have p2 : "PAR_".data.length = 4 := rfl
  have p3 : "ER_".data.length = 3 := rfl
  have p4 : "EA_".data.length = 3 := rfl
  have p5 : "EC_".data.length = 3 := rfl
  have e1 : (PUBLISH_ATTEMPT_COUNT_KEY_TEMPLATE l).data.length ≤ 11 := by
    simp only [PUBLISH_ATTEMPT_COUNT_KEY_TEMPLATE, String.data_append, List.length_append, List.length_cons,
      List.length_nil, List.length_singleton, h1, h2]
    omega
  have e2 : (PUBLISH_ATTEMPT_RUNTIME_KEY_TEMPLATE l a).data.length ≤ 11 := by
    simp only [PUBLISH_ATTEMPT_RUNTIME_KEY_TEMPLATE, String.data_append, List.length_append, List.length_cons,
      List.length_nil, List.length_singleton, h1, h2]
    omega
  have e3 : (ERROR_RETRY_KEY_TEMPLATE l a).data.length ≤ 11 := by
    simp only [ERROR_RETRY_KEY_TEMPLATE, String.data_append, List.length_append, List.length_cons,
      List.length_nil, List.length_singleton, h1, h2]
    omega
  have e4 : (ERROR_ABORT_KEY_TEMPLATE l a).data.length ≤ 11 := by
    simp only [ERROR_ABORT_KEY_TEMPLATE, String.data_append, List.length_append, List.length_cons,
      List.length_nil, List.length_singleton, h1, h2]
    omega
  have e5 : (ERROR_CONTINUE_KEY_TEMPLATE l a c).data.length ≤ 11 := by
    simp only [ERROR_CONTINUE_KEY_TEMPLATE, String.data_append, List.length_append, List.length_cons,
      List.length_nil, List.length_singleton, h1, h2]
    omega
  exact ⟨⟨e1, snprintf_fits _ _ e1⟩, ⟨e2, snprintf_fits _ _ e2⟩, ⟨e3, snprintf_fits _ _ e3⟩,
    ⟨e4, snprintf_fits _ _ e4⟩, ⟨e5, snprintf_fits _ _ e5⟩, by decide, by decide⟩

theorem reachable_keys_untruncated_witness :
    5 ≤ MAX_ERROR_LOGS ∧ 4 ≤ MAX_PUBLISH_ATTEMPTS + 1 ∧
    snprintf MAX_KEY_SIZE (ERROR_CONTINUE_KEY_TEMPLATE 5 4 255)
      = ERROR_CONTINUE_KEY_TEMPLATE 5 4 255 :=
  ⟨by decide, by decide,
   (reachable_keys_untruncated 5 4 255 (by decide) (by decide) (by decide)).2.2.2.2.1.2⟩

theorem continue_key_ne_log_count (l a c : Nat) :
    snprintf MAX_KEY_SIZE (ERROR_CONTINUE_KEY_TEMPLATE l a c) ≠ ERROR_LOG_COUNT_KEY := by
  apply ne_of_key_role
  rw [key_role_continue, key_role_log_count]
  decide

theorem continue_key_ne_count_key (l a c l' : Nat) :
    snprintf MAX_KEY_SIZE (ERROR_CONTINUE_KEY_TEMPLATE l a c)
      ≠ snprintf MAX_KEY_SIZE (PUBLISH_ATTEMPT_COUNT_KEY_TEMPLATE l') := by
  apply ne_of_key_role
  rw [key_role_continue, key_role_count]
  decide

/-- C14 (amended). A failing CONTINUE call, in an initialised state whose log
index is at most MAX_ERROR_LOGS and attempt index at most
MAX_PUBLISH_ATTEMPTS + 1 and with the store operations succeeding, increments
the continue index before using it and applies no cap: from a continue count
cc < 255 it stores its diagnostic under continue index cc + 1 (index 1 for the
first entry, index 6 after five entries) and leaves the continue key of every
other index of this attempt as it was. -/
theorem continue_failure_uses_next_index (ctx : String) (rc : Int) (s : State)
    (hrc : rc ≠ ESP_OK) (hi : s.initialized = true) (hf : s.faults = [])
    (hl : s.error_log_count ≤ MAX_ERROR_LOGS)
    (ha : s.publish_attempt_count ≤ MAX_PUBLISH_ATTEMPTS + 1)
    (hc : s.continue_count < 255) :
    (volf_handle_error volf_error_t.CONTINUE ctx rc s).continue_count = s.continue_count + 1 ∧
    (volf_handle_error volf_error_t.CONTINUE ctx rc s).nvs.lookup
        (snprintf MAX_KEY_SIZE (ERROR_CONTINUE_KEY_TEMPLATE s.error_log_count
          s.publish_attempt_count (s.continue_count + 1)))
      = some (nvs_value.str (context_and_rc ctx rc)) ∧
    ∀ i, i ≤ 255 → i ≠ s.continue_count + 1 →
      (volf_handle_error volf_error_t.CONTINUE ctx rc s).nvs.lookup
          (snprintf MAX_KEY_SIZE (ERROR_CONTINUE_KEY_TEMPLATE s.error_log_count
            s.publish_attempt_count i))
        = s.nvs.lookup (snprintf MAX_KEY_SIZE (ERROR_CONTINUE_KEY_TEMPLATE s.error_log_count
            s.publish_attempt_count i)) := by
  have hs1 : (stored volf_error_t.CONTINUE ctx rc s).faults = [] := hf
  obtain ⟨d1, -, d3, -, -⟩ := dispatch_ok volf_error_t.CONTINUE
    (stored volf_error_t.CONTINUE ctx rc s) hs1
  have hp : promote volf_error_t.CONTINUE
      (stored volf_error_t.CONTINUE ctx rc s).publish_attempt_count = volf_error_t.CONTINUE := by
    simp [promote]
  rw [hp, if_neg (by decide)] at d1
  rw [hp, if_neg (by simp)] at d3
  have hmod : (s.continue_count + 1) % 256 = s.continue_count + 1 :=
    Nat.mod_eq_of_lt (by omega)
  have hkey : (volf_build_error_context_key volf_error_t.CONTINUE s).1
      = snprintf MAX_KEY_SIZE (ERROR_CONTINUE_KEY_TEMPLATE s.error_log_count
          s.publish_attempt_count (s.continue_count + 1)) := by
    show snprintf MAX_KEY_SIZE (ERROR_CONTINUE_KEY_TEMPLATE s.error_log_count
      s.publish_attempt_count ((s.continue_count + 1) % 256)) = _
    rw [hmod]
  rw [volf_handle_error_initialized _ ctx rc s hrc hi hf]
  refine ⟨?_, ?_, ?_⟩
  · have := congrArg (fun c => c.2.2) d3
    exact this.trans hmod
  · rw [d1, ← hkey]
    exact lookup_persisted _ _ _ _
  · intro i hi255 hne
    rw [d1]
    show List.lookup _ (persisted volf_error_t.CONTINUE ctx rc s) = _
    unfold persisted
    have hfit := (reachable_keys_untruncated s.error_log_count s.publish_attempt_count i hl ha
      hi255).2.2.2.2.1.1
    have hfit' := (reachable_keys_untruncated s.error_log_count s.publish_attempt_count
      (s.continue_count + 1) hl ha (by omega)).2.2.2.2.1.1
    have hb1 : s.error_log_count < 256 := by
      unfold MAX_ERROR_LOGS at hl
      omega
    have hb2 : s.publish_attempt_count < 256 := by
      unfold MAX_PUBLISH_ATTEMPTS at ha
      omega
    have hdiff : snprintf MAX_KEY_SIZE (ERROR_CONTINUE_KEY_TEMPLATE s.error_log_count
        s.publish_attempt_count i) ≠ (volf_build_error_context_key volf_error_t.CONTINUE s).1 := by
      rw [hkey]
      intro h
      exact hne (three_field_inj "EC_" _ _ i _ _ (s.continue_count + 1) hb1 hb2 (by omega) hb1
        hb2 (by omega) hfit hfit' h).2.2
    rw [lookup_put, if_neg hdiff, lookup_put, if_neg (continue_key_ne_count_key _ _ _ _),
      lookup_put, if_neg (continue_key_ne_log_count _ _ _)]

theorem continue_failure_uses_next_index_witness :
    (5 : Int) ≠ ESP_OK ∧ (continue_failures 5 second_run).continue_count < 255 ∧
    (volf_handle_error volf_error_t.CONTINUE "esp_wifi_stop" 5
      (continue_failures 5 second_run)).continue_count
      = (continue_failures 5 second_run).continue_count + 1 :=
  ⟨by decide, by decide,
   (continue_failure_uses_next_index "esp_wifi_stop" 5 (continue_failures 5 second_run)
      (by decide) (by decide) (by decide) (by decide) (by decide) (by decide)).1⟩

/-- C14 (counterexample). After five CONTINUE failures in attempt 1 of log 1
the continue count is 5; the sixth CONTINUE failure raises it to 6 and writes
the continue key EC_1_1_6, which the store did not hold before. -/
theorem sixth_continue_is_written :
    (continue_failures 5 second_run).continue_count = MAX_CONTINUE_CONTEXTS ∧
    (continue_failures 5 second_run).nvs.lookup "EC_1_1_6" = none ∧
    (continue_failures 6 second_run).continue_count = 6 ∧
    (continue_failures 6 second_run).nvs.lookup "EC_1_1_6"
      = some (nvs_value.str "esp_wifi_stop(5)") ∧
    (continue_failures 6 second_run).nvs.lookup "EC_1_1_1"
      = some (nvs_value.str "esp_wifi_stop(5)") := by
  decide

/-- C22. Registering a handler for a tier makes it the handler of that tier,
whatever was registered before, and leaves the handlers of the other tiers,
the store, the cursors, the in-memory ledger and the record of calls
unchanged; a later failing volf_handle_error call that is dispatched to that
tier invokes exactly the new handler (none when it is NULL). -/
theorem register_replaces_handler (sev : volf_error_t) (h : Option Nat) (s : State) :
    registered (volf_register_error_handler sev h s) sev = h ∧
    (∀ e, e ≠ sev → registered (volf_register_error_handler sev h s) e = registered s e) ∧
    (volf_register_error_handler sev h s).nvs = s.nvs ∧
    (volf_register_error_handler sev h s).cursors = s.cursors ∧
    (volf_register_error_handler sev h s).loaded_errors = s.loaded_errors ∧
    (volf_register_error_handler sev h s).initialized = s.initialized ∧
    (volf_register_error_handler sev h s).calls = s.calls ∧
    (∀ (error : volf_error_t) (ctx : String) (rc : Int), rc ≠ ESP_OK →
      promote error
          (volf_store_error_context error ctx rc
            (lazy_init (volf_register_error_handler sev h s))).publish_attempt_count = sev →
      (volf_handle_error error ctx rc (volf_register_error_handler sev h s)).calls.map
          HandlerCall.handler
        = s.calls.map HandlerCall.handler ++ h.toList) := by
  have hreg : registered (volf_register_error_handler sev h s) sev = h := by
    cases sev <;> rfl
  refine ⟨hreg, ?_, ?_, ?_, ?_, ?_, ?_, ?_⟩
  · intro e he
    cases sev <;> cases e <;> first | rfl | exact absurd rfl he
  · cases sev <;> rfl
  · cases sev <;> rfl
  · cases sev <;> rfl
  · cases sev <;> rfl
  · cases sev <;> rfl
  · intro error ctx rc hrc hp
    have hcalls : (volf_register_error_handler sev h s).calls = s.calls := by
      cases sev <;> rfl
    generalize volf_register_error_handler sev h s = t at hreg hp hcalls
    rw [volf_handle_error_failure error ctx rc t hrc, dispatch_fixed_handlers, hp]
    have h1 : (volf_store_error_context error ctx rc (lazy_init t)).fixed = t.fixed :=
      (volf_store_error_context_fixed _ _ _ _).trans (lazy_init_fixed t)
    rw [fixed_calls h1, fixed_registered h1, hreg, hcalls]

theorem register_replaces_handler_witness :
    (volf_handle_error volf_error_t.RETRY "esp_wifi_connect" 5
        (volf_register_error_handler volf_error_t.RETRY (some 7)
          (wake_up none (power_on [] 10)))).calls.map HandlerCall.handler
      = (wake_up none (power_on [] 10)).calls.map HandlerCall.handler ++ (some 7).toList :=
  (register_replaces_handler volf_error_t.RETRY (some 7) (wake_up none (power_on [] 10))).2.2.2.2.2.2.2
    volf_error_t.RETRY "esp_wifi_connect" 5 (by decide) (by decide)

/-- C23 (amended). The state volf_get_errors leaves is the one the lazy
initialisation leaves, and the result is the in-memory ledger of that state
when it holds a log and NULL otherwise; once the module is initialised the
call leaves the whole state, store, cursors and ledger included, as it was. -/
theorem get_errors_pure_once_initialized (s : State) :
    (volf_get_errors s).2 = lazy_init s ∧
    (volf_get_errors s).1
      = (if (lazy_init s).loaded_errors.num_error_logs ≠ 0 then some (lazy_init s).loaded_errors
         else none) ∧
    (s.initialized = true →
      volf_get_errors s
        = (if s.loaded_errors.num_error_logs ≠ 0 then some s.loaded_errors else none, s)) := by
  have key : ∀ t : State, volf_get_errors t
      = (if (lazy_init t).loaded_errors.num_error_logs ≠ 0 then some (lazy_init t).loaded_errors
         else none, lazy_init t) := by
    intro t
    unfold volf_get_errors volf_errors_available
    by_cases hn : (lazy_init t).loaded_errors.num_error_logs = 0
    · simp [hn]
    · simp [hn]
  refine ⟨?_, ?_, ?_⟩
  · rw [key]
  · rw [key]
  · intro hi
    rw [key, lazy_init_initialized s hi]

theorem get_errors_pure_once_initialized_witness :
    loaded_one_log.initialized = true ∧
    volf_get_errors loaded_one_log = (some loaded_one_log.loaded_errors, loaded_one_log) :=
  ⟨by decide,
   ((get_errors_pure_once_initialized loaded_one_log).2.2 (by decide)).trans (by decide)⟩

/-- C23 (counterexample). On a fresh boot over a store of one log with one
attempt the module is not initialised; volf_get_errors runs volf_error_init,
after which the cursors are (1, 2, 0) instead of (0, 0, 0) and the in-memory
ledger holds one log instead of none. -/
theorem get_errors_initialises_lazily :
    (power_on (one_attempt_store 4) 10).initialized = false ∧
    (power_on (one_attempt_store 4) 10).cursors = (0, 0, 0) ∧
    (volf_get_errors (power_on (one_attempt_store 4) 10)).2.cursors = (1, 2, 0) ∧
    (power_on (one_attempt_store 4) 10).loaded_errors.num_error_logs = 0 ∧
    (volf_get_errors (power_on (one_attempt_store 4) 10)).2.loaded_errors.num_error_logs = 1 ∧
    (volf_get_errors (power_on (one_attempt_store 4) 10)).2.nvs = one_attempt_store 4 := by
  decide

/-- C29. Keys of different roles are distinct for all coordinates, also after
the truncation to the key buffer: the log count key, the attempt count keys,
the runtime keys and the retry, abort and continue text keys are pairwise
different. -/
theorem role_keys_disjoint (l a l' a' c' : Nat) :
    ERROR_LOG_COUNT_KEY ≠ snprintf MAX_KEY_SIZE (PUBLISH_ATTEMPT_COUNT_KEY_TEMPLATE l') ∧
    ERROR_LOG_COUNT_KEY ≠ snprintf MAX_KEY_SIZE (PUBLISH_ATTEMPT_RUNTIME_KEY_TEMPLATE l' a') ∧
    ERROR_LOG_COUNT_KEY ≠ snprintf MAX_KEY_SIZE (ERROR_RETRY_KEY_TEMPLATE l' a') ∧
    ERROR_LOG_COUNT_KEY ≠ snprintf MAX_KEY_SIZE (ERROR_ABORT_KEY_TEMPLATE l' a') ∧
    ERROR_LOG_COUNT_KEY ≠ snprintf MAX_KEY_SIZE (ERROR_CONTINUE_KEY_TEMPLATE l' a' c') ∧
    snprintf MAX_KEY_SIZE (PUBLISH_ATTEMPT_COUNT_KEY_TEMPLATE l)
      ≠ snprintf MAX_KEY_SIZE (PUBLISH_ATTEMPT_RUNTIME_KEY_TEMPLATE l' a') ∧
    snprintf MAX_KEY_SIZE (PUBLISH_ATTEMPT_COUNT_KEY_TEMPLATE l)
      ≠ snprintf MAX_KEY_SIZE (ERROR_RETRY_KEY_TEMPLATE l' a') ∧
    snprintf MAX_KEY_SIZE (PUBLISH_ATTEMPT_COUNT_KEY_TEMPLATE l)
      ≠ snprintf MAX_KEY_SIZE (ERROR_ABORT_KEY_TEMPLATE l' a') ∧
    snprintf MAX_KEY_SIZE (PUBLISH_ATTEMPT_COUNT_KEY_TEMPLATE l)
      ≠ snprintf MAX_KEY_SIZE (ERROR_CONTINUE_KEY_TEMPLATE l' a' c') ∧
    snprintf MAX_KEY_SIZE (PUBLISH_ATTEMPT_RUNTIME_KEY_TEMPLATE l a)
      ≠ snprintf MAX_KEY_SIZE (ERROR_RETRY_KEY_TEMPLATE l' a') ∧
    snprintf MAX_KEY_SIZE (PUBLISH_ATTEMPT_RUNTIME_KEY_TEMPLATE l a)
      ≠ snprintf MAX_KEY_SIZE (ERROR_ABORT_KEY_TEMPLATE l' a') ∧
    snprintf MAX_KEY_SIZE (PUBLISH_ATTEMPT_RUNTIME_KEY_TEMPLATE l a)
      ≠ snprintf MAX_KEY_SIZE (ERROR_CONTINUE_KEY_TEMPLATE l' a' c') ∧
    snprintf MAX_KEY_SIZE (ERROR_RETRY_KEY_TEMPLATE l a)
      ≠ snprintf MAX_KEY_SIZE (ERROR_ABORT_KEY_TEMPLATE l' a') ∧
    snprintf MAX_KEY_SIZE (ERROR_RETRY_KEY_TEMPLATE l a)
      ≠ snprintf MAX_KEY_SIZE (ERROR_CONTINUE_KEY_TEMPLATE l' a' c') ∧
    snprintf MAX_KEY_SIZE (ERROR_ABORT_KEY_TEMPLATE l a)
      ≠ snprintf MAX_KEY_SIZE (ERROR_CONTINUE_KEY_TEMPLATE l' a' c') := by
  refine ⟨?_, ?_, ?_, ?_, ?_, ?_, ?_, ?_, ?_, ?_, ?_, ?_, ?_, ?_, ?_⟩ <;>
    apply ne_of_key_role <;>
    simp only [key_role_log_count, key_role_count, key_role_runtime, key_role_retry,
      key_role_abort, key_role_continue] <;>
    decide

/-- C30. For 32-bit arguments with low < high, convert_battery_voltage_to_pct
performs no division by zero and returns a value of at most 100: 0 below
low, 100 above high, and in between the quotient of (v - low) * 100 taken
modulo 2^32 by high - low; convert_moisture_voltage_to_pct returns 100 minus
that value. -/
theorem voltage_pct_in_range (v low high : Nat) (hv : v < 2 ^ 32) (hh : high < 2 ^ 32)
    (hlh : low < high) :
    ∃ r, convert_battery_voltage_to_pct v low high = some r ∧ r ≤ 100 ∧
      (v < low → r = 0) ∧ (high < v → r = 100) ∧
      (low ≤ v → v ≤ high → r = ((v - low) * 100 % 2 ^ 32) / (high - low)) ∧
      convert_moisture_voltage_to_pct v low high = some (100 - r) := by
  unfold convert_battery_voltage_to_pct convert_moisture_voltage_to_pct
  by_cases h1 : v < low
  · refine ⟨0, by simp [h1], by omega, fun _ => rfl, fun h => by omega, fun h => by omega,
      by simp [h1]⟩
  · by_cases h2 : v > high
    · refine ⟨100, by simp [h1, h2], by omega, fun h => by omega, fun _ => rfl,
        fun _ h => by omega, by simp [h1, h2]⟩
    · have hd : (high + 2 ^ 32 - low) % 2 ^ 32 = high - low := by omega
      have hx : (v + 2 ^ 32 - low) % 2 ^ 32 = v - low := by omega
      have hd0 : high - low ≠ 0 := by omega
      have hq : ((v - low) * 100 % 2 ^ 32) / (high - low) ≤ 100 := by
        apply Nat.div_le_of_le_mul
        have : (v - low) * 100 % 2 ^ 32 ≤ (v - low) * 100 := Nat.mod_le _ _
        have : (v - low) * 100 ≤ (high - low) * 100 := Nat.mul_le_mul_right _ (by omega)
        omega
      refine ⟨((v - low) * 100 % 2 ^ 32) / (high - low), ?_, hq, fun h => absurd h h1,
        fun h => absurd h h2, fun _ _ => rfl, ?_⟩
      · simp only [h1, h2, if_false, hd, hx, hd0]
      · simp only [h1, h2, if_false, hd, hx, hd0]
        generalize (v - low) * 100 % 2 ^ 32 / (high - low) = q at hq
        congr 1
        omega

theorem voltage_pct_in_range_witness :
    ∃ r, convert_battery_voltage_to_pct 4294967295 0 4294967295 = some r ∧ r ≤ 100 ∧
      ((4294967295 : Nat) < 0 → r = 0) ∧ ((4294967295 : Nat) < 4294967295 → r = 100) ∧
      (0 ≤ 4294967295 → 4294967295 ≤ 4294967295 →
        r = ((4294967295 - 0) * 100 % 2 ^ 32) / (4294967295 - 0)) ∧
      convert_moisture_voltage_to_pct 4294967295 0 4294967295 = some (100 - r) :=
  voltage_pct_in_range 4294967295 0 4294967295 (by decide) (by decide) (by decide)

theorem no_excess_bound (st : Store) (n l i v : Nat) (hx : no_excess st n l = true)
    (h1 : l ≤ i) (h2 : i < l + n) (hv : stored_attempt_count st i = some v) :
    v ≤ MAX_PUBLISH_ATTEMPTS := by
  induction n generalizing l with
  | zero => omega
  | succ n ih =>
    simp only [no_excess, Bool.and_eq_true] at hx
    by_cases hi : i = l
    · subst hi
      unfold stored_attempt_count at hv
      have hx1 := hx.1
      generalize List.lookup (snprintf MAX_KEY_SIZE (PUBLISH_ATTEMPT_COUNT_KEY_TEMPLATE i)) st = o
        at hv hx1
      rcases o with _ | ⟨w | w | w⟩
      · cases hv
      · cases hv
        simpa using hx1
      · cases hv
      · cases hv
    · exact ih (l + 1) hx.2 (by omega) (by omega)

theorem lookup_persisted_other (e : volf_error_t) (ctx : String) (rc : Int) (s : State)
    (k : String) (h1 : k ≠ ERROR_LOG_COUNT_KEY)
    (h2 : k ≠ snprintf MAX_KEY_SIZE (PUBLISH_ATTEMPT_COUNT_KEY_TEMPLATE s.error_log_count))
    (h3 : k ≠ (volf_build_error_context_key e s).1) :
    (persisted e ctx rc s).lookup k = s.nvs.lookup k := by
  unfold persisted
  rw [lookup_put, if_neg h3, lookup_put, if_neg h2, lookup_put, if_neg h1]

theorem promote_continue (n : Nat) : promote volf_error_t.CONTINUE n = volf_error_t.CONTINUE := by
  simp [promote]

/-- C24 (amended). A failing volf_handle_error call whose store operations
succeed: for RETRY and ABORT the runtime key of the current log and attempt
holds the uptime (tick count times tick period modulo 2^32) when the call
returns, except when the call is dispatched as ABORT with error_log_count
already MAX_ERROR_LOGS, where the namespace is erased after the write; for
CONTINUE every runtime key and every retry or abort text key holds what it
held after the lazy initialisation, which is the state of the call once the
module is initialised. -/
theorem failure_writes_runtime_unless_wiped (error : volf_error_t) (ctx : String) (rc : Int)
    (s : State) (hrc : rc ≠ ESP_OK) (hf : s.faults = []) :
    (error ≠ volf_error_t.CONTINUE →
      if promote error (lazy_init s).publish_attempt_count = volf_error_t.ABORT ∧
          (lazy_init s).error_log_count + 1 > MAX_ERROR_LOGS
      then (volf_handle_error error ctx rc s).nvs = []
      else (volf_handle_error error ctx rc s).nvs.lookup (runtime_key (lazy_init s))
        = some (nvs_value.u32 ((s.tick_count * s.portTICK_PERIOD_MS) % 2 ^ 32))) ∧
    (error = volf_error_t.CONTINUE → ∀ l a : Nat,
      (volf_handle_error error ctx rc s).nvs.lookup
          (snprintf MAX_KEY_SIZE (PUBLISH_ATTEMPT_RUNTIME_KEY_TEMPLATE l a))
        = (lazy_init s).nvs.lookup
            (snprintf MAX_KEY_SIZE (PUBLISH_ATTEMPT_RUNTIME_KEY_TEMPLATE l a)) ∧
      (volf_handle_error error ctx rc s).nvs.lookup
          (snprintf MAX_KEY_SIZE (ERROR_RETRY_KEY_TEMPLATE l a))
        = (lazy_init s).nvs.lookup (snprintf MAX_KEY_SIZE (ERROR_RETRY_KEY_TEMPLATE l a)) ∧
      (volf_handle_error error ctx rc s).nvs.lookup
          (snprintf MAX_KEY_SIZE (ERROR_ABORT_KEY_TEMPLATE l a))
        = (lazy_init s).nvs.lookup (snprintf MAX_KEY_SIZE (ERROR_ABORT_KEY_TEMPLATE l a))) ∧
    (s.initialized = true → lazy_init s = s) := by
  have hl := lazy_init_faults s hf
  have hfx := lazy_init_fixed s
  have htick : runtime_value (lazy_init s) = (s.tick_count * s.portTICK_PERIOD_MS) % 2 ^ 32 := by
    have h1 : (lazy_init s).tick_count = s.tick_count := congrArg (fun c => c.1) hfx
    have h2 : (lazy_init s).portTICK_PERIOD_MS = s.portTICK_PERIOD_MS :=
      congrArg (fun c => c.2.1) hfx
    unfold runtime_value
    rw [h1, h2]
  rw [volf_handle_error_failure error ctx rc s hrc, volf_store_error_context_ok _ _ _ _ hl,
    ← htick]
  have h3 := lazy_init_initialized s
  generalize lazy_init s = s0 at hl h3
  have hs1 : (stored error ctx rc s0).faults = [] := (stored_faults _ _ _ _).trans hl
  obtain ⟨h1, -, -, -, -⟩ := dispatch_ok error (stored error ctx rc s0) hs1
  rw [stored_publish_attempt_count] at h1
  refine ⟨?_, ?_, h3⟩
  · intro hne
    have hrt : (stored error ctx rc s0).nvs.lookup (runtime_key s0)
        = some (nvs_value.u32 (runtime_value s0)) := by
      cases error
      · exact absurd rfl hne
      · show List.lookup _ (Store.put _ _ _) = _
        rw [lookup_put, if_pos rfl]
      · show List.lookup _ (Store.put _ _ _) = _
        rw [lookup_put, if_pos rfl]
    rw [h1]
    by_cases hp : promote error s0.publish_attempt_count = volf_error_t.ABORT
    · simp only [hp, if_true, true_and]
      unfold advanced
      rw [stored_error_log_count]
      by_cases hw : s0.error_log_count + 1 > MAX_ERROR_LOGS
      · simp only [hw, if_true]
      · simp only [hw, if_false]
        rw [lookup_put, if_neg (log_count_ne_runtime_key s0).symm]
        exact hrt
    · simp only [hp, if_false, false_and]
      exact hrt
  · intro he l a
    subst he
    rw [h1, promote_continue]
    simp only [reduceCtorEq, if_false]
    have hk : ∀ k, key_role k ≠ ['E', 'L', 'C'] → key_role k ≠ ['P', 'A', 'C'] →
        key_role k ≠ ['E', 'C', '_'] →
        (stored volf_error_t.CONTINUE ctx rc s0).nvs.lookup k = s0.nvs.lookup k := by
      intro k k1 k2 k3
      show (persisted volf_error_t.CONTINUE ctx rc s0).lookup k = _
      apply lookup_persisted_other
      · exact ne_of_key_role (by rw [key_role_log_count]; exact k1)
      · exact ne_of_key_role (by rw [key_role_count]; exact k2)
      · exact ne_of_key_role (by
          show key_role k ≠ key_role (snprintf MAX_KEY_SIZE
            (ERROR_CONTINUE_KEY_TEMPLATE _ _ _))
          rw [key_role_continue]; exact k3)
    refine ⟨hk _ ?_ ?_ ?_, hk _ ?_ ?_ ?_, hk _ ?_ ?_ ?_⟩ <;>
      simp only [key_role_runtime, key_role_retry, key_role_abort] <;> decide

theorem failure_writes_runtime_unless_wiped_witness :
    (volf_handle_error volf_error_t.RETRY "esp_wifi_connect" 5
        { second_run with tick_count := 150 }).nvs.lookup "PAR_1_1"
      = some (nvs_value.u32 1500) := by
  have h := (failure_writes_runtime_unless_wiped volf_error_t.RETRY "esp_wifi_connect" 5
    { second_run with tick_count := 150 } (by decide) (by decide)).1 (by decide)
  rw [if_neg (by decide)] at h
  have hk : runtime_key (lazy_init { second_run with tick_count := 150 }) = "PAR_1_1" := by
    decide
  rw [hk] at h
  exact h

/-- C24 (counterexample). After five escalation cycles the log cursor is
MAX_ERROR_LOGS; a further failing ABORT call at uptime 1500 ms writes the
runtime key PAR_5_1 and then erases the namespace, so when the call returns
no runtime key holds the uptime: the store is empty. -/
theorem abort_on_full_ledger_keeps_no_runtime :
    ({ abort_cycles 5 (wake_up none (power_on [] 10)) with tick_count := 150 } : State).cursors
      = (5, 1, 0) ∧
    runtime_key { abort_cycles 5 (wake_up none (power_on [] 10)) with tick_count := 150 }
      = "PAR_5_1" ∧
    (volf_handle_error volf_error_t.ABORT "give-up" 9999
      { abort_cycles 5 (wake_up none (power_on [] 10)) with tick_count := 150 }).nvs.lookup
        "PAR_5_1" = none ∧
    (volf_handle_error volf_error_t.ABORT "give-up" 9999
      { abort_cycles 5 (wake_up none (power_on [] 10)) with tick_count := 150 }).nvs = [] := by
  decide

theorem nvs_get_str_some (m : nvs_open_mode_t) (k : String) (s : State) (hf : s.faults = [])
    (v : String) (h : stored_text s.nvs k = some v) :
    nvs_get_str (some m) k MAX_ERROR_CONTEXT_SIZE s = (Except.ok v, s) := by
  unfold stored_text at h
  simp only [nvs_get_str, take_fault_nil s hf]
  generalize List.lookup k s.nvs = o at h
  rcases o with _ | ⟨w | w | w⟩
  · cases h
  · cases h
  · cases h
  · dsimp only at h ⊢
    by_cases hw : w.utf8ByteSize + 1 ≤ MAX_ERROR_CONTEXT_SIZE
    · rw [if_pos hw] at h
      cases h
      simp [hw]
    · rw [if_neg hw] at h
      cases h

theorem nvs_get_str_none (m : nvs_open_mode_t) (k : String) (s : State) (hf : s.faults = [])
    (h : stored_text s.nvs k = none) :
    ∃ e, nvs_get_str (some m) k MAX_ERROR_CONTEXT_SIZE s = (Except.error e, s) := by
  unfold stored_text at h
  simp only [nvs_get_str, take_fault_nil s hf]
  generalize List.lookup k s.nvs = o at h
  rcases o with _ | ⟨w | w | w⟩
  · exact ⟨ESP_ERR_NVS_NOT_FOUND, by simp⟩
  · exact ⟨ESP_ERR_NVS_TYPE_MISMATCH, by simp⟩
  · exact ⟨ESP_ERR_NVS_TYPE_MISMATCH, by simp⟩
  · dsimp only at h ⊢
    by_cases hw : w.utf8ByteSize + 1 ≤ MAX_ERROR_CONTEXT_SIZE
    · rw [if_pos hw] at h
      cases h
    · exact ⟨ESP_ERR_NVS_INVALID_LENGTH, by simp [hw]⟩

theorem nvs_get_u32_some (m : nvs_open_mode_t) (l a : Nat) (s : State) (hf : s.faults = [])
    (v : Nat) (h : stored_runtime s.nvs l a = some v) :
    nvs_get_u32 (some m) (snprintf MAX_KEY_SIZE (PUBLISH_ATTEMPT_RUNTIME_KEY_TEMPLATE l a)) s
      = (Except.ok v, s) := by
  unfold stored_runtime at h
  simp only [nvs_get_u32, take_fault_nil s hf]
  generalize List.lookup _ s.nvs = o at h
  rcases o with _ | ⟨w | w | w⟩
  · cases h
  · cases h
  · cases h
    simp
  · cases h

theorem nvs_get_u32_none (m : nvs_open_mode_t) (l a : Nat) (s : State) (hf : s.faults = [])
    (h : stored_runtime s.nvs l a = none) :
    ∃ e, nvs_get_u32 (some m) (snprintf MAX_KEY_SIZE (PUBLISH_ATTEMPT_RUNTIME_KEY_TEMPLATE l a)) s
      = (Except.error e, s) := by
  unfold stored_runtime at h
  simp only [nvs_get_u32, take_fault_nil s hf]
  generalize List.lookup _ s.nvs = o at h
  rcases o with _ | ⟨w | w | w⟩
  · exact ⟨ESP_ERR_NVS_NOT_FOUND, by simp⟩
  · exact ⟨ESP_ERR_NVS_TYPE_MISMATCH, by simp⟩
  · cases h
  · exact ⟨ESP_ERR_NVS_TYPE_MISMATCH, by simp⟩

/-- The loop of volf_read_publish_attempt in closed form: it stores the
leading continue texts from index `c` on, and sets the count only when it
meets an index without a text before the `n` iterations are over. -/
theorem read_continue_contexts_eq (m : nvs_open_mode_t) (l a : Nat) (s : State)
    (hf : s.faults = []) (n c : Nat) (att : volf_publish_attempt) (hc : 1 ≤ c)
    (hlen : c - 1 + n ≤ att.continue_contexts.length) :
    (read_continue_contexts (some m) l a n c att s).1 =
      { att with
        continue_contexts :=
          att.continue_contexts.take (c - 1) ++ leading_continue_texts s.nvs l a n c ++
            att.continue_contexts.drop (c - 1 + (leading_continue_texts s.nvs l a n c).length),
        num_continue_contexts :=
          if (leading_continue_texts s.nvs l a n c).length < n then
            c - 1 + (leading_continue_texts s.nvs l a n c).length
          else att.num_continue_contexts } := by
  induction n generalizing c att with
  | zero =>
    simp [read_continue_contexts, leading_continue_texts]
  | succ n ih =>
    simp only [read_continue_contexts, leading_continue_texts]
    cases ht : stored_text s.nvs (snprintf MAX_KEY_SIZE (ERROR_CONTINUE_KEY_TEMPLATE l a c)) with
    | none =>
      obtain ⟨e, he⟩ := nvs_get_str_none m _ s hf ht
      rw [he]
      simp
    | some v =>
      rw [nvs_get_str_some m _ s hf v ht]
      dsimp only
      rw [ih (c + 1) _ (by omega) (by simp; omega)]
      have hlt : c - 1 < att.continue_contexts.length := by omega
      have h1 : (att.continue_contexts.set (c - 1) v).take (c + 1 - 1)
          = att.continue_contexts.take (c - 1) ++ [v] := by
        rw [List.set_eq_take_append_cons_drop, if_pos hlt]
        have : c + 1 - 1 = (att.continue_contexts.take (c - 1)).length + 1 := by
          simp; omega
        rw [this, List.take_append]
        simp
      have h2 : ∀ k, (att.continue_contexts.set (c - 1) v).drop (c + 1 - 1 + k)
          = att.continue_contexts.drop (c - 1 + (k + 1)) := by
        intro k
        rw [List.set_eq_take_append_cons_drop, if_pos hlt]
        have : c + 1 - 1 + k = (att.continue_contexts.take (c - 1)).length + (k + 1) := by
          simp; omega
        rw [this, List.drop_append]
        simp
        congr 1
        omega
      rw [h1, h2]
      simp only [List.length_cons, List.append_assoc, List.singleton_append,
        Nat.add_lt_add_iff_right]
      congr 1
      split <;> omega

/-- The whole of volf_read_publish_attempt in closed form. -/
theorem volf_read_publish_attempt_eq (m : nvs_open_mode_t) (att : volf_publish_attempt)
    (l a : Nat) (s : State) (hf : s.faults = [])
    (hlen : MAX_CONTINUE_CONTEXTS ≤ att.continue_contexts.length) :
    volf_read_publish_attempt (some m) att l a s = (reloaded_attempt s.nvs l a att, s) := by
  have hsnd := volf_read_publish_attempt_snd (some m) att l a s hf
  refine Prod.ext ?_ hsnd
  show (volf_read_publish_attempt (some m) att l a s).1 = reloaded_attempt s.nvs l a att
  unfold volf_read_publish_attempt reloaded_attempt
  dsimp only
  cases h1 : stored_runtime s.nvs l a with
  | none =>
    obtain ⟨e1, he1⟩ := nvs_get_u32_none m l a s hf h1
    rw [he1]
    dsimp only
    cases h2 : stored_text s.nvs (snprintf MAX_KEY_SIZE (ERROR_RETRY_KEY_TEMPLATE l a)) with
    | none =>
      obtain ⟨e2, he2⟩ := nvs_get_str_none m _ s hf h2
      rw [he2]
      dsimp only
      cases h3 : stored_text s.nvs (snprintf MAX_KEY_SIZE (ERROR_ABORT_KEY_TEMPLATE l a)) with
      | none =>
        obtain ⟨e3, he3⟩ := nvs_get_str_none m _ s hf h3
        rw [he3]
        dsimp only
        rw [read_continue_contexts_eq m l a s hf _ 1 _ (by omega) (by simpa using hlen)]
        simp
      | some v3 =>
        rw [nvs_get_str_some m _ s hf v3 h3]
        dsimp only
        rw [read_continue_contexts_eq m l a s hf _ 1 _ (by omega) (by simpa using hlen)]
        simp
    | some v2 =>
      rw [nvs_get_str_some m _ s hf v2 h2]
      dsimp only
      cases h3 : stored_text s.nvs (snprintf MAX_KEY_SIZE (ERROR_ABORT_KEY_TEMPLATE l a)) with
      | none =>
        obtain ⟨e3, he3⟩ := nvs_get_str_none m _ s hf h3
        rw [he3]
        dsimp only
        rw [read_continue_contexts_eq m l a s hf _ 1 _ (by omega) (by simpa using hlen)]
        simp
      | some v3 =>
        rw [nvs_get_str_some m _ s hf v3 h3]
        dsimp only
        rw [read_continue_contexts_eq m l a s hf _ 1 _ (by omega) (by simpa using hlen)]
        simp
  | some v1 =>
    rw [nvs_get_u32_some m l a s hf v1 h1]
    dsimp only
    cases h2 : stored_text s.nvs (snprintf MAX_KEY_SIZE (ERROR_RETRY_KEY_TEMPLATE l a)) with
    | none =>
      obtain ⟨e2, he2⟩ := nvs_get_str_none m _ s hf h2
      rw [he2]
      dsimp only
      cases h3 : stored_text s.nvs (snprintf MAX_KEY_SIZE (ERROR_ABORT_KEY_TEMPLATE l a)) with
      | none =>
        obtain ⟨e3, he3⟩ := nvs_get_str_none m _ s hf h3
        rw [he3]
        dsimp only
        rw [read_continue_contexts_eq m l a s hf _ 1 _ (by omega) (by simpa using hlen)]
        simp
      | some v3 =>
        rw [nvs_get_str_some m _ s hf v3 h3]
        dsimp only
        rw [read_continue_contexts_eq m l a s hf _ 1 _ (by omega) (by simpa using hlen)]
        simp
    | some v2 =>
      rw [nvs_get_str_some m _ s hf v2 h2]
      dsimp only
      cases h3 : stored_text s.nvs (snprintf MAX_KEY_SIZE (ERROR_ABORT_KEY_TEMPLATE l a)) with
      | none =>
        obtain ⟨e3, he3⟩ := nvs_get_str_none m _ s hf h3
        rw [he3]
        dsimp only
        rw [read_continue_contexts_eq m l a s hf _ 1 _ (by omega) (by simpa using hlen)]
        simp
      | some v3 =>
        rw [nvs_get_str_some m _ s hf v3 h3]
        dsimp only
        rw [read_continue_contexts_eq m l a s hf _ 1 _ (by omega) (by simpa using hlen)]
        simp

theorem leading_continue_texts_eq (st : Store) (l a : Nat) (texts : List String) (n c : Nat)
    (hn : texts.length < n)
    (hp : ∀ i v, texts[i]? = some v →
      stored_text st (snprintf MAX_KEY_SIZE (ERROR_CONTINUE_KEY_TEMPLATE l a (c + i))) = some v)
    (ha : stored_text st
      (snprintf MAX_KEY_SIZE (ERROR_CONTINUE_KEY_TEMPLATE l a (c + texts.length))) = none) :
    leading_continue_texts st l a n c = texts := by
  induction texts generalizing n c with
  | nil =>
    cases n with
    | zero => simp at hn
    | succ n =>
      simp only [leading_continue_texts]
      rw [show c = c + ([] : List String).length from rfl, ha]
  | cons v vs ih =>
    cases n with
    | zero => simp at hn
    | succ n =>
      simp only [leading_continue_texts]
      have h0 := hp 0 v (by simp)
      rw [Nat.add_zero] at h0
      rw [h0]
      dsimp only
      congr 1
      apply ih
      · simpa using hn
      · intro i w hw
        have := hp (i + 1) w (by simpa using hw)
        rw [show c + 1 + i = c + (i + 1) by omega]
        exact this
      · rw [show c + 1 + vs.length = c + (v :: vs).length by simp; omega]
        exact ha

theorem stored_text_of_lookup (st : Store) (k v : String)
    (h : st.lookup k = some (nvs_value.str v)) (hv : v.utf8ByteSize < MAX_ERROR_CONTEXT_SIZE) :
    stored_text st k = some v := by
  unfold stored_text
  rw [h]
  exact if_pos hv

theorem stored_text_absent (st : Store) (k : String) (h : st.lookup k = none) :
    stored_text st k = none := by
  unfold stored_text
  rw [h]

/-- Where the reconstruction of the continue contexts agrees with the
specification: with texts of fewer than MAX_ERROR_CONTEXT_SIZE bytes
stored at the continue indices 1..k, none at index k + 1, and k below
MAX_CONTINUE_CONTEXTS, volf_read_publish_attempt sets num_continue_contexts
to k and loads the k texts in index order; the entries above keep what the
slot held. -/
theorem continue_texts_reload_below_five (m : nvs_open_mode_t) (att : volf_publish_attempt)
    (l a : Nat) (s : State) (texts : List String) (hf : s.faults = [])
    (hlen : MAX_CONTINUE_CONTEXTS ≤ att.continue_contexts.length)
    (hk : texts.length < MAX_CONTINUE_CONTEXTS)
    (hp : ∀ i v, texts[i]? = some v →
      s.nvs.lookup (snprintf MAX_KEY_SIZE (ERROR_CONTINUE_KEY_TEMPLATE l a (i + 1)))
        = some (nvs_value.str v) ∧ v.utf8ByteSize < MAX_ERROR_CONTEXT_SIZE)
    (ha : s.nvs.lookup
      (snprintf MAX_KEY_SIZE (ERROR_CONTINUE_KEY_TEMPLATE l a (texts.length + 1))) = none) :
    (volf_read_publish_attempt (some m) att l a s).1.num_continue_contexts = texts.length ∧
    (volf_read_publish_attempt (some m) att l a s).1.continue_contexts
      = texts ++ att.continue_contexts.drop texts.length := by
  have ht : leading_continue_texts s.nvs l a MAX_CONTINUE_CONTEXTS 1 = texts := by
    apply leading_continue_texts_eq _ _ _ _ _ _ hk
    · intro i v hv
      rw [Nat.add_comm 1 i]
      exact stored_text_of_lookup _ _ _ (hp i v hv).1 (hp i v hv).2
    · rw [Nat.add_comm 1 texts.length]
      exact stored_text_absent _ _ ha
  rw [volf_read_publish_attempt_eq m att l a s hf hlen]
  unfold reloaded_attempt
  dsimp only
  rw [ht, if_pos hk]
  exact ⟨rfl, rfl⟩

theorem continue_texts_reload_below_five_witness :
    (volf_read_publish_attempt (some nvs_open_mode_t.NVS_READONLY) volf_publish_attempt.zero 1 1
      (power_on (one_attempt_store 4) 10)).1.num_continue_contexts = 4 ∧
    (volf_read_publish_attempt (some nvs_open_mode_t.NVS_READONLY) volf_publish_attempt.zero 1 1
      (power_on (one_attempt_store 4) 10)).1.continue_contexts = ["c1", "c2", "c3", "c4", ""] :=
  continue_texts_reload_below_five nvs_open_mode_t.NVS_READONLY volf_publish_attempt.zero 1 1
    (power_on (one_attempt_store 4) 10) ["c1", "c2", "c3", "c4"] rfl (by decide) (by decide)
    (by
      intro i v hv
      match i, hv with
      | 0, hv => cases hv; decide
      | 1, hv => cases hv; decide
      | 2, hv => cases hv; decide
      | 3, hv => cases hv; decide
      | _ + 4, hv => cases hv)
    (by decide)

/-- C26 (the code at the failing input). With texts stored at the continue
indices 1..5 of attempt 1 of log 1, volf_read_publish_attempt loads the five
texts but never assigns num_continue_contexts: a zero-initialised slot keeps
the count 0, and a slot that held the count 2 keeps 2. -/
theorem five_continue_texts_leave_count_unassigned :
    (volf_read_publish_attempt (some nvs_open_mode_t.NVS_READONLY) volf_publish_attempt.zero 1 1
      (power_on (one_attempt_store 5) 10)).1.continue_contexts
        = ["c1", "c2", "c3", "c4", "c5"] ∧
    (volf_read_publish_attempt (some nvs_open_mode_t.NVS_READONLY) volf_publish_attempt.zero 1 1
      (power_on (one_attempt_store 5) 10)).1.num_continue_contexts = 0 ∧
    (volf_read_publish_attempt (some nvs_open_mode_t.NVS_READONLY)
      { volf_publish_attempt.zero with num_continue_contexts := 2 } 1 1
      (power_on (one_attempt_store 5) 10)).1.num_continue_contexts = 2 ∧
    (volf_read_publish_attempt (some nvs_open_mode_t.NVS_READONLY) volf_publish_attempt.zero 1 1
      (power_on (one_attempt_store 4) 10)).1.num_continue_contexts = 4 := by
  decide

theorem list_set_self {α : Type} (xs : List α) (i : Nat) (x : α) (h : xs[i]? = some x) :
    xs.set i x = xs := by
  induction xs generalizing i with
  | nil => rfl
  | cons y ys ih =>
    cases i with
    | zero =>
      simp at h
      subst h
      rfl
    | succ i =>
      simp at h
      simp [ih i h]

theorem zero_attempt_contexts :
    MAX_CONTINUE_CONTEXTS ≤ volf_publish_attempt.zero.continue_contexts.length := by
  decide

/-- The inner loop of volf_read_errors in closed form, for a log slot whose
attempts from `p` on are still zero. -/
theorem read_publish_attempts_eq (m : nvs_open_mode_t) (l idx : Nat) (n p : Nat) (s : State)
    (hf : s.faults = []) (log : volf_error_log) (pre : List volf_publish_attempt) (k : Nat)
    (hlog : s.loaded_errors.error_logs[idx]? = some log)
    (hpa : log.publish_attempts = pre ++ List.replicate k volf_publish_attempt.zero)
    (hp : pre.length + 1 = p) (hn : n ≤ k) :
    read_publish_attempts (some m) l idx n p s =
      { s with loaded_errors :=
          { s.loaded_errors with
            error_logs := s.loaded_errors.error_logs.set idx
              { log with
                publish_attempts :=
                  pre ++ (List.range' p n).map
                      (fun q => reloaded_attempt s.nvs l q volf_publish_attempt.zero) ++
                    List.replicate (k - n) volf_publish_attempt.zero } } } := by
  induction n generalizing p s log pre k with
  | zero =>
    simp only [read_publish_attempts, List.range'_zero, List.map_nil, List.append_nil,
      Nat.sub_zero, ← hpa]
    rw [list_set_self _ _ _ hlog]
  | succ n ih =>
    obtain ⟨k, rfl⟩ : ∃ k', k = k' + 1 := ⟨k - 1, by omega⟩
    have hp1 : p - 1 = pre.length := by omega
    have hget : log.publish_attempts[p - 1]? = some volf_publish_attempt.zero := by
      rw [hpa, hp1, List.getElem?_append_right (Nat.le_refl _), Nat.sub_self]
      simp [List.replicate_succ]
    simp only [read_publish_attempts, hlog, hget]
    rw [volf_read_publish_attempt_eq m _ l p s hf zero_attempt_contexts]
    dsimp only
    generalize hatt : reloaded_attempt s.nvs l p volf_publish_attempt.zero = att
    have hidx : idx < s.loaded_errors.error_logs.length := by
      rcases Nat.lt_or_ge idx s.loaded_errors.error_logs.length with h | h
      · exact h
      · rw [List.getElem?_eq_none h] at hlog
        cases hlog
    have hset : log.publish_attempts.set (p - 1) att
        = (pre ++ [att]) ++ List.replicate k volf_publish_attempt.zero := by
      rw [hpa, hp1]
      simp [List.replicate_succ]
    refine (ih (p + 1) _ ?_ (volf_error_log.mk (log.publish_attempts.set (p - 1) att)
      log.num_publish_attempts) (pre ++ [att]) k ?_ hset ?_ ?_).trans ?_
    · exact hf
    · simp [hidx]
    · simp
      omega
    · omega
    · simp [List.range'_succ, hatt]

theorem nvs_get_u8_count_some (m : nvs_open_mode_t) (l : Nat) (s : State) (hf : s.faults = [])
    (v : Nat) (h : stored_attempt_count s.nvs l = some v) :
    nvs_get_u8 (some m) (snprintf MAX_KEY_SIZE (PUBLISH_ATTEMPT_COUNT_KEY_TEMPLATE l)) s
      = (Except.ok v, s) := by
  unfold stored_attempt_count at h
  rw [nvs_get_u8_ok m _ s hf]
  generalize List.lookup _ s.nvs = o at h
  rcases o with _ | ⟨w | w | w⟩
  · cases h
  · cases h
    rfl
  · cases h
  · cases h

theorem nvs_get_u8_count_none (m : nvs_open_mode_t) (l : Nat) (s : State) (hf : s.faults = [])
    (h : stored_attempt_count s.nvs l = none) :
    ∃ e, nvs_get_u8 (some m) (snprintf MAX_KEY_SIZE (PUBLISH_ATTEMPT_COUNT_KEY_TEMPLATE l)) s
      = (Except.error e, s) := by
  unfold stored_attempt_count at h
  rw [nvs_get_u8_ok m _ s hf]
  generalize List.lookup _ s.nvs = o at h
  rcases o with _ | ⟨w | w | w⟩
  · exact ⟨ESP_ERR_NVS_NOT_FOUND, rfl⟩
  · cases h
  · exact ⟨ESP_ERR_NVS_TYPE_MISMATCH, rfl⟩
  · exact ⟨ESP_ERR_NVS_TYPE_MISMATCH, rfl⟩

theorem readable_logs_zero (st : Store) (l : Nat) : readable_logs st 0 l = [] := rfl

theorem readable_logs_succ_some (st : Store) (n l v : Nat)
    (h : stored_attempt_count st l = some v) :
    readable_logs st (n + 1) l = l :: readable_logs st n (l + 1) := by
  unfold readable_logs
  rw [List.range'_succ, List.filter_cons_of_pos (by rw [h]; rfl)]

theorem readable_logs_succ_none (st : Store) (n l : Nat)
    (h : stored_attempt_count st l = none) :
    readable_logs st (n + 1) l = readable_logs st n (l + 1) := by
  unfold readable_logs
  rw [List.range'_succ, List.filter_cons_of_neg (by rw [h]; simp)]

theorem readable_logs_length_le (st : Store) (n l : Nat) :
    (readable_logs st n l).length ≤ n := by
  unfold readable_logs
  exact (List.length_filter_le _ _).trans (by simp)

/-- The outer loop of volf_read_errors in closed form, when no log holds too
many attempts and the slots from `idx` on are still zero. -/
theorem read_error_logs_eq (m : nvs_open_mode_t) (n l idx : Nat) (s : State)
    (hf : s.faults = []) (hx : no_excess s.nvs n l = true) (pre : List volf_error_log) (k : Nat)
    (hlogs : s.loaded_errors.error_logs = pre ++ List.replicate k volf_error_log.zero)
    (hidx : pre.length = idx) (hn : n ≤ k) (hi : idx + n < 256)
    (hnum : s.loaded_errors.num_error_logs + n < 256) :
    read_error_logs (some m) n l idx s =
      { s with loaded_errors :=
          { error_logs :=
              pre ++ (readable_logs s.nvs n l).map
                  (fun i => reloaded_log s.nvs i ((stored_attempt_count s.nvs i).getD 0)) ++
                List.replicate (k - (readable_logs s.nvs n l).length) volf_error_log.zero,
            num_error_logs :=
              s.loaded_errors.num_error_logs + (readable_logs s.nvs n l).length } } := by
  induction n generalizing l idx s pre k with
  | zero =>
    simp only [read_error_logs, readable_logs_zero, List.map_nil, List.append_nil,
      List.length_nil, Nat.sub_zero, Nat.add_zero, ← hlogs]
  | succ n ih =>
    have hx' := hx
    simp only [no_excess, Bool.and_eq_true] at hx'
    cases hc : stored_attempt_count s.nvs l with
    | none =>
      obtain ⟨e, he⟩ := nvs_get_u8_count_none m l s hf hc
      simp only [read_error_logs, he]
      rw [ih (l + 1) idx s hf hx'.2 pre k hlogs hidx (by omega) (by omega) (by omega),
        readable_logs_succ_none _ _ _ hc]
    | some v =>
      have hv : v ≤ MAX_PUBLISH_ATTEMPTS := no_excess_bound s.nvs (n + 1) l l v hx
        (Nat.le_refl _) (by omega) hc
      obtain ⟨k, rfl⟩ : ∃ k', k = k' + 1 := ⟨k - 1, by omega⟩
      have hget : s.loaded_errors.error_logs[idx]? = some volf_error_log.zero := by
        rw [hlogs, ← hidx, List.getElem?_append_right (Nat.le_refl _), Nat.sub_self]
        simp [List.replicate_succ]
      have hil : idx < s.loaded_errors.error_logs.length := by
        rw [hlogs, ← hidx]
        simp
      simp only [read_error_logs, nvs_get_u8_count_some m l s hf v hc, gt_iff_lt,
        Nat.not_lt.mpr hv, if_false]
      rw [read_publish_attempts_eq m l idx v 1 s hf volf_error_log.zero [] MAX_PUBLISH_ATTEMPTS
        hget rfl rfl hv]
      have hmod1 : (idx + 1) % 256 = idx + 1 := Nat.mod_eq_of_lt (by omega)
      have hmod2 : (s.loaded_errors.num_error_logs + 1) % 256
          = s.loaded_errors.num_error_logs + 1 := Nat.mod_eq_of_lt (by omega)
      simp only [set_num_publish_attempts, List.getElem?_set_self hil, List.set_set, hmod1,
        hmod2, List.nil_append]
      have hset : s.loaded_errors.error_logs.set idx (reloaded_log s.nvs l v)
          = (pre ++ [reloaded_log s.nvs l v]) ++ List.replicate k volf_error_log.zero := by
        rw [hlogs, ← hidx]
        simp [List.replicate_succ]
      refine (ih (l + 1) (idx + 1) _ ?_ ?_ (pre ++ [reloaded_log s.nvs l v]) k ?_ ?_ ?_ ?_
        ?_).trans ?_
      · exact hf
      · exact hx'.2
      · exact hset
      · simp [hidx]
      · omega
      · omega
      · show s.loaded_errors.num_error_logs + 1 + n < 256
        omega
      · rw [readable_logs_succ_some _ _ _ _ hc]
        simp [hc, Nat.add_assoc, Nat.add_comm 1]

/-- The reconstruction pass over a zero ledger in closed form. -/
theorem volf_read_errors_fresh (s : State) (hf : s.faults = [])
    (hz : s.loaded_errors.error_logs = volf_errors.zero.error_logs)
    (hL : s.error_log_count ≤ MAX_ERROR_LOGS)
    (hx : no_excess s.nvs s.error_log_count 1 = true) :
    volf_read_errors s = { s with loaded_errors := reloaded_ledger s.nvs s.error_log_count } := by
  unfold volf_read_errors
  simp only [nvs_open_ok _ _ (show ({ s with loaded_errors :=
    { s.loaded_errors with num_error_logs := 0 } } : State).faults = [] from hf)]
  unfold MAX_ERROR_LOGS at hL
  refine (read_error_logs_eq nvs_open_mode_t.NVS_READONLY s.error_log_count 1 0 _ ?_ ?_ []
    MAX_ERROR_LOGS ?_ rfl hL ?_ ?_).trans ?_
  · exact hf
  · exact hx
  · exact hz
  · omega
  · show 0 + s.error_log_count < 256
    omega
  · simp [reloaded_ledger]

/-- The state volf_error_init leaves when it runs over a zero ledger and a
store with a log count within the array and no log of too many attempts. -/
theorem volf_error_init_reload (s : State) (L : Nat) (hf : s.faults = [])
    (hz : s.loaded_errors.error_logs = volf_errors.zero.error_logs)
    (hl : s.nvs.lookup ERROR_LOG_COUNT_KEY = some (nvs_value.u8 L)) (hL : 0 < L)
    (hL5 : L ≤ MAX_ERROR_LOGS) (hx : no_excess s.nvs L 1 = true) :
    volf_error_init s =
      { s with
        error_log_count := L,
        publish_attempt_count :=
          ((stored_attempt_count s.nvs L).getD s.publish_attempt_count + 1) % 256,
        initialized := true,
        loaded_errors := reloaded_ledger s.nvs L } := by
  have hr := volf_read_errors_fresh { s with error_log_count := L } hf hz hL5 hx
  simp only [volf_error_init, nvs_open_ok _ _ hf, nvs_get_u8_ok _ _ _ hf, hl, ESP_OK, ne_eq,
    not_true_eq_false, if_false, gt_iff_lt, hL, if_true]
  rw [hr]
  have ht : ({ s with error_log_count := L, loaded_errors := reloaded_ledger s.nvs L }
      : State).faults = [] := hf
  simp only [nvs_get_u8_ok _ _ _ ht]
  unfold stored_attempt_count
  generalize List.lookup (snprintf MAX_KEY_SIZE (PUBLISH_ATTEMPT_COUNT_KEY_TEMPLATE L)) s.nvs = o
  rcases o with _ | ⟨w | w | w⟩ <;> rfl

theorem readable_logs_mem (st : Store) (n l i : Nat) (h : i ∈ readable_logs st n l) :
    l ≤ i ∧ i < l + n ∧ ∃ v, stored_attempt_count st i = some v := by
  unfold readable_logs at h
  rw [List.mem_filter, List.mem_range'_1] at h
  refine ⟨h.1.1, h.1.2, ?_⟩
  cases hc : stored_attempt_count st i with
  | none =>
    rw [hc] at h
    simp at h
  | some v => exact ⟨v, rfl⟩

theorem readable_logs_last (st : Store) (n l v : Nat)
    (h : stored_attempt_count st (l + n) = some v) :
    readable_logs st (n + 1) l = readable_logs st n l ++ [l + n] := by
  unfold readable_logs
  rw [List.range'_1_concat, List.filter_append]
  congr 1
  rw [List.filter_cons_of_pos (by rw [h]; rfl)]
  rfl

/-- The slot of the reconstructed ledger that belongs to the readable log
at position `j`. -/
theorem reloaded_ledger_slot (st : Store) (L j l n : Nat)
    (hj : (readable_logs st L 1)[j]? = some l) (hn : stored_attempt_count st l = some n) :
    (reloaded_ledger st L).error_logs[j]? = some (reloaded_log st l n) := by
  have hlt : j < (readable_logs st L 1).length := by
    rcases Nat.lt_or_ge j (readable_logs st L 1).length with h | h
    · exact h
    · rw [List.getElem?_eq_none h] at hj
      cases hj
  unfold reloaded_ledger
  dsimp only
  rw [List.getElem?_append_left (by simpa using hlt), List.getElem?_map, hj]
  simp [hn]

/-- The attempt `q` of a reconstructed log of `n` attempts. -/
theorem reloaded_log_attempt (st : Store) (l n q : Nat) (h1 : 1 ≤ q) (h2 : q ≤ n) :
    (reloaded_log st l n).publish_attempts[q - 1]?
      = some (reloaded_attempt st l q volf_publish_attempt.zero) := by
  unfold reloaded_log
  dsimp only
  rw [List.getElem?_append_left (by simp; omega), List.getElem?_map,
    List.getElem?_range' 1 1 (by omega : q - 1 < n)]
  simp
  congr 1
  omega

/-- An attempt of which the store holds no runtime, no retry or abort text
and no first continue text is reconstructed as the zero attempt. -/
theorem reloaded_attempt_absent (st : Store) (l a : Nat)
    (h1 : st.lookup (snprintf MAX_KEY_SIZE (PUBLISH_ATTEMPT_RUNTIME_KEY_TEMPLATE l a)) = none)
    (h2 : st.lookup (snprintf MAX_KEY_SIZE (ERROR_RETRY_KEY_TEMPLATE l a)) = none)
    (h3 : st.lookup (snprintf MAX_KEY_SIZE (ERROR_ABORT_KEY_TEMPLATE l a)) = none)
    (h4 : st.lookup (snprintf MAX_KEY_SIZE (ERROR_CONTINUE_KEY_TEMPLATE l a 1)) = none) :
    reloaded_attempt st l a volf_publish_attempt.zero = volf_publish_attempt.zero := by
  have ht : leading_continue_texts st l a MAX_CONTINUE_CONTEXTS 1 = [] := by
    show leading_continue_texts st l a (4 + 1) 1 = []
    simp only [leading_continue_texts, stored_text_absent _ _ h4]
  unfold reloaded_attempt
  rw [ht, stored_text_absent _ _ h2, stored_text_absent _ _ h3]
  unfold stored_runtime
  rw [h1]
  rfl

/-- Where the reconstruction of the logs agrees with the specification: on a
fresh boot over a store whose log count L is within the array and in which no
log holds too many attempts, the pass neither wipes nor leaves the array, the
number of reconstructed logs is the number of readable attempt counts among
the logs 1..L, and the slot at position j holds the j-th readable log, with
its stored attempt count and its attempts read from the keys of that log. -/
theorem readable_logs_reload_in_order (st : Store) (p L : Nat)
    (hl : st.lookup ERROR_LOG_COUNT_KEY = some (nvs_value.u8 L)) (hL : 0 < L)
    (hL5 : L ≤ MAX_ERROR_LOGS) (hx : no_excess st L 1 = true) :
    (volf_error_init (power_on st p)).loaded_errors.num_error_logs
      = (readable_logs st L 1).length ∧
    (∀ j l n : Nat, (readable_logs st L 1)[j]? = some l → stored_attempt_count st l = some n →
      ∃ log : volf_error_log,
        (volf_error_init (power_on st p)).loaded_errors.error_logs[j]? = some log ∧
        log.num_publish_attempts = n ∧
        ∀ q, 1 ≤ q → q ≤ n →
          log.publish_attempts[q - 1]?
            = some (reloaded_attempt st l q volf_publish_attempt.zero)) ∧
    (volf_error_init (power_on st p)).nvs = st ∧
    (volf_error_init (power_on st p)).error_log_count = L ∧
    (volf_error_init (power_on st p)).out_of_bounds = false := by
  rw [volf_error_init_reload (power_on st p) L rfl rfl hl hL hL5 hx]
  refine ⟨rfl, ?_, rfl, rfl, rfl⟩
  intro j l n hj hn
  exact ⟨reloaded_log st l n, reloaded_ledger_slot st L j l n hj hn, rfl,
    fun q h1 h2 => reloaded_log_attempt st l n q h1 h2⟩

theorem readable_logs_reload_in_order_witness :
    (volf_error_init (power_on crash_store 10)).loaded_errors.num_error_logs
      = (readable_logs crash_store 2 1).length :=
  (readable_logs_reload_in_order crash_store 10 2 (by decide) (by decide) (by decide)
    (by decide)).1

/-- C27 (the code at the failing input). The store holds the log count 7, no
attempt count for log 1 and at most three attempts for each of the logs 2 to
7: six logs are readable. The pass counts six logs, but the array has five
slots, which hold the logs 2 to 6; log 7 is written outside the array. -/
theorem sixth_readable_log_leaves_the_array :
    no_excess seven_logs_store 7 1 = true ∧
    readable_logs seven_logs_store 7 1 = [2, 3, 4, 5, 6, 7] ∧
    (volf_error_init (power_on seven_logs_store 10)).loaded_errors.num_error_logs = 6 ∧
    (volf_error_init (power_on seven_logs_store 10)).loaded_errors.error_logs.map
        volf_error_log.num_publish_attempts = [1, 2, 3, 1, 2] ∧
    (volf_error_init (power_on seven_logs_store 10)).out_of_bounds = true := by
  decide

/-- C21 (amended). For a store whose log count L is between 1 and
MAX_ERROR_LOGS, in which no log of 1..L holds more than MAX_PUBLISH_ATTEMPTS
attempts, and which holds for log L the attempt count a >= 1 but neither the
runtime, the retry text, the abort text nor the first continue text of
attempt a: volf_error_init on a fresh boot completes, changes no key, stays
inside the arrays, leaves the cursors (L, a + 1, 0), and reconstructs attempt
a of the last loaded log as the zero attempt (runtime 0, empty texts, no
continue context). Every stored attempt q of a readable log l is
reconstructed in the slot of that log with the runtime and the retry and
abort texts its keys hold (0 or empty without one), and, when it has fewer
than MAX_CONTINUE_CONTEXTS leading continue texts, with their number and with
these texts in index order. -/
theorem crashed_attempt_reloads_as_zero (st : Store) (p L a : Nat)
    (hl : st.lookup ERROR_LOG_COUNT_KEY = some (nvs_value.u8 L)) (hL : 1 ≤ L)
    (hL5 : L ≤ MAX_ERROR_LOGS) (hx : no_excess st L 1 = true)
    (hc : stored_attempt_count st L = some a) (ha : 1 ≤ a)
    (h1 : st.lookup (snprintf MAX_KEY_SIZE (PUBLISH_ATTEMPT_RUNTIME_KEY_TEMPLATE L a)) = none)
    (h2 : st.lookup (snprintf MAX_KEY_SIZE (ERROR_RETRY_KEY_TEMPLATE L a)) = none)
    (h3 : st.lookup (snprintf MAX_KEY_SIZE (ERROR_ABORT_KEY_TEMPLATE L a)) = none)
    (h4 : st.lookup (snprintf MAX_KEY_SIZE (ERROR_CONTINUE_KEY_TEMPLATE L a 1)) = none) :
    (volf_error_init (power_on st p)).initialized = true ∧
    (volf_error_init (power_on st p)).nvs = st ∧
    (volf_error_init (power_on st p)).cursors = (L, a + 1, 0) ∧
    (volf_error_init (power_on st p)).out_of_bounds = false ∧
    (∃ log : volf_error_log,
      (volf_error_init (power_on st p)).loaded_errors.error_logs[
          (volf_error_init (power_on st p)).loaded_errors.num_error_logs - 1]? = some log ∧
      log.num_publish_attempts = a ∧
      log.publish_attempts[a - 1]? = some volf_publish_attempt.zero) ∧
    (∀ j l n q : Nat, (readable_logs st L 1)[j]? = some l → stored_attempt_count st l = some n →
      1 ≤ q → q ≤ n →
      ∃ (log : volf_error_log) (att : volf_publish_attempt),
        (volf_error_init (power_on st p)).loaded_errors.error_logs[j]? = some log ∧
        log.num_publish_attempts = n ∧
        log.publish_attempts[q - 1]? = some att ∧
        att.runtime = (stored_runtime st l q).getD 0 ∧
        att.retry_context
          = (stored_text st (snprintf MAX_KEY_SIZE (ERROR_RETRY_KEY_TEMPLATE l q))).getD "" ∧
        att.abort_context
          = (stored_text st (snprintf MAX_KEY_SIZE (ERROR_ABORT_KEY_TEMPLATE l q))).getD "" ∧
        ((leading_continue_texts st l q MAX_CONTINUE_CONTEXTS 1).length < MAX_CONTINUE_CONTEXTS →
          att.num_continue_contexts
            = (leading_continue_texts st l q MAX_CONTINUE_CONTEXTS 1).length ∧
          att.continue_contexts.take (leading_continue_texts st l q MAX_CONTINUE_CONTEXTS 1).length
            = leading_continue_texts st l q MAX_CONTINUE_CONTEXTS 1)) := by
  have ha3 : a ≤ MAX_PUBLISH_ATTEMPTS := no_excess_bound st L 1 L a hx hL (by omega) hc
  rw [volf_error_init_reload (power_on st p) L rfl rfl hl hL hL5 hx]
  refine ⟨rfl, rfl, ?_, rfl, ?_, ?_⟩
  · show (L, ((stored_attempt_count st L).getD 0 + 1) % 256, 0) = (L, a + 1, 0)
    rw [hc]
    unfold MAX_PUBLISH_ATTEMPTS at ha3
    simp only [Option.getD_some]
    rw [Nat.mod_eq_of_lt (by omega)]
  · obtain ⟨L', rfl⟩ : ∃ L', L = L' + 1 := ⟨L - 1, by omega⟩
    have hlast : readable_logs st (L' + 1) 1 = readable_logs st L' 1 ++ [L' + 1] := by
      rw [readable_logs_last st L' 1 a (by rw [Nat.add_comm]; exact hc), Nat.add_comm 1 L']
    refine ⟨reloaded_log st (L' + 1) a, ?_, rfl, ?_⟩
    · show (reloaded_ledger st (L' + 1)).error_logs[
        (reloaded_ledger st (L' + 1)).num_error_logs - 1]? = _
      apply reloaded_ledger_slot st (L' + 1) _ (L' + 1) a _ hc
      show (readable_logs st (L' + 1) 1)[(readable_logs st (L' + 1) 1).length - 1]? = _
      rw [hlast]
      simp
    · rw [reloaded_log_attempt st (L' + 1) a a ha (Nat.le_refl _),
        reloaded_attempt_absent st (L' + 1) a h1 h2 h3 h4]
  · intro j l n q hj hn hq1 hq2
    refine ⟨reloaded_log st l n, reloaded_attempt st l q volf_publish_attempt.zero,
      reloaded_ledger_slot st L j l n hj hn, rfl, reloaded_log_attempt st l n q hq1 hq2,
      rfl, rfl, rfl, ?_⟩
    intro hlt
    unfold reloaded_attempt
    dsimp only
    rw [if_pos hlt, List.take_left]
    exact ⟨rfl, rfl⟩

theorem crashed_attempt_reloads_as_zero_witness :
    (volf_error_init (power_on crash_store 10)).cursors = (2, 3, 0) ∧
    (∃ log : volf_error_log,
      (volf_error_init (power_on crash_store 10)).loaded_errors.error_logs[
          (volf_error_init (power_on crash_store 10)).loaded_errors.num_error_logs - 1]?
        = some log ∧
      log.num_publish_attempts = 2 ∧
      log.publish_attempts[2 - 1]? = some volf_publish_attempt.zero) :=
  ⟨(crashed_attempt_reloads_as_zero crash_store 10 2 2 (by decide) (by decide) (by decide)
      (by decide) (by decide) (by decide) (by decide) (by decide) (by decide)
      (by decide)).2.2.1,
   (crashed_attempt_reloads_as_zero crash_store 10 2 2 (by decide) (by decide) (by decide)
      (by decide) (by decide) (by decide) (by decide) (by decide) (by decide)
      (by decide)).2.2.2.2.1⟩

/-- C21 (counterexample). The store holds the log count 2 and for log 2 the
attempt count 1 without any other key of that attempt, but log 1 claims four
attempts: the pass takes the wipe path at log 1 and stops, so no log is
reconstructed, attempt 1 of log 2 included, and the cursors on return are
(0, 1, 0). -/
theorem crashed_attempt_behind_excess_not_reloaded :
    crash_store_with_excess.lookup ERROR_LOG_COUNT_KEY = some (nvs_value.u8 2) ∧
    stored_attempt_count crash_store_with_excess 2 = some 1 ∧
    crash_store_with_excess.lookup "PAR_2_1" = none ∧
    crash_store_with_excess.lookup "ER_2_1" = none ∧
    crash_store_with_excess.lookup "EA_2_1" = none ∧
    crash_store_with_excess.lookup "EC_2_1_1" = none ∧
    (volf_error_init (power_on crash_store_with_excess 10)).loaded_errors.num_error_logs = 0 ∧
    (volf_error_init (power_on crash_store_with_excess 10)).loaded_errors.error_logs
      = volf_errors.zero.error_logs ∧
    (volf_error_init (power_on crash_store_with_excess 10)).cursors = (0, 1, 0) := by
  decide

theorem ledger_shape_set (e : volf_errors) (idx : Nat) (log : volf_error_log)
    (h : ledger_shape e) (hl : log.publish_attempts.length = MAX_PUBLISH_ATTEMPTS) :
    ledger_shape { e with error_logs := e.error_logs.set idx log } := by
  refine ⟨by simpa using h.1, ?_⟩
  intro x hx
  rcases List.mem_or_eq_of_mem_set hx with h1 | h1
  · exact h.2 x h1
  · rw [h1]
    exact hl

theorem ledger_shape_get (e : volf_errors) (idx : Nat) (h : ledger_shape e)
    (hi : idx < MAX_ERROR_LOGS) :
    ∃ log, e.error_logs[idx]? = some log ∧
      log.publish_attempts.length = MAX_PUBLISH_ATTEMPTS := by
  have hlt : idx < e.error_logs.length := by rw [h.1]; exact hi
  refine ⟨e.error_logs[idx], List.getElem?_eq_getElem hlt, h.2 _ (List.getElem_mem hlt)⟩

/-- The inner loop stays inside the arrays when the slot exists and the
attempts read fit the log. -/
theorem read_publish_attempts_shape (h : nvs_handle_t) (l idx : Nat) (n p : Nat) (s : State)
    (hf : s.faults = []) (hs : ledger_shape s.loaded_errors) (hi : idx < MAX_ERROR_LOGS)
    (hp : 1 ≤ p) (hn : p - 1 + n ≤ MAX_PUBLISH_ATTEMPTS) :
    (read_publish_attempts h l idx n p s).out_of_bounds = s.out_of_bounds ∧
    ledger_shape (read_publish_attempts h l idx n p s).loaded_errors := by
  induction n generalizing p s with
  | zero => exact ⟨rfl, hs⟩
  | succ n ih =>
    obtain ⟨log, hlog, hlen⟩ := ledger_shape_get _ idx hs hi
    have hlt : p - 1 < log.publish_attempts.length := by rw [hlen]; omega
    simp only [read_publish_attempts, hlog, List.getElem?_eq_getElem hlt]
    have h1 := volf_read_publish_attempt_snd h (log.publish_attempts[p - 1]) l p s hf
    generalize volf_read_publish_attempt h (log.publish_attempts[p - 1]) l p s = q at h1
    obtain ⟨a1, s1⟩ := q
    dsimp only at h1 ⊢
    subst h1
    refine ih (p + 1) _ hf ?_ (by omega) (by omega)
    exact ledger_shape_set _ idx _ hs (by simpa using hlen)

theorem set_num_publish_attempts_shape (idx n : Nat) (s : State)
    (hs : ledger_shape s.loaded_errors) (hi : idx < MAX_ERROR_LOGS) :
    (set_num_publish_attempts idx n s).out_of_bounds = s.out_of_bounds ∧
    ledger_shape (set_num_publish_attempts idx n s).loaded_errors := by
  obtain ⟨log, hlog, hlen⟩ := ledger_shape_get _ idx hs hi
  unfold set_num_publish_attempts
  rw [hlog]
  exact ⟨rfl, ledger_shape_set _ idx _ hs hlen⟩

/-- The outer loop stays inside the arrays when the logs left to read fit
the slots left, and never raises the log count. -/
theorem read_error_logs_shape (n l idx : Nat) (s : State) (hf : s.faults = [])
    (hs : ledger_shape s.loaded_errors) (ho : s.out_of_bounds = false)
    (hi : idx + n ≤ MAX_ERROR_LOGS) :
    (read_error_logs (some nvs_open_mode_t.NVS_READONLY) n l idx s).out_of_bounds = false ∧
    ledger_shape (read_error_logs (some nvs_open_mode_t.NVS_READONLY) n l idx s).loaded_errors ∧
    (read_error_logs (some nvs_open_mode_t.NVS_READONLY) n l idx s).error_log_count
      ≤ s.error_log_count := by
  induction n generalizing l idx s with
  | zero => exact ⟨ho, hs, Nat.le_refl _⟩
  | succ n ih =>
    simp only [read_error_logs, nvs_get_u8_ok nvs_open_mode_t.NVS_READONLY _ s hf]
    split
    · exact ih _ _ _ hf hs ho (by omega)
    · rename_i v hv
      by_cases hgt : v > MAX_PUBLISH_ATTEMPTS
      · rw [if_pos hgt, volf_clear_and_close_refused _ s hf (by decide)]
        exact ⟨ho, hs, Nat.zero_le _⟩
      · rw [if_neg hgt]
        have hidx : idx < MAX_ERROR_LOGS := by omega
        have hp := read_publish_attempts_shape (some nvs_open_mode_t.NVS_READONLY) l idx v 1 s
          hf hs hidx (Nat.le_refl _) (by omega)
        have hpc := read_publish_attempts_core (some nvs_open_mode_t.NVS_READONLY) l idx v 1 s hf
        generalize read_publish_attempts (some nvs_open_mode_t.NVS_READONLY) l idx v 1 s = s1
          at hp hpc
        have hq := set_num_publish_attempts_shape idx v s1 hp.2 hidx
        have hqc := set_num_publish_attempts_core idx v s1
        generalize set_num_publish_attempts idx v s1 = s2 at hq hqc
        have hf2 : s2.faults = [] := by rw [core_faults hqc.1, core_faults hpc.1]; exact hf
        have he2 : s2.error_log_count = s.error_log_count :=
          (congrArg (fun c => c.1) hqc.2).trans (congrArg (fun c => c.1) hpc.2)
        have hmod : (idx + 1) % 256 = idx + 1 := by
          unfold MAX_ERROR_LOGS at hi
          exact Nat.mod_eq_of_lt (by omega)
        rw [hmod]
        have := ih (l + 1) (idx + 1)
          { s2 with loaded_errors :=
              { s2.loaded_errors with
                num_error_logs := (s2.loaded_errors.num_error_logs + 1) % 256 } }
          hf2 ⟨hq.2.1, hq.2.2⟩ (by rw [← ho, ← hp.1, ← hq.1]) (by omega)
        exact ⟨this.1, this.2.1, this.2.2.trans (Nat.le_of_eq he2)⟩

theorem volf_read_errors_bounded (s : State) (hf : s.faults = [])
    (hs : ledger_shape s.loaded_errors) (ho : s.out_of_bounds = false)
    (hL : s.error_log_count ≤ MAX_ERROR_LOGS) :
    (volf_read_errors s).out_of_bounds = false ∧
    ledger_shape (volf_read_errors s).loaded_errors ∧
    (volf_read_errors s).error_log_count ≤ s.error_log_count := by
  unfold volf_read_errors
  simp only [nvs_open_ok _ _ (show ({ s with loaded_errors :=
    { s.loaded_errors with num_error_logs := 0 } } : State).faults = [] from hf)]
  exact read_error_logs_shape s.error_log_count 1 0
    { s with loaded_errors := { s.loaded_errors with num_error_logs := 0 } } hf
    ⟨hs.1, hs.2⟩ ho (by omega)

theorem volf_error_init_bounded (s : State) (h : log_count_bounded s) :
    log_count_bounded (volf_error_init s) := by
  obtain ⟨hf, he, hv, ho, hs⟩ := h
  simp only [volf_error_init, nvs_open_ok _ s hf, nvs_get_u8_ok _ _ s hf, ESP_OK, ne_eq,
    not_true_eq_false, if_false]
  generalize hlk : List.lookup ERROR_LOG_COUNT_KEY s.nvs = o at hv
  rcases o with _ | ⟨v | v | v⟩
  · simp only [if_true]
    exact ⟨hf, he, by rw [hlk]; exact hv, ho, hs⟩
  · have hv5 : v ≤ MAX_ERROR_LOGS := hv v rfl
    dsimp only
    by_cases hpos : v > 0
    · rw [if_pos hpos]
      have hs1 : ({ s with error_log_count := v } : State).faults = [] := hf
      have hc := volf_read_errors_core { s with error_log_count := v } hs1
      have hb := volf_read_errors_bounded { s with error_log_count := v } hs1 hs ho hv5
      generalize volf_read_errors { s with error_log_count := v } = t at hc hb
      have ht : t.faults = [] := (core_faults hc).trans hf
      have hn : t.nvs = s.nvs := core_nvs hc
      simp only [nvs_get_u8_ok _ _ t ht]
      have hle : t.error_log_count ≤ MAX_ERROR_LOGS := hb.2.2.trans hv5
      have hlook : ∀ w, List.lookup ERROR_LOG_COUNT_KEY t.nvs = some (nvs_value.u8 w) →
          w ≤ MAX_ERROR_LOGS := by
        intro w hw
        rw [hn, hlk] at hw
        cases hw
        exact hv5
      split <;> exact ⟨ht, hle, hlook, hb.1, hb.2.1⟩
    · rw [if_neg hpos]
      refine ⟨hf, (show 1 ≤ MAX_ERROR_LOGS by decide), ?_, ho, hs⟩
      intro w hw
      have hw' : List.lookup ERROR_LOG_COUNT_KEY s.nvs = some (nvs_value.u8 w) := hw
      rw [hlk] at hw'
      cases hw'
      exact hv5
  · have hne : ESP_ERR_NVS_TYPE_MISMATCH ≠ ESP_ERR_NVS_NOT_FOUND := by decide
    simp only [hne, if_false]
    show log_count_bounded { (nvs_erase_all _ s).2 with initialized := true }
    rw [nvs_erase_all_ok s hf]
    refine ⟨hf, he, ?_, ho, hs⟩
    intro w hw
    cases hw
  · have hne : ESP_ERR_NVS_TYPE_MISMATCH ≠ ESP_ERR_NVS_NOT_FOUND := by decide
    simp only [hne, if_false]
    show log_count_bounded { (nvs_erase_all _ s).2 with initialized := true }
    rw [nvs_erase_all_ok s hf]
    refine ⟨hf, he, ?_, ho, hs⟩
    intro w hw
    cases hw

theorem lazy_init_bounded (s : State) (h : log_count_bounded s) :
    log_count_bounded (lazy_init s) := by
  unfold lazy_init
  split
  · exact volf_error_init_bounded s h
  · exact h

theorem stored_bounded (e : volf_error_t) (ctx : String) (rc : Int) (s : State)
    (h : log_count_bounded s) : log_count_bounded (stored e ctx rc s) := by
  obtain ⟨hf, he, -, ho, hs⟩ := h
  refine ⟨(stored_faults _ _ _ _).trans hf, ?_, ?_, ?_, ?_⟩
  · rw [stored_error_log_count]
    exact he
  · intro v hv
    rw [lookup_stored_log_count] at hv
    cases hv
    exact he
  · cases e <;> exact ho
  · cases e <;> exact hs

theorem call_handler_bounded (f : Option Nat) (s : State) (h : log_count_bounded s) :
    log_count_bounded (call_handler f s) := by
  cases f
  · exact h
  · exact h

theorem wiped_bounded (s : State) (h : log_count_bounded s) : log_count_bounded (wiped s) := by
  refine ⟨h.1, Nat.zero_le _, ?_, h.2.2.2.1, h.2.2.2.2⟩
  intro v hv
  cases hv

theorem volf_increment_error_log_count_bounded (s : State) (h : log_count_bounded s) :
    log_count_bounded (volf_increment_error_log_count s) := by
  rw [volf_increment_error_log_count_ok s h.1]
  by_cases hw : s.error_log_count + 1 > MAX_ERROR_LOGS
  · rw [if_pos hw]
    exact wiped_bounded s h
  · rw [if_neg hw]
    obtain ⟨hf, he, -, ho, hs⟩ := h
    refine ⟨hf, he, ?_, ho, hs⟩
    intro v hv
    have hv' : (s.nvs.put ERROR_LOG_COUNT_KEY
        (nvs_value.u8 ((s.error_log_count + 1) % 256))).lookup ERROR_LOG_COUNT_KEY
        = some (nvs_value.u8 v) := hv
    rw [lookup_put, if_pos rfl] at hv'
    cases hv'
    unfold MAX_ERROR_LOGS at hw ⊢
    omega

theorem dispatch_bounded (e : volf_error_t) (s : State) (h : log_count_bounded s) :
    log_count_bounded (dispatch e s) := by
  unfold dispatch
  split
  · exact call_handler_bounded _ _ h
  · exact call_handler_bounded _ _ (volf_increment_error_log_count_bounded s h)
  · exact call_handler_bounded _ _ h

theorem volf_handle_error_bounded (e : volf_error_t) (ctx : String) (rc : Int) (s : State)
    (h : log_count_bounded s) : log_count_bounded (volf_handle_error e ctx rc s) := by
  have hl := lazy_init_bounded s h
  by_cases hrc : rc = ESP_OK
  · unfold volf_handle_error
    simp only [hrc, if_true]
    exact hl
  · rw [volf_handle_error_failure e ctx rc s hrc, volf_store_error_context_ok _ _ _ _ hl.1]
    exact dispatch_bounded e _ (stored_bounded e ctx rc _ hl)

theorem zero_ledger_shape : ledger_shape volf_errors.zero := by
  refine ⟨rfl, ?_⟩
  intro log hlog
  have : log = volf_error_log.zero := List.eq_of_mem_replicate hlog
  rw [this]
  rfl

theorem step_bounded (c : ledger_call) (s : State) (h : log_count_bounded s) :
    log_count_bounded (c.step s) := by
  cases c with
  | init => exact volf_error_init_bounded s h
  | handle e ctx rc => exact volf_handle_error_bounded e ctx rc s h
  | clear =>
    show log_count_bounded (volf_clear_and_close none s)
    rw [volf_clear_and_close_null s h.1]
    exact wiped_bounded s h
  | register e f => cases e <;> exact h
  | available => exact lazy_init_bounded s h
  | get =>
    show log_count_bounded (volf_get_errors s).2
    have : (volf_get_errors s).2 = lazy_init s := by
      unfold volf_get_errors volf_errors_available
      dsimp only
      split <;> rfl
    rw [this]
    exact lazy_init_bounded s h
  | reboot =>
    exact ⟨h.1, Nat.zero_le _, h.2.2.1, rfl, zero_ledger_shape⟩
  | elapse t => exact h

theorem run_calls_bounded (cs : List ledger_call) (s : State) (h : log_count_bounded s) :
    log_count_bounded (run_calls cs s) := by
  induction cs generalizing s with
  | nil => exact h
  | cons c cs ih => exact ih _ (step_bounded c s h)

/-- C28. In every state reached from an empty store by a sequence of calls
of volf_error_init, volf_handle_error (any severity, context and status),
volf_clear_errors, volf_register_error_handler, volf_errors_available and
volf_get_errors, of restarts and of waiting, with store operations
succeeding, the in-memory error_log_count is at most MAX_ERROR_LOGS, a
persisted log count is at most MAX_ERROR_LOGS, and no array of the in-memory
ledger has been indexed outside its bounds. -/
theorem log_count_stays_within_array (cs : List ledger_call) (p : Nat) :
    (run_calls cs (power_on [] p)).error_log_count ≤ MAX_ERROR_LOGS ∧
    (∀ v, (run_calls cs (power_on [] p)).nvs.lookup ERROR_LOG_COUNT_KEY
        = some (nvs_value.u8 v) → v ≤ MAX_ERROR_LOGS) ∧
    (run_calls cs (power_on [] p)).out_of_bounds = false := by
  have h0 : log_count_bounded (power_on [] p) := by
    refine ⟨rfl, Nat.zero_le _, ?_, rfl, zero_ledger_shape⟩
    intro v hv
    cases hv
  have h := run_calls_bounded cs (power_on [] p) h0
  exact ⟨h.2.1, h.2.2.1, h.2.2.2.1⟩

theorem log_count_stays_within_array_witness :
    (run_calls
      [ledger_call.handle volf_error_t.ABORT "give-up" 9999, ledger_call.reboot,
       ledger_call.init, ledger_call.handle volf_error_t.ABORT "give-up" 9999]
      (power_on [] 10)).error_log_count ≤ MAX_ERROR_LOGS :=
  (log_count_stays_within_array
    [ledger_call.handle volf_error_t.ABORT "give-up" 9999, ledger_call.reboot,
     ledger_call.init, ledger_call.handle volf_error_t.ABORT "give-up" 9999] 10).1

theorem with_faults_self (s : State) : s.with_faults s.faults = s := by
  cases s
  rfl

theorem unfaulted_succ (k : Nat) (fs : List Int) (h : unfaulted (k + 1) fs = true) :
    fs.headD 0 = 0 ∧ unfaulted k fs.tail = true := by
  cases fs with
  | nil => exact ⟨rfl, by simp [unfaulted]⟩
  | cons f r =>
    simp only [unfaulted, List.take_succ_cons, List.all_cons, Bool.and_eq_true,
      beq_iff_eq] at h
    exact ⟨h.1, h.2⟩

theorem unfaulted_add (a b : Nat) (fs : List Int) (h : unfaulted (a + b) fs = true) :
    unfaulted a fs = true ∧ unfaulted b (fs.drop a) = true := by
  induction a generalizing fs with
  | zero =>
    rw [Nat.zero_add] at h
    exact ⟨by simp [unfaulted], h⟩
  | succ a ih =>
    rw [Nat.add_right_comm] at h
    cases fs with
    | nil => exact ⟨by simp [unfaulted], by simp [unfaulted]⟩
    | cons f r =>
      obtain ⟨h1, h2⟩ := unfaulted_succ _ _ h
      obtain ⟨h3, h4⟩ := ih r h2
      refine ⟨?_, h4⟩
      simp only [unfaulted, List.take_succ_cons, List.all_cons, Bool.and_eq_true, beq_iff_eq]
      exact ⟨h1, h3⟩

theorem headD_drop (k : Nat) (fs : List Int) : (fs.drop k).headD 0 = fs.getD k 0 := by
  induction k generalizing fs with
  | zero => cases fs <;> rfl
  | succ k ih =>
    cases fs with
    | nil => rfl
    | cons f r => simp [ih r]

theorem tail_drop (k : Nat) (fs : List Int) : (fs.drop k).tail = fs.drop (k + 1) := by
  induction k generalizing fs with
  | zero => cases fs <;> rfl
  | succ k ih =>
    cases fs with
    | nil => rfl
    | cons f r => simp [ih r]

theorem take_fault_head (s : State) (h : s.faults.headD 0 = 0) :
    take_fault s = (0, s.with_faults s.faults.tail) := by
  unfold take_fault
  rw [h]
  rfl

theorem nvs_open_head (m : nvs_open_mode_t) (s : State) (h : s.faults.headD 0 = 0) :
    nvs_open m s = (ESP_OK, some m, s.with_faults s.faults.tail) := by
  simp [nvs_open, take_fault_head s h]

theorem nvs_get_u8_head (m : nvs_open_mode_t) (k : String) (s : State)
    (h : s.faults.headD 0 = 0) :
    nvs_get_u8 (some m) k s
      = ((nvs_get_u8 (some m) k (s.with_faults [])).1, s.with_faults s.faults.tail) := by
  simp only [nvs_get_u8, take_fault_head s h, take_fault_nil (s.with_faults []) rfl]
  simp only [ne_eq, not_true_eq_false, if_false]
  have hn : (s.with_faults []).nvs = s.nvs := rfl
  have hn2 : (s.with_faults s.faults.tail).nvs = s.nvs := rfl
  rw [hn, hn2]
  generalize List.lookup k s.nvs = o
  rcases o with _ | ⟨w | w | w⟩ <;> rfl

theorem nvs_get_u32_head (m : nvs_open_mode_t) (k : String) (s : State)
    (h : s.faults.headD 0 = 0) :
    nvs_get_u32 (some m) k s
      = ((nvs_get_u32 (some m) k (s.with_faults [])).1, s.with_faults s.faults.tail) := by
  simp only [nvs_get_u32, take_fault_head s h, take_fault_nil (s.with_faults []) rfl]
  simp only [ne_eq, not_true_eq_false, if_false]
  have hn : (s.with_faults []).nvs = s.nvs := rfl
  have hn2 : (s.with_faults s.faults.tail).nvs = s.nvs := rfl
  rw [hn, hn2]
  generalize List.lookup k s.nvs = o
  rcases o with _ | ⟨w | w | w⟩ <;> rfl

theorem nvs_get_str_head (m : nvs_open_mode_t) (k : String) (n : Nat) (s : State)
    (h : s.faults.headD 0 = 0) :
    nvs_get_str (some m) k n s
      = ((nvs_get_str (some m) k n (s.with_faults [])).1, s.with_faults s.faults.tail) := by
  simp only [nvs_get_str, take_fault_head s h, take_fault_nil (s.with_faults []) rfl]
  simp only [ne_eq, not_true_eq_false, if_false]
  have hn : (s.with_faults []).nvs = s.nvs := rfl
  have hn2 : (s.with_faults s.faults.tail).nvs = s.nvs := rfl
  rw [hn, hn2]
  generalize List.lookup k s.nvs = o
  rcases o with _ | ⟨w | w | w⟩
  · rfl
  · rfl
  · rfl
  · dsimp only
    split <;> rfl

theorem drop_tail_add (k : Nat) (fs : List Int) : fs.tail.drop k = fs.drop (1 + k) := by
  cases fs with
  | nil => simp
  | cons f r => simp [Nat.add_comm 1 k]

/-- The continue loop under faults that spare its reads: it consumes them and
touches nothing else of the state. -/
theorem read_continue_contexts_unfaulted (m : nvs_open_mode_t) (l a : Nat) (n c : Nat)
    (att : volf_publish_attempt) (s : State)
    (hz : unfaulted (continue_reads s.nvs l a n c) s.faults = true) :
    (read_continue_contexts (some m) l a n c att s).2
      = s.with_faults (s.faults.drop (continue_reads s.nvs l a n c)) := by
  induction n generalizing c att s with
  | zero => exact (with_faults_self s).symm
  | succ n ih =>
    cases ht : stored_text s.nvs (snprintf MAX_KEY_SIZE (ERROR_CONTINUE_KEY_TEMPLATE l a c)) with
    | none =>
      simp only [continue_reads, ht] at hz ⊢
      obtain ⟨h0, -⟩ := unfaulted_succ 0 _ hz
      obtain ⟨e, he⟩ := nvs_get_str_none m _ (s.with_faults []) rfl ht
      simp only [read_continue_contexts, nvs_get_str_head m _ _ s h0, he]
      cases hfs : s.faults <;> rfl
    | some v =>
      simp only [continue_reads, ht] at hz ⊢
      obtain ⟨h0, h1⟩ := unfaulted_succ _ _ (by rw [Nat.add_comm] at hz; exact hz)
      have he := nvs_get_str_some m _ (s.with_faults []) rfl v ht
      simp only [read_continue_contexts, nvs_get_str_head m _ _ s h0, he]
      rw [ih (c + 1) _ (s.with_faults s.faults.tail) h1]
      show s.with_faults (s.faults.tail.drop _) = _
      rw [drop_tail_add]
      rfl

theorem volf_read_publish_attempt_unfaulted (m : nvs_open_mode_t) (att : volf_publish_attempt)
    (l a : Nat) (s : State) (hz : unfaulted (attempt_reads s.nvs l a) s.faults = true) :
    (volf_read_publish_attempt (some m) att l a s).2
      = s.with_faults (s.faults.drop (attempt_reads s.nvs l a)) := by
  unfold attempt_reads at hz ⊢
  obtain ⟨h0, h1⟩ := unfaulted_succ _ _ (show unfaulted (continue_reads s.nvs l a
    MAX_CONTINUE_CONTEXTS 1 + 2 + 1) s.faults = true by
      rw [show continue_reads s.nvs l a MAX_CONTINUE_CONTEXTS 1 + 2 + 1
        = 3 + continue_reads s.nvs l a MAX_CONTINUE_CONTEXTS 1 by omega]; exact hz)
  obtain ⟨h2, h3⟩ := unfaulted_succ _ _ (show unfaulted (continue_reads s.nvs l a
    MAX_CONTINUE_CONTEXTS 1 + 1 + 1) s.faults.tail = true from h1)
  obtain ⟨h4, h5⟩ := unfaulted_succ _ _ h3
  unfold volf_read_publish_attempt
  rw [nvs_get_u32_head m _ s h0]
  dsimp only
  generalize (nvs_get_u32 (some m) _ (s.with_faults [])).1 = r1
  rw [nvs_get_str_head m _ _ (s.with_faults s.faults.tail) h2]
  dsimp only
  generalize (nvs_get_str (some m) _ _ ((s.with_faults s.faults.tail).with_faults [])).1 = r2
  rw [nvs_get_str_head m _ _
    ((s.with_faults s.faults.tail).with_faults (s.with_faults s.faults.tail).faults.tail) h4]
  dsimp only
  generalize (nvs_get_str (some m) _ _ (((s.with_faults s.faults.tail).with_faults
    (s.with_faults s.faults.tail).faults.tail).with_faults [])).1 = r3
  refine (read_continue_contexts_unfaulted m l a _ _ _ _ ?_).trans ?_
  · exact h5
  · show s.with_faults (s.faults.tail.tail.tail.drop _) = _
    rw [drop_tail_add, drop_tail_add, drop_tail_add]
    congr 2
    show 1 + (1 + (1 + continue_reads s.nvs l a MAX_CONTINUE_CONTEXTS 1)) = _
    omega

theorem read_publish_attempts_unfaulted (m : nvs_open_mode_t) (l idx : Nat) (n p : Nat)
    (s : State) (hz : unfaulted (attempts_reads s.nvs l n p) s.faults = true)
    (hs : ledger_shape s.loaded_errors) (hi : idx < MAX_ERROR_LOGS) (hp : 1 ≤ p)
    (hn : p - 1 + n ≤ MAX_PUBLISH_ATTEMPTS) :
    (read_publish_attempts (some m) l idx n p s).frame = s.frame ∧
    (read_publish_attempts (some m) l idx n p s).faults
      = s.faults.drop (attempts_reads s.nvs l n p) ∧
    ledger_shape (read_publish_attempts (some m) l idx n p s).loaded_errors := by
  induction n generalizing p s with
  | zero => exact ⟨rfl, rfl, hs⟩
  | succ n ih =>
    obtain ⟨log, hlog, hlen⟩ := ledger_shape_get _ idx hs hi
    have hlt : p - 1 < log.publish_attempts.length := by rw [hlen]; omega
    simp only [attempts_reads] at hz ⊢
    obtain ⟨hz1, hz2⟩ := unfaulted_add _ _ _ hz
    simp only [read_publish_attempts, hlog, List.getElem?_eq_getElem hlt]
    have h1 := volf_read_publish_attempt_unfaulted m (log.publish_attempts[p - 1]) l p s hz1
    generalize volf_read_publish_attempt (some m) (log.publish_attempts[p - 1]) l p s = q at h1
    obtain ⟨a1, s1⟩ := q
    dsimp only at h1 ⊢
    subst h1
    obtain ⟨g1, g2, g3⟩ := ih (p + 1)
      { s.with_faults (s.faults.drop (attempt_reads s.nvs l p)) with
        loaded_errors :=
          { s.loaded_errors with
            error_logs := s.loaded_errors.error_logs.set idx
              (volf_error_log.mk (log.publish_attempts.set (p - 1) a1)
                log.num_publish_attempts) } }
      hz2 (ledger_shape_set _ idx _ hs (by simpa using hlen)) (by omega) (by omega)
    refine ⟨g1, g2.trans ?_, g3⟩
    show (s.faults.drop (attempt_reads s.nvs l p)).drop (attempts_reads s.nvs l n (p + 1)) = _
    rw [List.drop_drop]

theorem set_num_publish_attempts_frame (idx n : Nat) (s : State)
    (hs : ledger_shape s.loaded_errors) (hi : idx < MAX_ERROR_LOGS) :
    (set_num_publish_attempts idx n s).frame = s.frame ∧
    (set_num_publish_attempts idx n s).faults = s.faults ∧
    ledger_shape (set_num_publish_attempts idx n s).loaded_errors := by
  obtain ⟨log, hlog, hlen⟩ := ledger_shape_get _ idx hs hi
  unfold set_num_publish_attempts
  rw [hlog]
  exact ⟨rfl, rfl, ledger_shape_set _ idx _ hs hlen⟩

theorem read_error_logs_unfaulted (n l idx : Nat) (s : State)
    (hz : unfaulted (logs_reads s.nvs n l) s.faults = true)
    (hx : no_excess s.nvs n l = true) (hs : ledger_shape s.loaded_errors)
    (hi : idx + n ≤ MAX_ERROR_LOGS) :
    (read_error_logs (some nvs_open_mode_t.NVS_READONLY) n l idx s).frame = s.frame ∧
    (read_error_logs (some nvs_open_mode_t.NVS_READONLY) n l idx s).faults
      = s.faults.drop (logs_reads s.nvs n l) ∧
    ledger_shape (read_error_logs (some nvs_open_mode_t.NVS_READONLY) n l idx s).loaded_errors := by
  induction n generalizing l idx s with
  | zero => exact ⟨rfl, rfl, hs⟩
  | succ n ih =>
    have hx' := hx
    simp only [no_excess, Bool.and_eq_true] at hx'
    cases hc : stored_attempt_count s.nvs l with
    | none =>
      simp only [logs_reads, hc] at hz ⊢
      obtain ⟨h0, h1⟩ := unfaulted_succ _ _ (by rw [Nat.add_comm] at hz; exact hz)
      obtain ⟨e, he⟩ := nvs_get_u8_count_none nvs_open_mode_t.NVS_READONLY l
        (s.with_faults []) rfl hc
      simp only [read_error_logs, nvs_get_u8_head _ _ s h0, he]
      obtain ⟨g1, g2, g3⟩ := ih (l + 1) idx (s.with_faults s.faults.tail) h1 hx'.2 hs (by omega)
      exact ⟨g1, g2.trans (drop_tail_add _ _), g3⟩
    | some v =>
      have hv : v ≤ MAX_PUBLISH_ATTEMPTS := no_excess_bound s.nvs (n + 1) l l v hx
        (Nat.le_refl _) (by omega) hc
      simp only [logs_reads, hc] at hz ⊢
      obtain ⟨h0, h1⟩ := unfaulted_succ _ _ (show unfaulted
        (attempts_reads s.nvs l v 1 + logs_reads s.nvs n (l + 1) + 1) s.faults = true by
          rw [show attempts_reads s.nvs l v 1 + logs_reads s.nvs n (l + 1) + 1
            = 1 + attempts_reads s.nvs l v 1 + logs_reads s.nvs n (l + 1) by omega]; exact hz)
      obtain ⟨h2, h3⟩ := unfaulted_add _ _ _ h1
      have he := nvs_get_u8_count_some nvs_open_mode_t.NVS_READONLY l (s.with_faults []) rfl v hc
      have hidx : idx < MAX_ERROR_LOGS := by omega
      simp only [read_error_logs, nvs_get_u8_head _ _ s h0, he, gt_iff_lt, Nat.not_lt.mpr hv,
        if_false]
      obtain ⟨p1, p2, p3⟩ := read_publish_attempts_unfaulted nvs_open_mode_t.NVS_READONLY l idx
        v 1 (s.with_faults s.faults.tail) h2 hs hidx (Nat.le_refl _) (by omega)
      generalize read_publish_attempts (some nvs_open_mode_t.NVS_READONLY) l idx v 1
        (s.with_faults s.faults.tail) = s1 at p1 p2 p3
      obtain ⟨q1, q2, q3⟩ := set_num_publish_attempts_frame idx v s1 p3 hidx
      generalize set_num_publish_attempts idx v s1 = s2 at q1 q2 q3
      have hmod : (idx + 1) % 256 = idx + 1 := by
        unfold MAX_ERROR_LOGS at hi
        exact Nat.mod_eq_of_lt (by omega)
      rw [hmod]
      have hn2 : s2.nvs = s.nvs :=
        (congrArg (fun c => c.1) q1).trans (congrArg (fun c => c.1) p1)
      have hf2 : s2.faults = s.faults.tail.drop (attempts_reads s.nvs l v 1) := q2.trans p2
      obtain ⟨g1, g2, g3⟩ := ih (l + 1) (idx + 1)
        { s2 with loaded_errors :=
            { s2.loaded_errors with
              num_error_logs := (s2.loaded_errors.num_error_logs + 1) % 256 } }
        (by show unfaulted (logs_reads s2.nvs n (l + 1)) s2.faults = true
            rw [hn2, hf2]; exact h3)
        (by show no_excess s2.nvs n (l + 1) = true
            rw [hn2]; exact hx'.2)
        ⟨q3.1, q3.2⟩ (by omega)
      refine ⟨g1.trans (q1.trans p1), g2.trans ?_, g3⟩
      show s2.faults.drop (logs_reads s2.nvs n (l + 1)) = _
      rw [hn2, hf2, List.drop_drop, drop_tail_add]
      congr 1
      omega

theorem volf_read_errors_unfaulted (s : State)
    (hz : unfaulted (1 + logs_reads s.nvs s.error_log_count 1) s.faults = true)
    (hx : no_excess s.nvs s.error_log_count 1 = true) (hs : ledger_shape s.loaded_errors)
    (hL : s.error_log_count ≤ MAX_ERROR_LOGS) :
    (volf_read_errors s).frame = s.frame ∧
    (volf_read_errors s).faults = s.faults.drop (1 + logs_reads s.nvs s.error_log_count 1) ∧
    ledger_shape (volf_read_errors s).loaded_errors := by
  obtain ⟨h0, h1⟩ := unfaulted_succ _ _ (by rw [Nat.add_comm] at hz; exact hz)
  unfold volf_read_errors
  simp only [nvs_open_head _ _ (show ({ s with loaded_errors :=
    { s.loaded_errors with num_error_logs := 0 } } : State).faults.headD 0 = 0 from h0)]
  obtain ⟨g1, g2, g3⟩ := read_error_logs_unfaulted s.error_log_count 1 0
    (({ s with loaded_errors := { s.loaded_errors with num_error_logs := 0 } } :
      State).with_faults s.faults.tail) h1 hx ⟨hs.1, hs.2⟩ (by omega)
  exact ⟨g1, g2.trans (drop_tail_add _ _), g3⟩

theorem nvs_get_u8_unreadable (m : nvs_open_mode_t) (l : Nat) (s : State)
    (h : s.faults.headD 0 ≠ 0 ∨ stored_attempt_count s.nvs l = none) :
    ∃ e, nvs_get_u8 (some m) (snprintf MAX_KEY_SIZE (PUBLISH_ATTEMPT_COUNT_KEY_TEMPLATE l)) s
      = (Except.error e, s.with_faults s.faults.tail) := by
  by_cases h0 : s.faults.headD 0 = 0
  · have hc : stored_attempt_count s.nvs l = none := h.resolve_left (not_not.mpr h0)
    obtain ⟨e, he⟩ := nvs_get_u8_count_none m l (s.with_faults []) rfl hc
    exact ⟨e, by rw [nvs_get_u8_head m _ s h0, he]⟩
  · refine ⟨s.faults.headD 0, ?_⟩
    simp only [nvs_get_u8, take_fault, ne_eq, h0, not_false_eq_true, if_true]
    rfl

/-- C18 (amended). With a persisted log count L between 1 and MAX_ERROR_LOGS,
no log of more than three attempts, and the store operations of the
reconstruction succeeding: when the read of the attempt count of log L then
fails, be it with any status forced on nvs_get_u8 (an I/O error), because the
key holds a value of another type, or because the key is missing, the
failure is at most logged. No key is erased, error_log_count is L,
publish_attempt_count is its previous value plus one, continue_count is
unchanged, the module is initialised, and the failed read is the last store
operation of the call. -/
theorem unreadable_attempt_count_only_logged (s : State) (L : Nat)
    (hE : s.nvs.lookup ERROR_LOG_COUNT_KEY = some (nvs_value.u8 L)) (hL : 0 < L)
    (hL5 : L ≤ MAX_ERROR_LOGS) (hx : no_excess s.nvs L 1 = true)
    (hs : ledger_shape s.loaded_errors)
    (hz : unfaulted (init_reads_before_count s.nvs L) s.faults = true)
    (hfail : s.faults.getD (init_reads_before_count s.nvs L) 0 ≠ 0 ∨
      stored_attempt_count s.nvs L = none) :
    (volf_error_init s).nvs = s.nvs ∧
    (volf_error_init s).error_log_count = L ∧
    (volf_error_init s).publish_attempt_count = (s.publish_attempt_count + 1) % 256 ∧
    (volf_error_init s).continue_count = s.continue_count ∧
    (volf_error_init s).initialized = true ∧
    (volf_error_init s).out_of_bounds = s.out_of_bounds ∧
    (volf_error_init s).faults = s.faults.drop (init_reads_before_count s.nvs L + 1) := by
  unfold init_reads_before_count at hz hfail ⊢
  obtain ⟨h0, hz1⟩ := unfaulted_succ _ _ (show unfaulted (logs_reads s.nvs L 1 + 2 + 1)
    s.faults = true by
      rw [show logs_reads s.nvs L 1 + 2 + 1 = 3 + logs_reads s.nvs L 1 by omega]; exact hz)
  obtain ⟨h1, hz2⟩ := unfaulted_succ _ _ (show unfaulted (1 + logs_reads s.nvs L 1 + 1)
    s.faults.tail = true by
      rw [show 1 + logs_reads s.nvs L 1 + 1 = logs_reads s.nvs L 1 + 2 by omega]; exact hz1)
  have hget : nvs_get_u8 (some nvs_open_mode_t.NVS_READWRITE) ERROR_LOG_COUNT_KEY
      ((s.with_faults s.faults.tail).with_faults [])
        = (Except.ok L, (s.with_faults s.faults.tail).with_faults []) := by
    rw [nvs_get_u8_ok _ _ _ rfl]
    show ((match s.nvs.lookup ERROR_LOG_COUNT_KEY with
      | some (nvs_value.u8 v) => Except.ok v
      | some _ => Except.error ESP_ERR_NVS_TYPE_MISMATCH
      | none => Except.error ESP_ERR_NVS_NOT_FOUND), _) = _
    rw [hE]
  simp only [volf_error_init, nvs_open_head _ s h0, ESP_OK, ne_eq, not_true_eq_false, if_false,
    nvs_get_u8_head _ _ (s.with_faults s.faults.tail) h1, hget, gt_iff_lt, hL, if_true]
  generalize hu : (s.with_faults s.faults.tail).with_faults
    (s.with_faults s.faults.tail).faults.tail = u
  have un : u.nvs = s.nvs := by rw [← hu]; rfl
  have uf : u.faults = s.faults.tail.tail := by rw [← hu]; rfl
  have up : u.publish_attempt_count = s.publish_attempt_count := by rw [← hu]; rfl
  have uc : u.continue_count = s.continue_count := by rw [← hu]; rfl
  have uo : u.out_of_bounds = s.out_of_bounds := by rw [← hu]; rfl
  have ul : u.loaded_errors = s.loaded_errors := by rw [← hu]; rfl
  obtain ⟨r1, r2, -⟩ := volf_read_errors_unfaulted { u with error_log_count := L }
    (by show unfaulted (1 + logs_reads u.nvs L 1) u.faults = true
        rw [un, uf]; exact hz2)
    (by show no_excess u.nvs L 1 = true
        rw [un]; exact hx)
    (by show ledger_shape u.loaded_errors
        rw [ul]; exact hs)
    hL5
  generalize volf_read_errors { u with error_log_count := L } = t at r1 r2
  have tn : t.nvs = s.nvs := (congrArg (fun c => c.1) r1).trans un
  have tc : t.cursors = (L, u.publish_attempt_count, u.continue_count) :=
    congrArg (fun c => c.2.1) r1
  have ti : t.out_of_bounds = s.out_of_bounds := (congrArg (fun c => c.2.2.2.2) r1).trans uo
  have te : t.error_log_count = L := congrArg (fun c => c.1) tc
  have tp : t.publish_attempt_count = s.publish_attempt_count :=
    (congrArg (fun c => c.2.1) tc).trans up
  have tcc : t.continue_count = s.continue_count := (congrArg (fun c => c.2.2) tc).trans uc
  have tf : t.faults = s.faults.drop (3 + logs_reads s.nvs L 1) := by
    rw [r2]
    show u.faults.drop (1 + logs_reads u.nvs L 1) = _
    rw [uf, un, drop_tail_add, drop_tail_add]
    congr 1
    omega
  have hh : t.faults.headD 0 ≠ 0 ∨ stored_attempt_count t.nvs L = none := by
    rw [tf, headD_drop, tn]
    exact hfail
  obtain ⟨e, he⟩ := nvs_get_u8_unreadable nvs_open_mode_t.NVS_READWRITE L t hh
  rw [te, he]
  refine ⟨tn, te, ?_, tcc, trivial, ti, ?_⟩
  · show (t.publish_attempt_count + 1) % 256 = _
    rw [tp]
  · show t.faults.tail = _
    rw [tf, tail_drop]

theorem unreadable_attempt_count_only_logged_witness :
    (volf_error_init { power_on (one_attempt_store 2) 10 with
        faults := [0, 0, 0, 0, 0, 0, 0, 0, 0, 0, 0x1101] }).nvs = one_attempt_store 2 ∧
    (volf_error_init { power_on (one_attempt_store 2) 10 with
        faults := [0, 0, 0, 0, 0, 0, 0, 0, 0, 0, 0x1101] }).publish_attempt_count
      = (0 + 1) % 256 ∧
    (volf_error_init (power_on [("ELC", nvs_value.u8 1), ("PAC_1", nvs_value.str "1")] 10)).nvs
      = [("ELC", nvs_value.u8 1), ("PAC_1", nvs_value.str "1")] :=
  ⟨(unreadable_attempt_count_only_logged
      { power_on (one_attempt_store 2) 10 with
        faults := [0, 0, 0, 0, 0, 0, 0, 0, 0, 0, 0x1101] } 1
      (by decide) (by decide) (by decide) (by decide) zero_ledger_shape (by decide)
      (Or.inl (by decide))).1,
   (unreadable_attempt_count_only_logged
      { power_on (one_attempt_store 2) 10 with
        faults := [0, 0, 0, 0, 0, 0, 0, 0, 0, 0, 0x1101] } 1
      (by decide) (by decide) (by decide) (by decide) zero_ledger_shape (by decide)
      (Or.inl (by decide))).2.2.1,
   (unreadable_attempt_count_only_logged
      (power_on [("ELC", nvs_value.u8 1), ("PAC_1", nvs_value.str "1")] 10) 1
      (by decide) (by decide) (by decide) (by decide) zero_ledger_shape (by decide)
      (Or.inr (by decide))).1⟩

/-- A retry text of 40 characters and 80 bytes does not fit the context
buffer of MAX_ERROR_CONTEXT_SIZE bytes: nvs_get_str refuses it and the attempt
is reconstructed with an empty retry context. -/
theorem long_text_is_not_loaded :
    ("éééééééééééééééééééééééééééééééééééééééé" : String).length = 40 ∧
    stored_text
      [("ELC", nvs_value.u8 1), ("PAC_1", nvs_value.u8 1),
       ("ER_1_1", nvs_value.str "éééééééééééééééééééééééééééééééééééééééé")] "ER_1_1" = none ∧
    ((volf_error_init (power_on
      [("ELC", nvs_value.u8 1), ("PAC_1", nvs_value.u8 1),
       ("ER_1_1", nvs_value.str "éééééééééééééééééééééééééééééééééééééééé")]
      10)).loaded_errors.error_logs.head?.map
        (fun l => l.publish_attempts.head?.map (fun a => a.retry_context)))
      = some (some "") := by
  decide

/-- More than MAX_ERROR_LOGS readable logs: the store holds the log count 6
and one attempt in each of the logs 1..6. The sixth log is reconstructed
through error_logs[5], outside the array: the runtime 200 and the retry text
stored for its attempt are read into memory outside the array, so nothing
can be said of the state volf_error_init leaves. -/
theorem init_over_six_logs_leaves_the_array :
    six_attempt_logs_store.lookup ERROR_LOG_COUNT_KEY = some (nvs_value.u8 6) ∧
    no_excess six_attempt_logs_store 6 1 = true ∧
    readable_logs six_attempt_logs_store 6 1 = [1, 2, 3, 4, 5, 6] ∧
    (volf_error_init (power_on six_attempt_logs_store 10)).loaded_errors.error_logs.length
      = MAX_ERROR_LOGS ∧
    stored_runtime six_attempt_logs_store 6 1 = some 200 ∧
    stored_text six_attempt_logs_store "ER_6_1" = some "esp_wifi_connect(12295)" ∧
    (volf_error_init (power_on six_attempt_logs_store 10)).out_of_bounds = true := by
  decide

end Volf
